import Mathlib

/-!
# Verification of the SCST SGV pool allocator (`scst_mem.c`)

A shallow embedding of the scatter-gather vector pool allocator of
`src/trunk/scst/src/scst_mem.c`, together with theorems settling the
frozen claims about it.

Modelling conventions:
* machine integers become `Nat`/`Int` (counters that C declares `int` and
  that may go negative, such as `sgv_pages_total`, become `Int`);
* the page allocator back-end (`alloc_pages_fn`) is modelled by a supply
  list `List (Option Nat)` of page frame numbers: each call consumes one
  element, `none` (or exhaustion) models an allocation failure;
* `kmalloc`/`kmem_cache_alloc` success is modelled by an oracle
  `List Bool`, one element popped per attempted metadata allocation
  (an exhausted oracle means success);
* the intrusive doubly linked lists (`recycling_lists[order]`,
  `sorted_recycling_list`) in which one object participates twice are
  modelled by an arena `List (ObjId × SgvObj)` per pool plus id lists;
* atomic counters become plain fields of a global state record that is
  threaded through every function (the code is verified sequentially);
* the global state carries an event trace recording every charge/release
  of the four resource classes (consumer quota, watermark reservation,
  per-bucket counters, pages), used to reason about unwind order.
-/

/-- `PAGE_SHIFT` of the platform (4 KiB pages). -/
def PAGE_SHIFT : Nat := 12

/-- `PAGE_SIZE = 1 << PAGE_SHIFT`. -/
def PAGE_SIZE : Nat := 4096

/-- Kernel `HZ` (jiffies per second); the exact value is immaterial. -/
def HZ : Nat := 1000

/-- `#define PURGE_INTERVAL (60 * HZ)` -/
def PURGE_INTERVAL : Nat := 60 * HZ

/-- `#define PURGE_TIME_AFTER PURGE_INTERVAL` -/
def PURGE_TIME_AFTER : Nat := PURGE_INTERVAL

/-- `#define SHRINK_TIME_AFTER (1 * HZ)` -/
def SHRINK_TIME_AFTER : Nat := 1 * HZ

/-- `#define MAX_PAGES_PER_POOL 50` -/
def MAX_PAGES_PER_POOL : Nat := 50

/-- `SGV_POOL_ELEMENTS` (number of per-order buckets) comes from
`scst_mem.h`, which is not in the tree; the claims do not depend on its
exact value, we fix the representative value 11. -/
def SGV_POOL_ELEMENTS : Nat := 11

/-- `sgv_max_local_order`: orders up to this embed both `sg_entries` and
`trans_tbl` in the object allocation.  Computed at init by
`sgv_evaluate_local_order` from platform struct sizes; fixed to a
representative value, the claims do not depend on it. -/
def sgv_max_local_order : Nat := 4

/-- `sgv_max_trans_order`: orders up to this embed `trans_tbl` in the
object allocation (see `sgv_evaluate_local_order`). -/
def sgv_max_trans_order : Nat := 7

/-- Kernel `fls` (find last set): index of the highest set bit, 1-based;
`fls 0 = 0`. -/
def fls (x : Nat) : Nat := if x = 0 then 0 else Nat.log2 x + 1

/-- Kernel `get_order(size)`: `size--; size >>= PAGE_SHIFT; return fls(size)`.
The smallest order `k` with `(1 << k)` pages covering `size` bytes. -/
def get_order (size : Nat) : Nat := fls ((size - 1) / PAGE_SIZE)

/-- One `struct scatterlist` entry as the allocator uses it: a backing
page identified by its page frame number (`page_to_pfn (sg_page e)`),
and a byte length.  The offset is always 0 in this code. -/
structure Sgl where
  pfn : Nat
  length : Nat
  deriving DecidableEq, Repr

/-- A zeroed scatterlist entry (`sg_clear` / `sg_init_table` state). -/
def sglZero : Sgl := ⟨0, 0⟩

/-- `struct trans_tbl_ent { unsigned short sg_num, pg_count; }`. -/
structure TransTblEnt where
  pg_count : Nat
  sg_num : Nat
  deriving DecidableEq, Repr

/-- A zeroed translation table entry. -/
def ttZero : TransTblEnt := ⟨0, 0⟩

/-- `enum sgv_clustering_types`. -/
inductive SgvClustering where
  | sgv_no_clustering
  | sgv_tail_clustering
  | sgv_full_clustering
  deriving DecidableEq, Repr

/-- The merge attempt that `sgv_check_full_clustering` performs on one
candidate entry `sg[i]` against the new entry `sg[cur]`: first the
head-merge test `pfn == pfn_cur_next && full_page_cur`, then the
tail-merge test `pfn_next == pfn_cur && full_page`.  Returns the updated
array and the merge target on success. -/
def tryMergeAt (sg : List Sgl) (cur i : Nat) : Option (List Sgl × Nat) :=
  let c := sg.getD cur sglZero
  let pfn_cur := c.pfn
  let len_cur := c.length
  let pfn_cur_next := pfn_cur + len_cur / PAGE_SIZE
  let full_page_cur := len_cur % PAGE_SIZE = 0
  let e := sg.getD i sglZero
  let pfn := e.pfn
  let pfn_next := pfn + e.length / PAGE_SIZE
  let full_page := e.length % PAGE_SIZE = 0
  if pfn = pfn_cur_next ∧ full_page_cur then
    -- out_head: sg_assign_page(&sg[i], sg_page(&sg[cur])); sg[i].length += len_cur
    some ((sg.set i { pfn := pfn_cur, length := e.length + len_cur }).set cur sglZero, i)
  else if pfn_next = pfn_cur ∧ full_page then
    -- out_tail: sg[i].length += len_cur
    some ((sg.set i { pfn := e.pfn, length := e.length + len_cur }).set cur sglZero, i)
  else
    none

/-- The backwards scan `for (i = cur - 1; i >= 0; i--)` of
`sgv_check_full_clustering`; the argument is one past the first index
tried, so `scanMerge sg cur cur` scans `cur-1` down to `0`. -/
def scanMerge (sg : List Sgl) (cur : Nat) : Nat → Option (List Sgl × Nat)
  | 0 => none
  | i + 1 =>
    match tryMergeAt sg cur i with
    | some r => some r
    | none => scanMerge sg cur i

/-- `sgv_check_full_clustering(sg, cur, hint)`: try the hint entry first
(if `hint >= 0`), then scan entries `cur-1 .. 0`; return the updated
array and the merge target, `-1` when nothing merged. -/
def sgv_check_full_clustering (sg : List Sgl) (cur : Nat) (hint : Int) :
    List Sgl × Int :=
  let hres := if hint ≥ 0 then tryMergeAt sg cur hint.toNat else none
  match hres with
  | some (sg', i) => (sg', (i : Int))
  | none =>
    match scanMerge sg cur cur with
    | some (sg', i) => (sg', (i : Int))
    | none => (sg, -1)

/-- `sgv_check_tail_clustering(sg, cur, hint)`: compare only against the
immediately previous entry (the hint parameter is unused in the C code). -/
def sgv_check_tail_clustering (sg : List Sgl) (cur : Nat) (_hint : Int) :
    List Sgl × Int :=
  if cur = 0 then (sg, -1)
  else
    let prev := cur - 1
    let e := sg.getD prev sglZero
    let c := sg.getD cur sglZero
    let pfn_prev := e.pfn + e.length / PAGE_SIZE
    let full_page := e.length % PAGE_SIZE = 0
    if pfn_prev = c.pfn ∧ full_page then
      ((sg.set prev { pfn := e.pfn, length := e.length + c.length }).set cur sglZero,
        (prev : Int))
    else (sg, -1)

/-- The full-clustering merge rule exactly as the specification words it,
for a *whole new page* at `sg[cur]`: a candidate `e = sg[i]` tail-merges
exactly when `pfn e + length e / PAGE = pfn new` and `length e` is
page-aligned, and head-merges exactly when `pfn new + 1 = pfn e` (the new
page being whole); the merged entry grows by the new page's length. -/
def specMergeAt (sg : List Sgl) (cur i : Nat) : Option (List Sgl × Nat) :=
  let c := sg.getD cur sglZero
  let e := sg.getD i sglZero
  if e.pfn + e.length / PAGE_SIZE = c.pfn ∧ e.length % PAGE_SIZE = 0 then
    -- tail-merge: extend e.length by the new page's length
    some ((sg.set i { pfn := e.pfn, length := e.length + c.length }).set cur sglZero, i)
  else if c.pfn + 1 = e.pfn then
    -- head-merge: e.page := new page, extend e.length
    some ((sg.set i { pfn := c.pfn, length := e.length + c.length }).set cur sglZero, i)
  else
    none

/-- Specification-side scan of candidates `cur-1 .. 0`. -/
def specScan (sg : List Sgl) (cur : Nat) : Nat → Option (List Sgl × Nat)
  | 0 => none
  | i + 1 =>
    match specMergeAt sg cur i with
    | some r => some r
    | none => specScan sg cur i

/-- The clusterer in full mode as the specification describes it: test the
hint entry (the last merge target) first, then scan `cur-1` down to `0`;
return the merged index or no-merge (`-1`). -/
def fullClusteringSpec (sg : List Sgl) (cur : Nat) (hint : Int) :
    List Sgl × Int :=
  let hres := if hint ≥ 0 then specMergeAt sg cur hint.toNat else none
  match hres with
  | some (sg', i) => (sg', (i : Int))
  | none =>
    match specScan sg cur cur with
    | some (sg', i) => (sg', (i : Int))
    | none => (sg, -1)

/-! ## Event trace and global state -/

/-- An object id in a pool's arena (models an object's address identity
on the intrusive lists). -/
abbrev ObjId := Nat

/-- A pool id in the global pools map. -/
abbrev PoolId := Nat

/-- Instrumentation events recording every acquisition and release of the
four resource classes the unwind policy talks about, plus purge-driven
cache eviction and purge-work scheduling. -/
inductive Ev where
  /-- `atomic_add_return` in `sgv_check_allowed_mem`. -/
  | chargeQuota (n : Int)
  /-- `atomic_sub` of the quota counter. -/
  | unchargeQuota (n : Int)
  /-- `atomic_add(pages_to_alloc, &sgv_pages_total)` in `sgv_hiwmk_check`. -/
  | reserveHiwmk (n : Int)
  /-- `atomic_sub` in `sgv_hiwmk_uncheck`. -/
  | releaseHiwmk (n : Int)
  /-- `atomic_sub` in `__sgv_purge_from_cache` (cache eviction). -/
  | purgeHiwmk (n : Int)
  /-- bucket `cached_entries`/`cached_pages` increment in `sgv_get_obj`. -/
  | incBucket (pool : PoolId) (pages : Int)
  /-- `sgv_dec_cached_entries`. -/
  | decBucket (pool : PoolId) (pages : Int)
  /-- a successful `alloc_pages_fn` call. -/
  | allocPage (pfn : Nat)
  /-- a `free_pages_fn` call releasing `n` pages. -/
  | freePages (n : Nat)
  /-- `schedule_delayed_work(&pool->sgv_purge_work, delay)`. -/
  | schedulePurge (pool : PoolId) (delay : Nat)
  deriving DecidableEq, Repr

/-- `struct scst_mem_lim`: atomic `alloced_pages` and the read-only
ceiling `max_allowed_pages`. -/
structure MemLim where
  alloced_pages : Int
  max_allowed_pages : Int
  deriving DecidableEq, Repr

/-- `struct sgv_pool_obj`.  `order_or_pages` is the overloaded
discriminator: `k ≥ 0` means a bucketed object of `2^k` pages, `-p` a big
object of exactly `p` pages.  `sg_external`/`tt_external` record whether
`sg_entries`/`trans_tbl` were kmalloced outside the object
(`obj->sg_entries != obj->sg_entries_data` in the C). -/
structure SgvObj where
  order_or_pages : Int
  owner_pool : PoolId
  sg_count : Nat
  sg_entries : List Sgl
  trans_tbl : Option (List TransTblEnt)
  sg_external : Bool
  tt_external : Bool
  orig_sg : Nat
  orig_length : Nat
  allocator_priv : Nat
  time_stamp : Nat
  deriving DecidableEq, Repr

/-- `struct sgv_pool`.  Cached (free-listed) objects live in `arena`,
keyed by `ObjId`; `recycling_lists` and `sorted_recycling_list` hold ids,
mirroring the two intrusive list memberships of each cached object.
`next_id` generates fresh ids on insertion. -/
structure SgvPool where
  clustering_type : SgvClustering
  arena : List (ObjId × SgvObj)
  next_id : Nat
  recycling_lists : List (List ObjId)
  sorted_recycling_list : List ObjId
  cached_entries : Int
  cached_pages : Int
  inactive_cached_pages : Int
  purge_work_scheduled : Bool
  hit_alloc : List Int
  total_alloc : List Int
  merged : List Int
  big_alloc : Int
  big_pages : Int
  big_merged : Int
  other_alloc : Int
  other_pages : Int
  other_merged : Int
  deriving DecidableEq, Repr

/-- The global allocator state: the registered pools, the active-pools
list, the purge round-robin cursor, the `sgv_pages_total` counter, the
watermarks, the hiwmk statistics, and the instrumentation trace. -/
structure SgvGlobal where
  pools : List (PoolId × SgvPool)
  active_pools_list : List PoolId
  cur_purge_pool : Option PoolId
  pages_total : Int
  hi_wmk : Int
  lo_wmk : Int
  releases_on_hiwmk : Int
  releases_on_hiwmk_failed : Int
  other_total_alloc : Int
  trace : List Ev
  deriving DecidableEq, Repr

/-- Append an instrumentation event. -/
def emit (g : SgvGlobal) (e : Ev) : SgvGlobal :=
  { g with trace := g.trace ++ [e] }

/-- Look up a pool by id. -/
def getPool (g : SgvGlobal) (pid : PoolId) : Option SgvPool :=
  List.lookup pid g.pools

/-- Replace the pool stored under `pid`. -/
def setPool (g : SgvGlobal) (pid : PoolId) (p : SgvPool) : SgvGlobal :=
  { g with pools := g.pools.map fun e => if e.1 = pid then (pid, p) else e }

/-- Update the pool stored under `pid` (no-op when absent). -/
def updPool (g : SgvGlobal) (pid : PoolId) (f : SgvPool → SgvPool) : SgvGlobal :=
  match getPool g pid with
  | some p => setPool g pid (f p)
  | none => g

/-- Look up a cached object in a pool's arena. -/
def getObj (p : SgvPool) (oid : ObjId) : Option SgvObj :=
  List.lookup oid p.arena

/-- Look up a cached object through the global state. -/
def lookupObj (g : SgvGlobal) (pid : PoolId) (oid : ObjId) : Option SgvObj :=
  match getPool g pid with
  | some p => getObj p oid
  | none => none

/-- Pop the next success/failure answer from a kmalloc oracle
(an exhausted oracle answers success). -/
def kpop (km : List Bool) : Bool × List Bool :=
  match km with
  | [] => (true, [])
  | b :: rest => (b, rest)

/-! ## Page allocation and freeing (`sgv_alloc_sg_entries` and friends) -/

/-- Pages spanned by one SG entry:
`(len >> PAGE_SHIFT) + ((len & ~PAGE_MASK) != 0)`. -/
def sgPagesSpan (len : Nat) : Nat :=
  len / PAGE_SIZE + (if len % PAGE_SIZE ≠ 0 then 1 else 0)

/-- Pages spanned by the first `n` SG entries (what
`sgv_free_sys_sg_entries(sg, n, priv)` hands back to the system). -/
def spanSum (sg : List Sgl) : Nat → Nat
  | 0 => 0
  | n + 1 => spanSum sg n + sgPagesSpan (sg.getD n sglZero).length

/-- `sgv_free_sys_sg_entries(sg, sg_count, priv)`: walk the first
`sg_count` entries and free the pages each one spans. -/
def sgv_free_sys_sg_entries (sg : List Sgl) (sg_count : Nat) (g : SgvGlobal) :
    SgvGlobal :=
  emit g (.freePages (spanSum sg sg_count))

/-- One step of the page-filling loop of `sgv_alloc_sg_entries`:
`sg_set_page(&sg[sg_count], page, PAGE_SIZE, 0)` followed by the
clustering check; on a merge the SG write index is not advanced. -/
def sgvAllocStep (ctype : SgvClustering) (sg : List Sgl) (sg_count : Nat)
    (merged : Int) (pfn : Nat) : List Sgl × Nat × Int :=
  let sg := sg.set sg_count { pfn := pfn, length := PAGE_SIZE }
  let r :=
    match ctype with
    | .sgv_full_clustering => sgv_check_full_clustering sg sg_count merged
    | .sgv_tail_clustering => sgv_check_tail_clustering sg sg_count merged
    | .sgv_no_clustering => (sg, -1)
  let sg_count' := if r.2 = -1 then sg_count + 1 else sg_count
  (r.1, sg_count', r.2)

/-- The `for (pg = 0; pg < pages; pg++)` loop of `sgv_alloc_sg_entries`:
consume one page from the supply per iteration; `none` (or an exhausted
supply) is an `alloc_pages_fn` failure.  Returns `none` on failure
together with the partially filled array for the caller to free. -/
def sgvAllocLoop (ctype : SgvClustering) :
    Nat → List Sgl → Nat → Int → List (Option Nat) → SgvGlobal →
    Option Nat × List Sgl × Nat × List (Option Nat) × SgvGlobal
  | 0, sg, sg_count, _merged, supply, g => (some sg_count, sg, sg_count, supply, g)
  | pg + 1, sg, sg_count, merged, supply, g =>
    match supply with
    | [] => (none, sg, sg_count, [], g)
    | none :: rest => (none, sg, sg_count, rest, g)
    | some pfn :: rest =>
      let g := emit g (.allocPage pfn)
      let r := sgvAllocStep ctype sg sg_count merged pfn
      sgvAllocLoop ctype pg r.1 r.2.1 r.2.2 rest g

/-- Set `trans_tbl[pg .. pg+n-1].sg_num := i + 1` (the inner
`for (j = 0; j < n; j++) trans_tbl[pg++].sg_num = i+1;`). -/
def setSgNums (tbl : List TransTblEnt) (pg i : Nat) : Nat → List TransTblEnt
  | 0 => tbl
  | n + 1 =>
    setSgNums (tbl.set pg { tbl.getD pg ttZero with sg_num := i + 1 }) (pg + 1) i n

/-- The translation-table fill loop of `sgv_alloc_sg_entries`: for each
of the `pages` SG indices `i`, record the running page counter in
`trans_tbl[i].pg_count` and tag the pages entry `i` spans with `i+1`.
The first argument is the number of remaining indices. -/
def transTblLoop (sg : List Sgl) :
    Nat → Nat → Nat → List TransTblEnt → List TransTblEnt
  | 0, _i, _pg, tbl => tbl
  | rem + 1, i, pg, tbl =>
    let n := sgPagesSpan (sg.getD i sglZero).length
    let tbl := tbl.set i { tbl.getD i ttZero with pg_count := pg }
    let tbl := setSgNums tbl pg i n
    transTblLoop sg rem (i + 1) (pg + n) tbl

/-- Result of `sgv_alloc_sg_entries`. -/
structure SgEntriesOut where
  sg_count : Nat
  sg : List Sgl
  trans : Option (List TransTblEnt)
  supply : List (Option Nat)
  g : SgvGlobal
  deriving DecidableEq, Repr

/-- `sgv_alloc_sg_entries(sg, pages, gfp_mask, clustering_type, trans_tbl,
alloc_fns, priv)` with the default system page back-end: allocate `pages`
pages one at a time, clustering after each; on any page-allocation
failure free everything allocated so far and return `sg_count = 0`; on
success rebuild the translation table when clustering is enabled and a
table is present. -/
def sgv_alloc_sg_entries (sg0 : List Sgl) (pages : Nat) (ctype : SgvClustering)
    (tt : Option (List TransTblEnt)) (supply : List (Option Nat))
    (g : SgvGlobal) : SgEntriesOut :=
  let r := sgvAllocLoop ctype pages sg0 0 (-1) supply g
  match r.1 with
  | none =>
    -- out_no_mem: free_pages_fn(sg, sg_count, priv); sg_count = 0
    let g := sgv_free_sys_sg_entries r.2.1 r.2.2.1 r.2.2.2.2
    ⟨0, r.2.1, tt, r.2.2.2.1, g⟩
  | some cnt =>
    let sg := r.2.1
    let tt' :=
      if ctype ≠ .sgv_no_clustering then
        match tt with
        | some tbl => some (transTblLoop sg pages 0 0 tbl)
        | none => none
      else tt
    ⟨cnt, sg, tt', r.2.2.2.1, r.2.2.2.2⟩

/-! ## Per-consumer quota (`scst_mem_lim`) -/

/-- `sgv_check_allowed_mem(mem_lim, pages)`:
`alloced = atomic_add_return(pages, &mem_lim->alloced_pages)`; when the
result exceeds `max_allowed_pages`, subtract back and report failure. -/
def sgv_check_allowed_mem (ml : MemLim) (pages : Int) (g : SgvGlobal) :
    MemLim × SgvGlobal × Bool :=
  let alloced := ml.alloced_pages + pages
  let g := emit g (.chargeQuota pages)
  if alloced > ml.max_allowed_pages then
    ({ ml with alloced_pages := alloced - pages }, emit g (.unchargeQuota pages), false)
  else
    ({ ml with alloced_pages := alloced }, g, true)

/-- `sgv_uncheck_allowed_mem(mem_lim, pages)`: `atomic_sub`. -/
def sgv_uncheck_allowed_mem (ml : MemLim) (pages : Int) (g : SgvGlobal) :
    MemLim × SgvGlobal :=
  ({ ml with alloced_pages := ml.alloced_pages - pages },
    emit g (.unchargeQuota pages))

/-! ## Active list, purge-from-cache and the shrinker -/

/-- `sgv_del_from_active(pool)`: remove the pool from the active list; if
it was the purge cursor, advance the cursor to the next pool (wrapping
past the list head), or clear it when the list becomes empty. -/
def sgv_del_from_active (g : SgvGlobal) (pid : PoolId) : SgvGlobal :=
  let after := (g.active_pools_list.dropWhile (· ≠ pid)).drop 1
  let rest := g.active_pools_list.erase pid
  let g := { g with active_pools_list := rest }
  if g.cur_purge_pool = some pid then
    match after with
    | n :: _ => { g with cur_purge_pool := some n }
    | [] => { g with cur_purge_pool := rest.head? }
  else g

/-- `sgv_dec_cached_entries(pool, pages)`: decrement the bucket counters
and drop the pool from the active list when it caches nothing anymore. -/
def sgv_dec_cached_entries (g : SgvGlobal) (pid : PoolId) (pages : Int) :
    SgvGlobal :=
  match getPool g pid with
  | none => g
  | some p =>
    let p := { p with cached_entries := p.cached_entries - 1,
                      cached_pages := p.cached_pages - pages }
    let g := emit (setPool g pid p) (.decBucket pid pages)
    if p.cached_entries = 0 then sgv_del_from_active g pid else g

/-- `__sgv_purge_from_cache(obj)`: unlink the object from both recycling
lists, fix up the pool counters and subtract its pages from
`sgv_pages_total`. -/
def __sgv_purge_from_cache (g : SgvGlobal) (pid : PoolId) (oid : ObjId) :
    SgvGlobal :=
  match getPool g pid with
  | none => g
  | some p =>
    match getObj p oid with
    | none => g
    | some obj =>
      let pages : Int := (2 : Int) ^ obj.order_or_pages.toNat
      let order := obj.order_or_pages.toNat
      let p := { p with
        sorted_recycling_list := p.sorted_recycling_list.erase oid,
        recycling_lists :=
          p.recycling_lists.set order ((p.recycling_lists.getD order []).erase oid),
        inactive_cached_pages := p.inactive_cached_pages - pages }
      let g := setPool g pid p
      let g := sgv_dec_cached_entries g pid pages
      emit { g with pages_total := g.pages_total - pages } (.purgeHiwmk pages)

/-- `sgv_purge_from_cache(obj, after, cur_time)`: purge when
`time_after_eq(cur_time, obj->time_stamp + after)`. -/
def sgv_purge_from_cache (g : SgvGlobal) (pid : PoolId) (oid : ObjId)
    (after : Nat) (cur_time : Nat) : SgvGlobal × Bool :=
  match lookupObj g pid oid with
  | none => (g, false)
  | some obj =>
    if cur_time ≥ obj.time_stamp + after then
      (__sgv_purge_from_cache g pid oid, true)
    else (g, false)

/-- `sgv_dtor_and_free(obj)`: hand the pages of a cached object back
through `free_pages_fn` (when it holds any) and free the object itself
(drop it from the arena). -/
def sgv_dtor_and_free (g : SgvGlobal) (pid : PoolId) (oid : ObjId) : SgvGlobal :=
  match getPool g pid with
  | none => g
  | some p =>
    match getObj p oid with
    | none => g
    | some obj =>
      let g := if obj.sg_count ≠ 0 then
          sgv_free_sys_sg_entries obj.sg_entries obj.sg_count g
        else g
      setPool g pid { p with arena := p.arena.filter (fun e => e.1 ≠ oid) }

/-- The eviction loop of `sgv_shrink_pool`: pop the oldest object of the
pool while the list is non-empty and `sgv_pages_total > sgv_lo_wmk`,
purging objects old enough; stop at the first object too young, when the
request is satisfied (`nr ≤ 0`), or at `MAX_PAGES_PER_POOL` freed pages.
The fuel is the length of the sorted list, which bounds the iterations. -/
def sgvShrinkPoolLoop (pid : PoolId) (after cur_time : Nat) :
    Nat → SgvGlobal → Int → Nat → SgvGlobal × Int
  | 0, g, nr, _freed => (g, nr)
  | fuel + 1, g, nr, freed =>
    match getPool g pid with
    | none => (g, nr)
    | some p =>
      match p.sorted_recycling_list with
      | [] => (g, nr)
      | oid :: _ =>
        if g.pages_total > g.lo_wmk then
          match getObj p oid with
          | none => (g, nr)
          | some obj =>
            let r := sgv_purge_from_cache g pid oid after cur_time
            if r.2 then
              let pages : Int := (2 : Int) ^ obj.order_or_pages.toNat
              let freed' := freed + pages.toNat
              let nr' := nr - pages
              let g' := sgv_dtor_and_free r.1 pid oid
              if nr' ≤ 0 ∨ freed' ≥ MAX_PAGES_PER_POOL then (g', nr')
              else sgvShrinkPoolLoop pid after cur_time fuel g' nr' freed'
            else (r.1, nr)
        else (g, nr)

/-- `sgv_shrink_pool(pool, nr, after, cur_time)`. -/
def sgv_shrink_pool (g : SgvGlobal) (pid : PoolId) (nr : Int)
    (after cur_time : Nat) : SgvGlobal × Int :=
  let fuel := match getPool g pid with
    | some p => p.sorted_recycling_list.length
    | none => 0
  sgvShrinkPoolLoop pid after cur_time fuel g nr 0

/-- The round-robin loop of `__sgv_shrink`: while `nr > 0`, pick the
purge-cursor pool (or the head of the active list), detect a full circle
without progress, advance the cursor, and shrink the picked pool.  The C
loop terminates because every circle either makes progress (`nr`
strictly decreases) or exits; the explicit fuel bounds the iterations
and is instantiated large enough at the call sites. -/
def sgvShrinkLoop (after cur_time : Nat) :
    Nat → SgvGlobal → Int → Int → Bool → SgvGlobal × Int
  | 0, g, nr, _prev_nr, _circ => (g, nr)
  | fuel + 1, g, nr, prev_nr, circ =>
    if nr > 0 then
      let pool? :=
        match g.cur_purge_pool with
        | some p => if g.active_pools_list.contains p then some p
                    else g.active_pools_list.head?
        | none => g.active_pools_list.head?
      match pool? with
      | none => (g, nr)
      | some pid =>
        let after_l := (g.active_pools_list.dropWhile (· ≠ pid)).drop 1
        if after_l = [] ∧ circ ∧ prev_nr = nr then (g, nr)
        else
          let circ' := circ ∨ after_l = []
          let prev' := if after_l = [] then nr else prev_nr
          let next? := if after_l = [] then g.active_pools_list.head?
                       else after_l.head?
          let g := { g with cur_purge_pool := next? }
          let r := sgv_shrink_pool g pid nr after cur_time
          sgvShrinkLoop after cur_time fuel r.1 r.2 prev' circ'
    else (g, nr)

/-- `__sgv_shrink(nr, after)` (the current time is passed explicitly,
`jiffies` being read once at entry in the C code). -/
def __sgv_shrink (g : SgvGlobal) (nr : Int) (after cur_time : Nat)
    (fuel : Nat) : SgvGlobal × Int :=
  sgvShrinkLoop after cur_time fuel g nr nr false

/-- Fuel sufficient for the C termination argument of `__sgv_shrink`:
at most one full fruitless circle per unit of progress. -/
def shrinkFuel (g : SgvGlobal) (nr : Int) : Nat :=
  (nr.toNat + 1) * (g.active_pools_list.length + 2) + 2

/-! ## The high-watermark gate -/

/-- The committing branch of `sgv_hiwmk_check`:
`atomic_add(pages_to_alloc, &sgv_pages_total)` and success. -/
def sgv_hiwmk_commit (g : SgvGlobal) (n : Int) : SgvGlobal × Int :=
  (emit { g with pages_total := g.pages_total + n } (.reserveHiwmk n), 0)

/-- `sgv_hiwmk_check(pages_to_alloc)`: project the new total; above the
high watermark, count the release, shrink the overshoot with age floor
0, and fail with `-ENOMEM` if pages remain unreclaimed — without adding
to `sgv_pages_total`; otherwise commit. -/
def sgv_hiwmk_check (g : SgvGlobal) (pages_to_alloc : Int) (cur_time : Nat) :
    SgvGlobal × Int :=
  let pages := pages_to_alloc + g.pages_total
  if pages > g.hi_wmk then
    let pages := pages - g.hi_wmk
    let g := { g with releases_on_hiwmk := g.releases_on_hiwmk + 1 }
    let r := __sgv_shrink g pages 0 cur_time (shrinkFuel g pages)
    if r.2 > 0 then
      ({ r.1 with releases_on_hiwmk_failed := r.1.releases_on_hiwmk_failed + 1 },
        -12)
    else
      sgv_hiwmk_commit r.1 pages_to_alloc
  else
    sgv_hiwmk_commit g pages_to_alloc

/-- `sgv_hiwmk_uncheck(pages)`: `atomic_sub(pages, &sgv_pages_total)`. -/
def sgv_hiwmk_uncheck (g : SgvGlobal) (pages : Int) : SgvGlobal :=
  emit { g with pages_total := g.pages_total - pages } (.releaseHiwmk pages)

/-- The high-watermark gate exactly as the specification words it:
commit immediately when `total_pages + n ≤ hi_wmk`; otherwise shrink
`(total_pages + n) - hi_wmk` pages with age floor 0 and commit exactly
when afterwards `total_pages + n ≤ hi_wmk`, failing (without touching
`total_pages`) otherwise. -/
def sgv_hiwmk_check_spec (g : SgvGlobal) (n : Int) (cur_time : Nat) :
    SgvGlobal × Int :=
  if g.pages_total + n ≤ g.hi_wmk then
    sgv_hiwmk_commit g n
  else
    let want := g.pages_total + n - g.hi_wmk
    let g1 := { g with releases_on_hiwmk := g.releases_on_hiwmk + 1 }
    let r := __sgv_shrink g1 want 0 cur_time (shrinkFuel g1 want)
    if r.1.pages_total + n ≤ g.hi_wmk then
      sgv_hiwmk_commit r.1 n
    else
      ({ r.1 with releases_on_hiwmk_failed := r.1.releases_on_hiwmk_failed + 1 },
        -12)

/-! ## Object acquire / release -/

/-- Bump a per-order statistics counter. -/
def listInc (l : List Int) (i : Nat) (d : Int) : List Int :=
  l.set i (l.getD i 0 + d)

/-- `sgv_get_obj(pool, order, gfp_mask)`: pop the head of the bucket
free-list when non-empty (unlinking the object from both lists);
otherwise charge the bucket counters, attach the pool to the active list
when it cached nothing before, and construct a zeroed object (the
construction may fail, in which case the counters are rolled back). -/
def sgv_get_obj (g : SgvGlobal) (pid : PoolId) (order : Nat) (km : List Bool) :
    SgvGlobal × List Bool × Option SgvObj :=
  let pages : Int := (2 : Int) ^ order
  match getPool g pid with
  | none => (g, km, none)
  | some p =>
    match (p.recycling_lists.getD order []).head? with
    | some oid =>
      match getObj p oid with
      | none => (g, km, none)
      | some obj =>
        let p := { p with
          sorted_recycling_list := p.sorted_recycling_list.erase oid,
          recycling_lists :=
            p.recycling_lists.set order ((p.recycling_lists.getD order []).erase oid),
          inactive_cached_pages := p.inactive_cached_pages - pages,
          arena := p.arena.filter (fun e => e.1 ≠ oid) }
        (setPool g pid p, km, some obj)
    | none =>
      let g := if p.cached_entries = 0 then
          { g with active_pools_list := g.active_pools_list ++ [pid] }
        else g
      let g := emit (updPool g pid fun q =>
          { q with cached_entries := q.cached_entries + 1,
                   cached_pages := q.cached_pages + pages }) (.incBucket pid pages)
      let r := kpop km
      if r.1 then
        (g, r.2,
          some { order_or_pages := (order : Int), owner_pool := pid, sg_count := 0,
                 sg_entries := [], trans_tbl := none, sg_external := false,
                 tt_external := false, orig_sg := 0, orig_length := 0,
                 allocator_priv := 0, time_stamp := 0 })
      else
        (sgv_dec_cached_entries g pid pages, r.2, none)

/-- The free-list insertion walk of `sgv_put_obj` for clustered pools:
insert the new object before the first list member whose `sg_count` is
at least its own (`if (obj->sg_count <= tmp->sg_count) break;`), at the
tail when no such member exists. -/
def insertByCount (arena : List (ObjId × SgvObj)) (cnt : Nat) (newId : ObjId) :
    List ObjId → List ObjId
  | [] => [newId]
  | oid :: rest =>
    match List.lookup oid arena with
    | some tmp =>
      if cnt ≤ tmp.sg_count then newId :: oid :: rest
      else oid :: insertByCount arena cnt newId rest
    | none => oid :: insertByCount arena cnt newId rest

/-- `sgv_put_obj(obj)`: insert a bucketed object into its bucket
free-list (sorted by ascending `sg_count` for clustered pools, at the
head otherwise), append it to the pool's time-sorted recycling list with
the current timestamp, account its pages as inactive, and schedule the
purge worker at `PURGE_INTERVAL` when none is scheduled. -/
def sgv_put_obj (g : SgvGlobal) (obj : SgvObj) (cur_time : Nat) : SgvGlobal :=
  let pid := obj.owner_pool
  match getPool g pid with
  | none => g
  | some p =>
    let order := obj.order_or_pages.toNat
    let pages : Int := (2 : Int) ^ order
    let list := p.recycling_lists.getD order []
    let newId := p.next_id
    let obj := { obj with time_stamp := cur_time }
    let list' :=
      if p.clustering_type ≠ .sgv_no_clustering then
        insertByCount p.arena obj.sg_count newId list
      else newId :: list
    let p' := { p with
      arena := p.arena ++ [(newId, obj)],
      next_id := newId + 1,
      recycling_lists := p.recycling_lists.set order list',
      sorted_recycling_list := p.sorted_recycling_list ++ [newId],
      inactive_cached_pages := p.inactive_cached_pages + pages }
    let g := setPool g pid p'
    if ¬ p.purge_work_scheduled then
      emit (updPool g pid fun q => { q with purge_work_scheduled := true })
        (.schedulePurge pid PURGE_INTERVAL)
    else g

/-! ## `sgv_pool_alloc` -/

/-- The three `SCST_POOL_*` flag bits of `sgv_pool_alloc`. -/
structure AllocFlags where
  no_cached : Bool
  no_alloc_on_cache_miss : Bool
  return_obj_on_alloc_fail : Bool
  deriving DecidableEq, Repr

/-- The observable outcome of one `sgv_pool_alloc` call: final global
state, quota, page supply and kmalloc oracle, the returned SG pointer
(`none` models `NULL`), and the final values of the `*count` and `*sgv`
out parameters (unchanged from the input when the code does not write
them). -/
structure AllocOut where
  g : SgvGlobal
  ml : MemLim
  supply : List (Option Nat)
  km : List Bool
  res : Option (List Sgl)
  count : Int
  sgv : Option SgvObj
  deriving DecidableEq, Repr

/-- Label `out_uncheck`: release the watermark reservation and the quota
charge, each only when it was taken. -/
def sgvAllocOutUncheck (g : SgvGlobal) (ml : MemLim) (pages_to_alloc : Int)
    (hiwmk_checked allowed_checked : Bool) : SgvGlobal × MemLim :=
  let g := if hiwmk_checked then sgv_hiwmk_uncheck g pages_to_alloc else g
  if allowed_checked then
    let r := sgv_uncheck_allowed_mem ml pages_to_alloc g
    (r.2, r.1)
  else (g, ml)

/-- Label `out_fail`: `res = NULL; *count = 0; *sgv = NULL;` then
`out_uncheck`. -/
def sgvAllocOutFail (g : SgvGlobal) (ml : MemLim) (supply : List (Option Nat))
    (km : List Bool) (pages_to_alloc : Int) (hiwmk_checked allowed_checked : Bool) :
    AllocOut :=
  let r := sgvAllocOutUncheck g ml pages_to_alloc hiwmk_checked allowed_checked
  ⟨r.1, r.2, supply, km, none, 0, none⟩

/-- Labels `out_fail_free_sg_entries` / `out_fail_free`: free any
external arrays and the object itself, rolling the bucket counters back
when the object was counted against a bucket cache, then `out_fail`. -/
def sgvAllocOutFailFree (g : SgvGlobal) (ml : MemLim) (supply : List (Option Nat))
    (km : List Bool) (pid : PoolId) (pages_to_alloc : Int) (cache : Bool)
    (hiwmk_checked allowed_checked : Bool) : AllocOut :=
  let g := if cache then sgv_dec_cached_entries g pid pages_to_alloc else g
  sgvAllocOutFail g ml supply km pages_to_alloc hiwmk_checked allowed_checked

/-- Labels `out_return1`/`out_return2`: `*count = pages_to_alloc`,
`res = NULL`, hand back `sgvOut` through `*sgv`, then `out_uncheck`. -/
def sgvAllocOutReturn2 (g : SgvGlobal) (ml : MemLim) (supply : List (Option Nat))
    (km : List Bool) (pages_to_alloc : Int) (sgvOut : Option SgvObj)
    (hiwmk_checked allowed_checked : Bool) : AllocOut :=
  let r := sgvAllocOutUncheck g ml pages_to_alloc hiwmk_checked allowed_checked
  ⟨r.1, r.2, supply, km, none, pages_to_alloc, sgvOut⟩

/-- `sgv_alloc_arrays(obj, pages_to_alloc, order, gfp_mask)`: kmalloc the
SG entry array; for clustered pools either point `trans_tbl` at the
embedded data area (`order <= sgv_max_trans_order`) or kzalloc it. -/
def sgv_alloc_arrays (obj : SgvObj) (pages_to_alloc order : Nat)
    (clustered : Bool) (km : List Bool) : Option SgvObj × List Bool :=
  let r := kpop km
  if r.1 then
    let obj := { obj with sg_entries := List.replicate pages_to_alloc sglZero,
                          sg_external := true }
    if clustered then
      if order ≤ sgv_max_trans_order then
        (some { obj with trans_tbl := some (List.replicate pages_to_alloc ttZero),
                         tt_external := false }, r.2)
      else
        let r2 := kpop r.2
        if r2.1 then
          (some { obj with trans_tbl := some (List.replicate pages_to_alloc ttZero),
                           tt_external := true }, r2.2)
        else (none, r2.2)
    else (some obj, r.2)
  else (none, r.2)

/-- The common tail of `sgv_pool_alloc` after `*count = cnt; res =
obj->sg_entries; *sgv = obj;`: truncate the last used entry when `size`
is not page aligned (through the alias, so the returned vector sees it). -/
def sgvAllocFinish (g : SgvGlobal) (ml : MemLim) (supply : List (Option Nat))
    (km : List Bool) (obj : SgvObj) (cnt : Nat) (size : Nat) : AllocOut :=
  let obj := if size % PAGE_SIZE ≠ 0 then
      { obj with sg_entries := (obj.sg_entries.set (cnt - 1)
          { obj.sg_entries.getD (cnt - 1) sglZero with
            length := (obj.sg_entries.getD (cnt - 1) sglZero).length -
              (PAGE_SIZE - size % PAGE_SIZE) }) }
    else obj
  ⟨g, ml, supply, km, some obj.sg_entries, (cnt : Int), some obj⟩

/-- The `success:` block of `sgv_pool_alloc`: count the allocation, for
cached objects derive the entry count from the translation table (for
clustered pools), remember the pre-truncation length and index of the
last used entry (restored on release) and trim that entry to the whole
pages the caller gets. -/
def sgvAllocSuccess (g : SgvGlobal) (ml : MemLim) (supply : List (Option Nat))
    (km : List Bool) (pid : PoolId) (ctype : SgvClustering) (obj : SgvObj)
    (cache no_cached : Bool) (order pages size : Nat) : AllocOut :=
  let clustered := ctype ≠ .sgv_no_clustering
  if cache then
    let g := updPool g pid fun p =>
      { p with total_alloc := listInc p.total_alloc order 1 }
    let cnt : Nat :=
      if clustered then ((obj.trans_tbl.getD []).getD (pages - 1) ttZero).sg_num
      else pages
    let sgIdx := cnt - 1
    let obj := { obj with orig_sg := sgIdx,
                          orig_length := (obj.sg_entries.getD sgIdx sglZero).length }
    let obj := if clustered then
        { obj with sg_entries := (obj.sg_entries.set sgIdx
            { obj.sg_entries.getD sgIdx sglZero with
              length := (pages - ((obj.trans_tbl.getD []).getD sgIdx ttZero).pg_count)
                * PAGE_SIZE }) }
      else obj
    sgvAllocFinish g ml supply km obj cnt size
  else
    let cnt := obj.sg_count
    let g := if no_cached then
        updPool g pid fun p => { p with other_alloc := p.other_alloc + 1 }
      else
        updPool g pid fun p => { p with big_alloc := p.big_alloc + 1 }
    sgvAllocFinish g ml supply km obj cnt size

/-- Page filling and the paths following it in `sgv_pool_alloc`: run
`sgv_alloc_sg_entries`; on failure either hand the empty object back
(`SCST_POOL_RETURN_OBJ_ON_ALLOC_FAIL` with a bucket cache) or tear
everything down; on success account the merged pages and finish. -/
def sgvAllocFillAndFinish (g : SgvGlobal) (ml : MemLim)
    (supply : List (Option Nat)) (km : List Bool) (pid : PoolId)
    (ctype : SgvClustering) (obj : SgvObj) (cache : Bool)
    (no_cached : Bool) (order pages : Nat) (pages_to_alloc : Int)
    (size : Nat) (flags : AllocFlags) : AllocOut :=
  let eo := sgv_alloc_sg_entries obj.sg_entries pages_to_alloc.toNat ctype
    obj.trans_tbl supply g
  let obj := { obj with sg_count := eo.sg_count, sg_entries := eo.sg,
                        trans_tbl := eo.trans }
  if obj.sg_count = 0 then
    if flags.return_obj_on_alloc_fail ∧ cache then
      sgvAllocOutReturn2 eo.g ml eo.supply km pages_to_alloc (some obj) true true
    else
      sgvAllocOutFailFree eo.g ml eo.supply km pid pages_to_alloc cache true true
  else
    let g :=
      if cache then
        updPool eo.g pid fun p =>
          { p with merged := listInc p.merged order (pages_to_alloc - obj.sg_count) }
      else if no_cached then
        updPool eo.g pid fun p =>
          { p with other_pages := p.other_pages + pages_to_alloc,
                   other_merged := p.other_merged + (pages_to_alloc - obj.sg_count) }
      else
        updPool eo.g pid fun p =>
          { p with big_pages := p.big_pages + pages_to_alloc,
                   big_merged := p.big_merged + (pages_to_alloc - obj.sg_count) }
    sgvAllocSuccess g ml eo.supply km pid ctype obj cache no_cached order pages size

/-- `sgv_pool_alloc(pool, size, gfp_mask, flags, count, sgv, mem_lim,
priv)`.  `countIn`/`sgvIn` are the values behind the `count`/`sgv` out
pointers at entry (the code reads `*sgv` and leaves either parameter
unwritten on some paths).  The `__GFP_NOFAIL` case is excluded by
`sBUG_ON` in the C code and not modelled. -/
def sgv_pool_alloc (g0 : SgvGlobal) (pid : PoolId) (size : Nat)
    (flags : AllocFlags) (countIn : Int) (sgvIn : Option SgvObj) (ml : MemLim)
    (priv : Nat) (supply : List (Option Nat)) (km : List Bool)
    (cur_time : Nat) : AllocOut :=
  if size = 0 then ⟨g0, ml, supply, km, none, countIn, sgvIn⟩
  else
    match getPool g0 pid with
    | none => ⟨g0, ml, supply, km, none, countIn, sgvIn⟩
    | some pool =>
      let pages : Nat := (size + PAGE_SIZE - 1) / PAGE_SIZE
      let order : Nat := get_order size
      match sgvIn with
      | some obj =>
        -- supplied object: refill an empty object handed back earlier
        let pages_to_alloc : Int := (2 : Int) ^ order
        let q := sgv_check_allowed_mem ml pages_to_alloc g0
        if ¬ q.2.2 then
          sgvAllocOutFailFree q.2.1 q.1 supply km pid pages_to_alloc true false false
        else
          let h := sgv_hiwmk_check q.2.1 pages_to_alloc cur_time
          if h.2 ≠ 0 then
            sgvAllocOutFailFree h.1 q.1 supply km pid pages_to_alloc true false true
          else
            sgvAllocFillAndFinish h.1 q.1 supply km pid pool.clustering_type obj
              true flags.no_cached order pages pages_to_alloc size flags
      | none =>
        if order < SGV_POOL_ELEMENTS ∧ ¬ flags.no_cached then
          -- bucketed path
          let pages_to_alloc : Int := (2 : Int) ^ order
          let q := sgv_check_allowed_mem ml pages_to_alloc g0
          if ¬ q.2.2 then
            sgvAllocOutFail q.2.1 q.1 supply km pages_to_alloc false false
          else
            let go := sgv_get_obj q.2.1 pid order km
            match go.2.2 with
            | none => sgvAllocOutFail go.1 q.1 supply go.2.1 pages_to_alloc false true
            | some obj =>
              if obj.sg_count ≠ 0 then
                -- cache hit: the stored object is handed out as is
                let g := updPool go.1 pid fun p =>
                  { p with hit_alloc := listInc p.hit_alloc order 1 }
                sgvAllocSuccess g q.1 supply go.2.1 pid pool.clustering_type obj
                  true flags.no_cached order pages size
              else if flags.no_alloc_on_cache_miss ∧ ¬ flags.return_obj_on_alloc_fail then
                sgvAllocOutFailFree go.1 q.1 supply go.2.1 pid pages_to_alloc
                  true false true
              else
                let lay :=
                  if order ≤ sgv_max_local_order then
                    (some { obj with
                        sg_entries := List.replicate pages_to_alloc.toNat sglZero,
                        sg_external := false,
                        trans_tbl :=
                          if pool.clustering_type ≠ .sgv_no_clustering then
                            some (List.replicate pages_to_alloc.toNat ttZero)
                          else obj.trans_tbl,
                        tt_external := false }, go.2.1)
                  else
                    sgv_alloc_arrays obj pages_to_alloc.toNat order
                      (pool.clustering_type ≠ .sgv_no_clustering) go.2.1
                match lay.1 with
                | none =>
                  sgvAllocOutFailFree go.1 q.1 supply lay.2 pid pages_to_alloc
                    true false true
                | some obj =>
                  if flags.no_alloc_on_cache_miss ∧ flags.return_obj_on_alloc_fail then
                    -- out_return: hand the unfilled object back
                    let obj := { obj with allocator_priv := priv, owner_pool := pid }
                    sgvAllocOutReturn2 go.1 q.1 supply lay.2 pages_to_alloc
                      (some obj) false true
                  else
                    let obj := { obj with allocator_priv := priv }
                    let h := sgv_hiwmk_check go.1 pages_to_alloc cur_time
                    if h.2 ≠ 0 then
                      sgvAllocOutFailFree h.1 q.1 supply lay.2 pid pages_to_alloc
                        true false true
                    else
                      sgvAllocFillAndFinish h.1 q.1 supply lay.2 pid
                        pool.clustering_type obj true flags.no_cached order pages
                        pages_to_alloc size flags
        else
          -- big or no_cached path: exactly `pages` pages, never cached
          let pages_to_alloc : Int := (pages : Int)
          let q := sgv_check_allowed_mem ml pages_to_alloc g0
          if ¬ q.2.2 then
            sgvAllocOutFail q.2.1 q.1 supply km pages_to_alloc false false
          else if flags.no_alloc_on_cache_miss then
            sgvAllocOutReturn2 q.2.1 q.1 supply km pages_to_alloc sgvIn false true
          else
            let r := kpop km
            if ¬ r.1 then
              sgvAllocOutFail q.2.1 q.1 supply r.2 pages_to_alloc false true
            else
              let obj : SgvObj :=
                { order_or_pages := -pages_to_alloc, owner_pool := pid,
                  sg_count := 0, sg_entries := List.replicate pages sglZero,
                  trans_tbl := none, sg_external := false, tt_external := false,
                  orig_sg := 0, orig_length := 0, allocator_priv := priv,
                  time_stamp := 0 }
              let h := sgv_hiwmk_check q.2.1 pages_to_alloc cur_time
              if h.2 ≠ 0 then
                sgvAllocOutFailFree h.1 q.1 supply r.2 pid pages_to_alloc
                  false false true
              else
                sgvAllocFillAndFinish h.1 q.1 supply r.2 pid pool.clustering_type
                  obj false flags.no_cached order pages pages_to_alloc size flags

/-- `sgv_get_priv(sgv)`. -/
def sgv_get_priv (obj : SgvObj) : Nat := obj.allocator_priv

/-- `sgv_pool_free(obj, mem_lim)`: bucketed objects get their last used
entry's length restored and go back to the cache via `sgv_put_obj`; big
objects free their pages, release the watermark reservation and are
destroyed; both uncharge the consumer quota. -/
def sgv_pool_free (g : SgvGlobal) (obj : SgvObj) (ml : MemLim)
    (cur_time : Nat) : SgvGlobal × MemLim :=
  if obj.order_or_pages ≥ 0 then
    let obj := { obj with sg_entries := (obj.sg_entries.set obj.orig_sg
        { obj.sg_entries.getD obj.orig_sg sglZero with length := obj.orig_length }) }
    let pages : Int :=
      if obj.sg_count ≠ 0 then (2 : Int) ^ obj.order_or_pages.toNat else 0
    let g := sgv_put_obj g obj cur_time
    let r := sgv_uncheck_allowed_mem ml pages g
    (r.2, r.1)
  else
    let g := sgv_free_sys_sg_entries obj.sg_entries obj.sg_count g
    let pages : Int := if obj.sg_count ≠ 0 then -obj.order_or_pages else 0
    let g := sgv_hiwmk_uncheck g pages
    let r := sgv_uncheck_allowed_mem ml pages g
    (r.2, r.1)

/-! ## Purge worker -/

/-- The `while (!list_empty(&pool->sorted_recycling_list))` loop of
`sgv_purge_work_fn`: destroy the head while it is old enough; at the
first object too young, reschedule the work at `PURGE_INTERVAL` and
stop.  The fuel is the initial list length. -/
def sgvPurgeWorkLoop (pid : PoolId) (cur_time : Nat) : Nat → SgvGlobal → SgvGlobal
  | 0, g => g
  | fuel + 1, g =>
    match getPool g pid with
    | none => g
    | some p =>
      match p.sorted_recycling_list with
      | [] => g
      | oid :: _ =>
        let r := sgv_purge_from_cache g pid oid PURGE_TIME_AFTER cur_time
        if r.2 then
          sgvPurgeWorkLoop pid cur_time fuel (sgv_dtor_and_free r.1 pid oid)
        else
          let g := emit r.1 (.schedulePurge pid PURGE_INTERVAL)
          updPool g pid fun q => { q with purge_work_scheduled := true }

/-- `sgv_purge_work_fn(pool)`: clear the scheduled flag and walk the
time-sorted recycling list from the oldest entry. -/
def sgv_purge_work_fn (g : SgvGlobal) (pid : PoolId) (cur_time : Nat) :
    SgvGlobal :=
  match getPool g pid with
  | none => g
  | some p =>
    let g := updPool g pid fun q => { q with purge_work_scheduled := false }
    sgvPurgeWorkLoop pid cur_time p.sorted_recycling_list.length g

/-! ## The non-cached helpers `scst_alloc` / `scst_free` -/

/-- The observable outcome of one `scst_alloc` call. -/
structure ScstAllocOut where
  g : SgvGlobal
  supply : List (Option Nat)
  km : List Bool
  res : Option (List Sgl)
  count : Int
  deriving DecidableEq, Repr

/-- `scst_alloc(size, gfp_mask, count)`; `no_fail` models
`(gfp_mask & __GFP_NOFAIL) == __GFP_NOFAIL`.  With `no_fail` the
watermark gate cannot fail the allocation: the reservation is taken even
when `sgv_hiwmk_check` refuses, and no failure path gives it back, so the
`sgv_hiwmk_uncheck(count)` of a later `scst_free` stays balanced. -/
def scst_alloc (g : SgvGlobal) (size : Nat) (no_fail : Bool) (countIn : Int)
    (supply : List (Option Nat)) (km : List Bool) (cur_time : Nat) :
    ScstAllocOut :=
  let pages : Nat := size / PAGE_SIZE + (if size % PAGE_SIZE ≠ 0 then 1 else 0)
  let g := { g with other_total_alloc := g.other_total_alloc + 1 }
  let h := sgv_hiwmk_check g (pages : Int) cur_time
  if h.2 ≠ 0 ∧ ¬ no_fail then ⟨h.1, supply, km, none, countIn⟩
  else
    let g := if h.2 ≠ 0 then sgv_hiwmk_uncheck h.1 (-(pages : Int)) else h.1
    let r := kpop km
    if ¬ r.1 then
      let g := if ¬ no_fail then sgv_hiwmk_uncheck g (pages : Int) else g
      ⟨g, supply, r.2, none, countIn⟩
    else
      let eo := sgv_alloc_sg_entries (List.replicate pages sglZero) pages
        .sgv_no_clustering none supply g
      if eo.sg_count = 0 then
        let g := if ¬ no_fail then sgv_hiwmk_uncheck eo.g (pages : Int) else eo.g
        ⟨g, eo.supply, r.2, none, 0⟩
      else ⟨eo.g, eo.supply, r.2, some eo.sg, (eo.sg_count : Int)⟩

/-- `scst_free(sg, count)`: release `count` pages of watermark
reservation and free the vector's pages. -/
def scst_free (g : SgvGlobal) (sg : List Sgl) (count : Nat) : SgvGlobal :=
  let g := sgv_hiwmk_uncheck g (count : Int)
  sgv_free_sys_sg_entries sg count g

/-! ## Basic preservation lemmas -/

@[simp] lemma emit_pages_total (g : SgvGlobal) (e : Ev) :
    (emit g e).pages_total = g.pages_total := rfl

@[simp] lemma emit_hi_wmk (g : SgvGlobal) (e : Ev) :
    (emit g e).hi_wmk = g.hi_wmk := rfl

@[simp] lemma emit_lo_wmk (g : SgvGlobal) (e : Ev) :
    (emit g e).lo_wmk = g.lo_wmk := rfl

@[simp] lemma setPool_pages_total (g : SgvGlobal) (pid : PoolId) (p : SgvPool) :
    (setPool g pid p).pages_total = g.pages_total := rfl

@[simp] lemma setPool_hi_wmk (g : SgvGlobal) (pid : PoolId) (p : SgvPool) :
    (setPool g pid p).hi_wmk = g.hi_wmk := rfl

@[simp] lemma setPool_lo_wmk (g : SgvGlobal) (pid : PoolId) (p : SgvPool) :
    (setPool g pid p).lo_wmk = g.lo_wmk := rfl

lemma sgv_del_from_active_pages_total (g : SgvGlobal) (pid : PoolId) :
    (sgv_del_from_active g pid).pages_total = g.pages_total := by
  unfold sgv_del_from_active
  dsimp only
  split
  · split <;> rfl
  · rfl

lemma sgv_del_from_active_hi_wmk (g : SgvGlobal) (pid : PoolId) :
    (sgv_del_from_active g pid).hi_wmk = g.hi_wmk := by
  unfold sgv_del_from_active
  dsimp only
  split
  · split <;> rfl
  · rfl

lemma sgv_del_from_active_lo_wmk (g : SgvGlobal) (pid : PoolId) :
    (sgv_del_from_active g pid).lo_wmk = g.lo_wmk := by
  unfold sgv_del_from_active
  dsimp only
  split
  · split <;> rfl
  · rfl

lemma sgv_dec_cached_entries_pages_total (g : SgvGlobal) (pid : PoolId)
    (pages : Int) :
    (sgv_dec_cached_entries g pid pages).pages_total = g.pages_total := by
  unfold sgv_dec_cached_entries
  split
  · rfl
  · dsimp only
    split
    · rw [sgv_del_from_active_pages_total]; rfl
    · rfl

lemma sgv_dec_cached_entries_hi_wmk (g : SgvGlobal) (pid : PoolId)
    (pages : Int) :
    (sgv_dec_cached_entries g pid pages).hi_wmk = g.hi_wmk := by
  unfold sgv_dec_cached_entries
  split
  · rfl
  · dsimp only
    split
    · rw [sgv_del_from_active_hi_wmk]; rfl
    · rfl

lemma sgv_dec_cached_entries_lo_wmk (g : SgvGlobal) (pid : PoolId)
    (pages : Int) :
    (sgv_dec_cached_entries g pid pages).lo_wmk = g.lo_wmk := by
  unfold sgv_dec_cached_entries
  split
  · rfl
  · dsimp only
    split
    · rw [sgv_del_from_active_lo_wmk]; rfl
    · rfl

lemma sgv_dtor_and_free_pages_total (g : SgvGlobal) (pid : PoolId)
    (oid : ObjId) :
    (sgv_dtor_and_free g pid oid).pages_total = g.pages_total := by
  unfold sgv_dtor_and_free
  split
  · rfl
  · split
    · rfl
    · dsimp only
      split <;> rfl

lemma sgv_dtor_and_free_hi_wmk (g : SgvGlobal) (pid : PoolId) (oid : ObjId) :
    (sgv_dtor_and_free g pid oid).hi_wmk = g.hi_wmk := by
  unfold sgv_dtor_and_free
  split
  · rfl
  · split
    · rfl
    · dsimp only
      split <;> rfl

lemma sgv_dtor_and_free_lo_wmk (g : SgvGlobal) (pid : PoolId) (oid : ObjId) :
    (sgv_dtor_and_free g pid oid).lo_wmk = g.lo_wmk := by
  unfold sgv_dtor_and_free
  split
  · rfl
  · split
    · rfl
    · dsimp only
      split <;> rfl

lemma __sgv_purge_from_cache_pages_total (g : SgvGlobal) (pid : PoolId)
    (oid : ObjId) (p : SgvPool) (obj : SgvObj)
    (h1 : getPool g pid = some p) (h2 : getObj p oid = some obj) :
    (__sgv_purge_from_cache g pid oid).pages_total =
      g.pages_total - (2 : Int) ^ obj.order_or_pages.toNat := by
  unfold __sgv_purge_from_cache
  simp only [h1, h2, emit_pages_total, sgv_dec_cached_entries_pages_total,
    setPool_pages_total]

lemma __sgv_purge_from_cache_hi_wmk (g : SgvGlobal) (pid : PoolId)
    (oid : ObjId) :
    (__sgv_purge_from_cache g pid oid).hi_wmk = g.hi_wmk := by
  unfold __sgv_purge_from_cache
  split
  · rfl
  · split
    · rfl
    · simp only [emit_hi_wmk, sgv_dec_cached_entries_hi_wmk, setPool_hi_wmk]

lemma __sgv_purge_from_cache_lo_wmk (g : SgvGlobal) (pid : PoolId)
    (oid : ObjId) :
    (__sgv_purge_from_cache g pid oid).lo_wmk = g.lo_wmk := by
  unfold __sgv_purge_from_cache
  split
  · rfl
  · split
    · rfl
    · simp only [emit_lo_wmk, sgv_dec_cached_entries_lo_wmk, setPool_lo_wmk]

lemma sgv_purge_from_cache_eq (g : SgvGlobal) (pid : PoolId) (oid : ObjId)
    (after cur_time : Nat) (p : SgvPool) (obj : SgvObj)
    (h1 : getPool g pid = some p) (h2 : getObj p oid = some obj) :
    sgv_purge_from_cache g pid oid after cur_time =
      if cur_time ≥ obj.time_stamp + after then
        (__sgv_purge_from_cache g pid oid, true)
      else (g, false) := by
  unfold sgv_purge_from_cache lookupObj
  simp only [h1, h2]

/-- Conservation through one pool's eviction loop: the requested count
and `sgv_pages_total` drop in lockstep (each purged object subtracts its
pages from both), and the watermarks are untouched. -/
lemma sgvShrinkPoolLoop_conserve (pid : PoolId) (after cur_time : Nat) :
    ∀ (fuel : Nat) (g : SgvGlobal) (nr : Int) (freed : Nat),
    (sgvShrinkPoolLoop pid after cur_time fuel g nr freed).1.pages_total -
        (sgvShrinkPoolLoop pid after cur_time fuel g nr freed).2 =
      g.pages_total - nr ∧
    (sgvShrinkPoolLoop pid after cur_time fuel g nr freed).1.hi_wmk = g.hi_wmk ∧
    (sgvShrinkPoolLoop pid after cur_time fuel g nr freed).1.lo_wmk = g.lo_wmk := by
  intro fuel
  induction fuel with
  | zero =>
    intro g nr freed
    simp only [sgvShrinkPoolLoop]
    exact ⟨trivial, trivial, trivial⟩
  | succ n ih =>
    intro g nr freed
    cases hp : getPool g pid with
    | none =>
      simp only [sgvShrinkPoolLoop, hp]
      exact ⟨trivial, trivial, trivial⟩
    | some p =>
      cases hl : p.sorted_recycling_list with
      | nil =>
        simp only [sgvShrinkPoolLoop, hp, hl]
        exact ⟨trivial, trivial, trivial⟩
      | cons oid rest =>
        by_cases hlo : g.pages_total > g.lo_wmk
        · by_cases ho : (getObj p oid).isSome
          · obtain ⟨obj, hobj⟩ := Option.isSome_iff_exists.mp ho
            simp only [sgvShrinkPoolLoop, hp, hl, if_pos hlo, hobj,
              sgv_purge_from_cache_eq g pid oid after cur_time p obj hp hobj]
            by_cases ht : cur_time ≥ obj.time_stamp + after
            · rw [if_pos ht]
              dsimp only
              simp only [eq_self_iff_true, if_true]
              have hcore1 := __sgv_purge_from_cache_pages_total g pid oid p obj hp hobj
              have hcore2 := __sgv_purge_from_cache_hi_wmk g pid oid
              have hcore3 := __sgv_purge_from_cache_lo_wmk g pid oid
              have hd1 := sgv_dtor_and_free_pages_total
                (__sgv_purge_from_cache g pid oid) pid oid
              have hd2 := sgv_dtor_and_free_hi_wmk
                (__sgv_purge_from_cache g pid oid) pid oid
              have hd3 := sgv_dtor_and_free_lo_wmk
                (__sgv_purge_from_cache g pid oid) pid oid
              by_cases hstop : nr - (2 : Int) ^ obj.order_or_pages.toNat ≤ 0 ∨
                  freed + ((2 : Int) ^ obj.order_or_pages.toNat).toNat ≥
                    MAX_PAGES_PER_POOL
              · rw [if_pos hstop]
                refine ⟨?_, ?_, ?_⟩
                · show (sgv_dtor_and_free _ pid oid).pages_total -
                    (nr - (2 : Int) ^ obj.order_or_pages.toNat) = _
                  rw [hd1, hcore1]; ring
                · show (sgv_dtor_and_free _ pid oid).hi_wmk = _
                  rw [hd2, hcore2]
                · show (sgv_dtor_and_free _ pid oid).lo_wmk = _
                  rw [hd3, hcore3]
              · rw [if_neg hstop]
                obtain ⟨e1, e2, e3⟩ := ih
                  (sgv_dtor_and_free (__sgv_purge_from_cache g pid oid) pid oid)
                  (nr - (2 : Int) ^ obj.order_or_pages.toNat)
                  (freed + ((2 : Int) ^ obj.order_or_pages.toNat).toNat)
                refine ⟨?_, ?_, ?_⟩
                · rw [e1, hd1, hcore1]; ring
                · rw [e2, hd2, hcore2]
                · rw [e3, hd3, hcore3]
            · rw [if_neg ht]
              dsimp only
              exact ⟨rfl, rfl, rfl⟩
          · have hnone : getObj p oid = none := Option.not_isSome_iff_eq_none.mp ho
            simp only [sgvShrinkPoolLoop, hp, hl, if_pos hlo, hnone]
            exact ⟨trivial, trivial, trivial⟩
        · simp only [sgvShrinkPoolLoop, hp, hl, if_neg hlo]
          exact ⟨trivial, trivial, trivial⟩

lemma sgv_shrink_pool_conserve (g : SgvGlobal) (pid : PoolId) (nr : Int)
    (after cur_time : Nat) :
    (sgv_shrink_pool g pid nr after cur_time).1.pages_total -
        (sgv_shrink_pool g pid nr after cur_time).2 = g.pages_total - nr ∧
    (sgv_shrink_pool g pid nr after cur_time).1.hi_wmk = g.hi_wmk ∧
    (sgv_shrink_pool g pid nr after cur_time).1.lo_wmk = g.lo_wmk := by
  unfold sgv_shrink_pool
  exact sgvShrinkPoolLoop_conserve pid after cur_time _ g nr 0

/-- Conservation through the round-robin shrink loop. -/
lemma sgvShrinkLoop_conserve (after cur_time : Nat) :
    ∀ (fuel : Nat) (g : SgvGlobal) (nr prev_nr : Int) (circ : Bool),
    (sgvShrinkLoop after cur_time fuel g nr prev_nr circ).1.pages_total -
        (sgvShrinkLoop after cur_time fuel g nr prev_nr circ).2 =
      g.pages_total - nr ∧
    (sgvShrinkLoop after cur_time fuel g nr prev_nr circ).1.hi_wmk = g.hi_wmk ∧
    (sgvShrinkLoop after cur_time fuel g nr prev_nr circ).1.lo_wmk = g.lo_wmk := by
  intro fuel
  induction fuel with
  | zero =>
    intro g nr prev circ
    simp only [sgvShrinkLoop]
    exact ⟨trivial, trivial, trivial⟩
  | succ n ih =>
    intro g nr prev circ
    by_cases hnr : nr > 0
    · simp only [sgvShrinkLoop, if_pos hnr]
      cases hsel : (match g.cur_purge_pool with
        | some p => if g.active_pools_list.contains p then some p
                    else g.active_pools_list.head?
        | none => g.active_pools_list.head?) with
      | none =>
        simp only [hsel]
        exact ⟨trivial, trivial, trivial⟩
      | some pid =>
        simp only [hsel]
        by_cases hstop : ((g.active_pools_list.dropWhile (· ≠ pid)).drop 1 = [] ∧
            circ = true ∧ prev = nr)
        · rw [if_pos hstop]
          exact ⟨by ring, rfl, rfl⟩
        · rw [if_neg hstop]
          have hpool := sgv_shrink_pool_conserve
            { g with cur_purge_pool :=
                if (g.active_pools_list.dropWhile (· ≠ pid)).drop 1 = [] then
                  g.active_pools_list.head?
                else ((g.active_pools_list.dropWhile (· ≠ pid)).drop 1).head? }
            pid nr after cur_time
          obtain ⟨hh1, hh2, hh3⟩ := hpool
          obtain ⟨e1, e2, e3⟩ := ih
            (sgv_shrink_pool
              { g with cur_purge_pool :=
                  if (g.active_pools_list.dropWhile (· ≠ pid)).drop 1 = [] then
                    g.active_pools_list.head?
                  else ((g.active_pools_list.dropWhile (· ≠ pid)).drop 1).head? }
              pid nr after cur_time).1
            (sgv_shrink_pool
              { g with cur_purge_pool :=
                  if (g.active_pools_list.dropWhile (· ≠ pid)).drop 1 = [] then
                    g.active_pools_list.head?
                  else ((g.active_pools_list.dropWhile (· ≠ pid)).drop 1).head? }
              pid nr after cur_time).2
            (if (g.active_pools_list.dropWhile (· ≠ pid)).drop 1 = [] then nr else prev)
            (circ ∨ (g.active_pools_list.dropWhile (· ≠ pid)).drop 1 = [])
          refine ⟨?_, ?_, ?_⟩
          · rw [e1, hh1]
          · rw [e2, hh2]
          · rw [e3, hh3]
    · simp only [sgvShrinkLoop, if_neg hnr]
      exact ⟨trivial, trivial, trivial⟩

lemma __sgv_shrink_conserve (g : SgvGlobal) (nr : Int) (after cur_time : Nat)
    (fuel : Nat) :
    (__sgv_shrink g nr after cur_time fuel).1.pages_total -
        (__sgv_shrink g nr after cur_time fuel).2 = g.pages_total - nr ∧
    (__sgv_shrink g nr after cur_time fuel).1.hi_wmk = g.hi_wmk ∧
    (__sgv_shrink g nr after cur_time fuel).1.lo_wmk = g.lo_wmk := by
  unfold __sgv_shrink
  exact sgvShrinkLoop_conserve after cur_time fuel g nr nr false

/-- The watermark gate implements its specification: the difference
between the two is only that the code tests `__sgv_shrink`'s leftover
count while the specification re-tests `total_pages + n ≤ hi_wmk`, and
the two agree by `__sgv_shrink_conserve`. -/
lemma sgv_hiwmk_check_eq_spec (g : SgvGlobal) (n : Int) (t : Nat) :
    sgv_hiwmk_check g n t = sgv_hiwmk_check_spec g n t := by
  have e : n + g.pages_total = g.pages_total + n := by ring
  by_cases h : g.pages_total + n ≤ g.hi_wmk
  · simp only [sgv_hiwmk_check, sgv_hiwmk_check_spec, e,
      if_neg (by omega : ¬ g.pages_total + n > g.hi_wmk), if_pos h]
  · simp only [sgv_hiwmk_check, sgv_hiwmk_check_spec, e,
      if_pos (by omega : g.pages_total + n > g.hi_wmk), if_neg h]
    have hc := __sgv_shrink_conserve
      { g with releases_on_hiwmk := g.releases_on_hiwmk + 1 }
      (g.pages_total + n - g.hi_wmk) 0 t
      (shrinkFuel { g with releases_on_hiwmk := g.releases_on_hiwmk + 1 }
        (g.pages_total + n - g.hi_wmk))
    obtain ⟨h1, h2, _⟩ := hc
    by_cases hp : (__sgv_shrink
        { g with releases_on_hiwmk := g.releases_on_hiwmk + 1 }
        (g.pages_total + n - g.hi_wmk) 0 t
        (shrinkFuel { g with releases_on_hiwmk := g.releases_on_hiwmk + 1 }
          (g.pages_total + n - g.hi_wmk))).2 > 0
    · rw [if_pos hp, if_neg (by
        simp only [SgvGlobal.mk.injEq] at h1 ⊢
        omega)]
    · rw [if_neg hp, if_pos (by dsimp only at h1; omega)]

/-! ## Claim theorems -/

/-- **C1**: for every request of `n` pages, `sgv_hiwmk_check` succeeds
immediately when `total_pages + n ≤ hi_wmk`, committing by adding `n` to
`total_pages`; otherwise it shrinks `(total_pages + n) - hi_wmk` pages
with age floor 0, commits exactly when afterwards
`total_pages + n ≤ hi_wmk`, and otherwise fails without incrementing
`total_pages` (see `sgv_hiwmk_check_spec`, which words these steps
literally). -/
theorem claim_C1_hiwmk_gate (g : SgvGlobal) (n : Int) (t : Nat) :
    sgv_hiwmk_check g n t = sgv_hiwmk_check_spec g n t :=
  sgv_hiwmk_check_eq_spec g n t

/-- **C2**: `sgv_check_allowed_mem` adds `n` to `alloced_pages` and, when
the result exceeds `max_allowed_pages`, subtracts it back and reports
failure, so a failed charge leaves the counter unchanged;
`sgv_uncheck_allowed_mem` subtracts `n`.  With `max_allowed_pages = 10`,
charging 9 succeeds leaving 9, and a further charge of 2 fails leaving
the counter at 9. -/
theorem claim_C2_quota (ml : MemLim) (n : Int) (g : SgvGlobal) :
    ((sgv_check_allowed_mem ml n g).1 =
      (if ml.alloced_pages + n > ml.max_allowed_pages then ml
       else { ml with alloced_pages := ml.alloced_pages + n })) ∧
    ((sgv_check_allowed_mem ml n g).2.2 =
      decide (ml.alloced_pages + n ≤ ml.max_allowed_pages)) ∧
    ((sgv_uncheck_allowed_mem ml n g).1 =
      { ml with alloced_pages := ml.alloced_pages - n }) ∧
    (sgv_check_allowed_mem ⟨0, 10⟩ 9 g).2.2 = true ∧
    (sgv_check_allowed_mem ⟨0, 10⟩ 9 g).1.alloced_pages = 9 ∧
    (sgv_check_allowed_mem ⟨9, 10⟩ 2 g).2.2 = false ∧
    (sgv_check_allowed_mem ⟨9, 10⟩ 2 g).1.alloced_pages = 9 := by
  refine ⟨?_, ?_, rfl, rfl, rfl, rfl, rfl⟩
  · unfold sgv_check_allowed_mem
    by_cases h : ml.alloced_pages + n > ml.max_allowed_pages
    · rw [if_pos h, if_pos h]
      dsimp only
      congr 1
      omega
    · rw [if_neg h, if_neg h]
  · unfold sgv_check_allowed_mem
    by_cases h : ml.alloced_pages + n > ml.max_allowed_pages
    · rw [if_pos h]
      dsimp only
      rw [eq_comm, decide_eq_false_iff_not]
      omega
    · rw [if_neg h]
      dsimp only
      rw [eq_comm, decide_eq_true_eq]
      omega

/-! ## C4: the full clusterer against its specification -/

lemma specMergeAt_eq_tryMergeAt (sg : List Sgl) (cur i : Nat)
    (hlen : (sg.getD cur sglZero).length = PAGE_SIZE) :
    tryMergeAt sg cur i = specMergeAt sg cur i := by
  unfold tryMergeAt specMergeAt
  have hdiv : (sg.getD cur sglZero).length / PAGE_SIZE = 1 := by
    rw [hlen]; norm_num [PAGE_SIZE]
  have hmod : (sg.getD cur sglZero).length % PAGE_SIZE = 0 := by
    rw [hlen]; norm_num [PAGE_SIZE]
  by_cases hT : (sg.getD i sglZero).pfn + (sg.getD i sglZero).length / PAGE_SIZE =
      (sg.getD cur sglZero).pfn ∧ (sg.getD i sglZero).length % PAGE_SIZE = 0
  · by_cases hH : (sg.getD i sglZero).pfn =
        (sg.getD cur sglZero).pfn + (sg.getD cur sglZero).length / PAGE_SIZE
    · exfalso
      obtain ⟨h1, _⟩ := hT
      rw [hdiv] at hH
      rw [hH] at h1
      generalize (sg.getD i sglZero).length / PAGE_SIZE = q at h1
      omega
    · rw [if_neg (by
        intro hc
        exact hH hc.1), if_pos hT, if_pos hT]
  · by_cases hH : (sg.getD i sglZero).pfn =
        (sg.getD cur sglZero).pfn + (sg.getD cur sglZero).length / PAGE_SIZE
    · rw [if_pos ⟨hH, hmod⟩, if_neg hT,
        if_pos (by rw [hdiv] at hH; omega : (sg.getD cur sglZero).pfn + 1 =
          (sg.getD i sglZero).pfn)]
    · rw [if_neg (by
        intro hc
        exact hH hc.1), if_neg hT, if_neg hT,
        if_neg (by
          intro hc
          apply hH
          rw [hdiv]
          omega)]
lemma specScan_eq_scanMerge (sg : List Sgl) (cur : Nat)
    (hlen : (sg.getD cur sglZero).length = PAGE_SIZE) :
    ∀ k, scanMerge sg cur k = specScan sg cur k := by
  intro k
  induction k with
  | zero => rfl
  | succ i ih =>
    unfold scanMerge specScan
    rw [specMergeAt_eq_tryMergeAt sg cur i hlen, ih]

/-- **C4**: in full-clustering mode, for a newly filled whole page at SG
index `cur`, `sgv_check_full_clustering` behaves exactly as specified:
it first tests the hint entry (the last merge target), then scans
`cur-1` down to `0`; a candidate `e` tail-merges exactly when
`pfn e + length e / PAGE = pfn new` with `length e` page-aligned and
head-merges exactly when `pfn new + 1 = pfn e`, each merge extending
`e.length` by the new page's length (head merges also moving `e.page` to
the new page); the merged index is returned, `-1` when no candidate
matches (`fullClusteringSpec` words exactly this). -/
theorem claim_C4_full_clustering (sg : List Sgl) (cur : Nat) (hint : Int)
    (hlen : (sg.getD cur sglZero).length = PAGE_SIZE) :
    sgv_check_full_clustering sg cur hint = fullClusteringSpec sg cur hint := by
  unfold sgv_check_full_clustering fullClusteringSpec
  rw [specScan_eq_scanMerge sg cur hlen cur]
  by_cases hh : hint ≥ 0
  · rw [if_pos hh, if_pos hh, specMergeAt_eq_tryMergeAt sg cur hint.toNat hlen]
  · rw [if_neg hh, if_neg hh]

/-- Witness for C4 at a concrete input: two physically adjacent pages,
the second merging into the first. -/
theorem claim_C4_full_clustering_witness :
    (([⟨10, 4096⟩, ⟨11, 4096⟩] : List Sgl).getD 1 sglZero).length = PAGE_SIZE ∧
    sgv_check_full_clustering [⟨10, 4096⟩, ⟨11, 4096⟩] 1 (-1) =
      fullClusteringSpec [⟨10, 4096⟩, ⟨11, 4096⟩] 1 (-1) :=
  ⟨by decide, claim_C4_full_clustering [⟨10, 4096⟩, ⟨11, 4096⟩] 1 (-1) (by decide)⟩

/-! ## Page-fill loop invariants (for C3 and C5) -/

lemma getD_set_self (l : List Sgl) (i : Nat) (v : Sgl) (h : i < l.length) :
    (l.set i v).getD i sglZero = v := by
  simp [List.getD, List.getElem?_set, h]

lemma getD_set_ne (l : List Sgl) (i j : Nat) (v : Sgl) (h : i ≠ j) :
    (l.set i v).getD j sglZero = l.getD j sglZero := by
  simp [List.getD, List.getElem?_set, h]

/-- Total byte length of the first `n` SG entries. -/
def lenSum (sg : List Sgl) : Nat → Nat
  | 0 => 0
  | n + 1 => lenSum sg n + (sg.getD n sglZero).length

lemma lenSum_congr (sg sg' : List Sgl) :
    ∀ n, (∀ j, j < n → sg.getD j sglZero = sg'.getD j sglZero) →
    lenSum sg n = lenSum sg' n := by
  intro n
  induction n with
  | zero => intro _; rfl
  | succ m ih =>
    intro h
    unfold lenSum
    rw [ih (fun j hj => h j (Nat.lt_succ_of_lt hj)), h m (Nat.lt_succ_self m)]

lemma lenSum_set_add (sg : List Sgl) (i : Nat) (p add : Nat) :
    ∀ n, i < n → i < sg.length →
    lenSum (sg.set i ⟨p, (sg.getD i sglZero).length + add⟩) n = lenSum sg n + add := by
  intro n
  induction n with
  | zero => intro h; omega
  | succ m ih =>
    intro hin hil
    unfold lenSum
    by_cases him : i = m
    · subst him
      rw [getD_set_self sg i _ hil]
      rw [lenSum_congr (sg.set i ⟨p, (sg.getD i sglZero).length + add⟩) sg i
        (fun j hj => getD_set_ne sg i j _ (by omega))]
      dsimp only
      ring
    · rw [getD_set_ne sg i m _ him, ih (by omega) hil]
      ring

lemma lenSum_set_zero (sg : List Sgl) (cur : Nat) :
    ∀ n, cur < n → cur < sg.length →
    lenSum (sg.set cur sglZero) n + (sg.getD cur sglZero).length = lenSum sg n := by
  intro n
  induction n with
  | zero => intro h; omega
  | succ m ih =>
    intro hin hil
    unfold lenSum
    by_cases hcm : cur = m
    · subst hcm
      rw [getD_set_self sg cur _ hil]
      rw [lenSum_congr (sg.set cur sglZero) sg cur
        (fun j hj => getD_set_ne sg cur j _ (by omega))]
      show lenSum sg cur + sglZero.length + _ = _
      show lenSum sg cur + 0 + _ = _
      ring
    · rw [getD_set_ne sg cur m _ hcm, ← ih (by omega) hil]
      ring

/-- Pages drawn from the back-end, counted on the trace. -/
def evAllocCount (e : Ev) : Nat :=
  match e with
  | .allocPage _ => 1
  | _ => 0

/-- Pages given back to the back-end, counted on the trace. -/
def evFreeCount (e : Ev) : Nat :=
  match e with
  | .freePages n => n
  | _ => 0

/-- Number of pages drawn from the page back-end over a trace. -/
def pagesAlloced (tr : List Ev) : Nat := (tr.map evAllocCount).sum

/-- Number of pages released to the page back-end over a trace. -/
def pagesFreed (tr : List Ev) : Nat := (tr.map evFreeCount).sum

lemma pagesAlloced_append (a b : List Ev) :
    pagesAlloced (a ++ b) = pagesAlloced a + pagesAlloced b := by
  unfold pagesAlloced
  rw [List.map_append, List.sum_append]

lemma pagesFreed_append (a b : List Ev) :
    pagesFreed (a ++ b) = pagesFreed a + pagesFreed b := by
  unfold pagesFreed
  rw [List.map_append, List.sum_append]

lemma tryMergeAt_shape (sg : List Sgl) (cur i : Nat) :
    tryMergeAt sg cur i = none ∨
    ∃ p : Nat, tryMergeAt sg cur i =
      some ((sg.set i ⟨p, (sg.getD i sglZero).length +
        (sg.getD cur sglZero).length⟩).set cur sglZero, i) := by
  unfold tryMergeAt
  dsimp only
  split
  · right
    exact ⟨(sg.getD cur sglZero).pfn, rfl⟩
  · split
    · right
      exact ⟨(sg.getD i sglZero).pfn, rfl⟩
    · left
      rfl

lemma scanMerge_shape (sg : List Sgl) (cur : Nat) :
    ∀ k, scanMerge sg cur k = none ∨
    ∃ i p, i < k ∧ scanMerge sg cur k =
      some ((sg.set i ⟨p, (sg.getD i sglZero).length +
        (sg.getD cur sglZero).length⟩).set cur sglZero, i) := by
  intro k
  induction k with
  | zero => left; rfl
  | succ m ih =>
    unfold scanMerge
    rcases tryMergeAt_shape sg cur m with h | ⟨p, h⟩
    · rw [h]
      rcases ih with h2 | ⟨i, p, hik, h2⟩
      · left; exact h2
      · right; exact ⟨i, p, Nat.lt_succ_of_lt hik, h2⟩
    · rw [h]
      right
      exact ⟨m, p, Nat.lt_succ_self m, rfl⟩

lemma full_clustering_shape (sg : List Sgl) (cur : Nat) (hint : Int)
    (hh : hint < (cur : Int)) :
    sgv_check_full_clustering sg cur hint = (sg, -1) ∨
    ∃ i p, i < cur ∧ sgv_check_full_clustering sg cur hint =
      ((sg.set i ⟨p, (sg.getD i sglZero).length +
        (sg.getD cur sglZero).length⟩).set cur sglZero, (i : Int)) := by
  unfold sgv_check_full_clustering
  by_cases hpos : hint ≥ 0
  · rw [if_pos hpos]
    rcases tryMergeAt_shape sg cur hint.toNat with h | ⟨p, h⟩
    · rw [h]
      rcases scanMerge_shape sg cur cur with h2 | ⟨i, p, hik, h2⟩
      · rw [h2]; left; rfl
      · rw [h2]; right; exact ⟨i, p, hik, rfl⟩
    · rw [h]
      right
      exact ⟨hint.toNat, p, by omega, rfl⟩
  · rw [if_neg hpos]
    rcases scanMerge_shape sg cur cur with h2 | ⟨i, p, hik, h2⟩
    · rw [h2]; left; rfl
    · rw [h2]; right; exact ⟨i, p, hik, rfl⟩

lemma tail_clustering_shape (sg : List Sgl) (cur : Nat) (hint : Int) :
    sgv_check_tail_clustering sg cur hint = (sg, -1) ∨
    ∃ i p, i < cur ∧ sgv_check_tail_clustering sg cur hint =
      ((sg.set i ⟨p, (sg.getD i sglZero).length +
        (sg.getD cur sglZero).length⟩).set cur sglZero, (i : Int)) := by
  unfold sgv_check_tail_clustering
  by_cases hc : cur = 0
  · rw [if_pos hc]; left; rfl
  · rw [if_neg hc]
    dsimp only
    split
    · right
      exact ⟨cur - 1, (sg.getD (cur - 1) sglZero).pfn, by omega, rfl⟩
    · left; rfl

lemma sgvAllocStep_no_clustering (sg : List Sgl) (c : Nat) (m : Int)
    (pfn : Nat) :
    sgvAllocStep .sgv_no_clustering sg c m pfn =
      (sg.set c ⟨pfn, PAGE_SIZE⟩, c + 1, -1) := by
  unfold sgvAllocStep
  dsimp only
  rw [if_pos rfl]

lemma sgvAllocStep_shape (ctype : SgvClustering) (sg : List Sgl) (c : Nat)
    (m : Int) (pfn : Nat) (hm : m < (c : Int)) (hlt : c < sg.length) :
    sgvAllocStep ctype sg c m pfn = (sg.set c ⟨pfn, PAGE_SIZE⟩, c + 1, -1) ∨
    ∃ i p, i < c ∧ ctype ≠ .sgv_no_clustering ∧
      sgvAllocStep ctype sg c m pfn =
        (((sg.set c ⟨pfn, PAGE_SIZE⟩).set i
            ⟨p, ((sg.set c ⟨pfn, PAGE_SIZE⟩).getD i sglZero).length + PAGE_SIZE⟩).set
          c sglZero, c, (i : Int)) := by
  have hcur : (sg.set c ⟨pfn, PAGE_SIZE⟩).getD c sglZero = ⟨pfn, PAGE_SIZE⟩ :=
    getD_set_self sg c _ hlt
  cases ctype with
  | sgv_no_clustering => left; exact sgvAllocStep_no_clustering sg c m pfn
  | sgv_tail_clustering =>
    rcases tail_clustering_shape (sg.set c ⟨pfn, PAGE_SIZE⟩) c m with h | ⟨i, p, hic, h⟩
    · left
      unfold sgvAllocStep
      dsimp only
      rw [h]
      rw [if_pos rfl]
    · right
      refine ⟨i, p, hic, by decide, ?_⟩
      unfold sgvAllocStep
      dsimp only
      rw [h]
      rw [if_neg (by omega : ¬ ((i : Int) = -1))]
      rw [hcur]
  | sgv_full_clustering =>
    rcases full_clustering_shape (sg.set c ⟨pfn, PAGE_SIZE⟩) c m hm
      with h | ⟨i, p, hic, h⟩
    · left
      unfold sgvAllocStep
      dsimp only
      rw [h]
      rw [if_pos rfl]
    · right
      refine ⟨i, p, hic, by decide, ?_⟩
      unfold sgvAllocStep
      dsimp only
      rw [h]
      rw [if_neg (by omega : ¬ ((i : Int) = -1))]
      rw [hcur]

/-- The combined invariant of the page-filling loop of
`sgv_alloc_sg_entries`: writing each new page at the SG write index and
clustering preserves (i) the array length, (ii) zero entries at and
beyond the write index, (iii) page-aligned entry lengths, (iv) positive
lengths of populated entries, and (v) total byte length equal to the
pages consumed so far; the loop touches the global state only through
`allocPage` trace events, one per page drawn. -/
lemma sgvAllocLoop_invariant (ctype : SgvClustering) :
    ∀ (rem : Nat) (sg : List Sgl) (c : Nat) (m : Int)
      (supply : List (Option Nat)) (g : SgvGlobal),
    c + rem ≤ sg.length →
    m < (c : Int) →
    (∀ j, c ≤ j → (sg.getD j sglZero).length = 0) →
    (∀ j, (sg.getD j sglZero).length % PAGE_SIZE = 0) →
    (∀ j, j < c → 0 < (sg.getD j sglZero).length) →
    ∃ k : Nat,
      k ≤ rem ∧
      (sgvAllocLoop ctype rem sg c m supply g).2.1.length = sg.length ∧
      c ≤ (sgvAllocLoop ctype rem sg c m supply g).2.2.1 ∧
      (sgvAllocLoop ctype rem sg c m supply g).2.2.1 ≤ c + k ∧
      (∀ j, (sgvAllocLoop ctype rem sg c m supply g).2.2.1 ≤ j →
        (((sgvAllocLoop ctype rem sg c m supply g).2.1).getD j sglZero).length = 0) ∧
      (∀ j, (((sgvAllocLoop ctype rem sg c m supply g).2.1).getD j sglZero).length %
        PAGE_SIZE = 0) ∧
      (∀ j, j < (sgvAllocLoop ctype rem sg c m supply g).2.2.1 →
        0 < (((sgvAllocLoop ctype rem sg c m supply g).2.1).getD j sglZero).length) ∧
      lenSum (sgvAllocLoop ctype rem sg c m supply g).2.1 sg.length =
        lenSum sg sg.length + k * PAGE_SIZE ∧
      (sgvAllocLoop ctype rem sg c m supply g).2.2.2.2 =
        { g with trace := (sgvAllocLoop ctype rem sg c m supply g).2.2.2.2.trace } ∧
      pagesAlloced (sgvAllocLoop ctype rem sg c m supply g).2.2.2.2.trace =
        pagesAlloced g.trace + k ∧
      pagesFreed (sgvAllocLoop ctype rem sg c m supply g).2.2.2.2.trace =
        pagesFreed g.trace ∧
      ((sgvAllocLoop ctype rem sg c m supply g).1 = none ∨
        ((sgvAllocLoop ctype rem sg c m supply g).1 =
          some (sgvAllocLoop ctype rem sg c m supply g).2.2.1 ∧ k = rem)) ∧
      (ctype = .sgv_no_clustering →
        (sgvAllocLoop ctype rem sg c m supply g).2.2.1 = c + k) := by
  intro rem
  induction rem with
  | zero =>
    intro sg c m supply g hB hm hZ hM hP
    exact ⟨0, le_refl 0, rfl, le_refl c, le_refl c, hZ, hM, hP, rfl, rfl, rfl,
      rfl, Or.inr ⟨rfl, rfl⟩, fun _ => rfl⟩
  | succ n ih =>
    intro sg c m supply g hB hm hZ hM hP
    match supply with
    | [] =>
      exact ⟨0, Nat.zero_le _, rfl, le_refl c, le_refl c, hZ, hM, hP, rfl, rfl,
        rfl, rfl, Or.inl rfl, fun _ => rfl⟩
    | none :: rest =>
      exact ⟨0, Nat.zero_le _, rfl, le_refl c, le_refl c, hZ, hM, hP, rfl, rfl,
        rfl, rfl, Or.inl rfl, fun _ => rfl⟩
    | some pfn :: rest =>
      have hlt : c < sg.length := by omega
      rcases sgvAllocStep_shape ctype sg c m pfn hm hlt with hstep | ⟨i, p, hic, hne, hstep⟩
      · -- no merge: the new page fills entry c
        have hZ' : ∀ j, c + 1 ≤ j →
            (((sg.set c ⟨pfn, PAGE_SIZE⟩).getD j sglZero)).length = 0 := by
          intro j hj
          rw [getD_set_ne sg c j _ (by omega)]
          exact hZ j (by omega)
        have hM' : ∀ j, (((sg.set c ⟨pfn, PAGE_SIZE⟩).getD j sglZero)).length %
            PAGE_SIZE = 0 := by
          intro j
          by_cases hjc : j = c
          · subst hjc
            rw [getD_set_self sg j _ hlt]
            norm_num [PAGE_SIZE]
          · rw [getD_set_ne sg c j _ (fun hx => hjc hx.symm)]
            exact hM j
        have hP' : ∀ j, j < c + 1 →
            0 < (((sg.set c ⟨pfn, PAGE_SIZE⟩).getD j sglZero)).length := by
          intro j hj
          by_cases hjc : j = c
          · subst hjc
            rw [getD_set_self sg j _ hlt]
            norm_num [PAGE_SIZE]
          · rw [getD_set_ne sg c j _ (fun hx => hjc hx.symm)]
            exact hP j (by omega)
        have hlen' : (sg.set c ⟨pfn, PAGE_SIZE⟩).length = sg.length := by simp
        obtain ⟨k, hk, c1, c2, c3, c4, c5, c6, c7, c8, c9, c10, c11, c12⟩ :=
          ih (sg.set c ⟨pfn, PAGE_SIZE⟩) (c + 1) (-1) rest (emit g (.allocPage pfn))
            (by rw [hlen']; omega) (by omega) hZ' hM' hP'
        refine ⟨k + 1, ?_⟩
        have hloop : sgvAllocLoop ctype (n + 1) sg c m (some pfn :: rest) g =
            sgvAllocLoop ctype n (sg.set c ⟨pfn, PAGE_SIZE⟩) (c + 1) (-1) rest
              (emit g (.allocPage pfn)) := by
          simp only [sgvAllocLoop, hstep]
        rw [hloop]
        have hsum : lenSum (sg.set c ⟨pfn, PAGE_SIZE⟩) sg.length =
            lenSum sg sg.length + PAGE_SIZE := by
          have hz : (⟨pfn, PAGE_SIZE⟩ : Sgl) =
              ⟨pfn, (sg.getD c sglZero).length + PAGE_SIZE⟩ := by
            rw [hZ c (le_refl c)]
            simp
          rw [hz]
          exact lenSum_set_add sg c pfn PAGE_SIZE sg.length hlt hlt
        rw [hlen'] at c7
        have he1 : pagesAlloced (emit g (Ev.allocPage pfn)).trace =
            pagesAlloced g.trace + 1 := by
          show pagesAlloced (g.trace ++ [Ev.allocPage pfn]) = _
          rw [pagesAlloced_append]
          rfl
        have he2 : pagesFreed (emit g (Ev.allocPage pfn)).trace =
            pagesFreed g.trace := by
          show pagesFreed (g.trace ++ [Ev.allocPage pfn]) = _
          rw [pagesFreed_append]
          rfl
        refine ⟨by omega, by rw [c1, hlen'], by omega, by omega, c4, c5,
          fun j hj => c6 j hj, ?_, ?_, ?_, ?_, ?_, ?_⟩
        · rw [c7, hsum]; ring
        · exact c8
        · rw [c9, he1]; ring
        · rw [c10, he2]
        · rcases c11 with h | ⟨h1, h2⟩
          · exact Or.inl h
          · exact Or.inr ⟨h1, by omega⟩
        · intro hno
          rw [c12 hno]
          omega
      · -- merge into entry i < c: entry count unchanged
        set sg1 := sg.set c ⟨pfn, PAGE_SIZE⟩ with hsg1
        set sg2 := (sg1.set i ⟨p, (sg1.getD i sglZero).length + PAGE_SIZE⟩).set c
          sglZero with hsg2
        have hlen1 : sg1.length = sg.length := by simp [hsg1]
        have hlen2 : sg2.length = sg.length := by simp [hsg2, hsg1]
        have hic' : i ≠ c := by omega
        have hgetD1 : ∀ j, j ≠ c → sg1.getD j sglZero = sg.getD j sglZero := by
          intro j hj
          exact getD_set_ne sg c j _ (fun hx => hj hx.symm)
        have hgetD2c : sg2.getD c sglZero = sglZero := by
          rw [hsg2]
          exact getD_set_self _ c _ (by simp [hsg1]; omega)
        have hgetD2i : sg2.getD i sglZero =
            ⟨p, (sg.getD i sglZero).length + PAGE_SIZE⟩ := by
          rw [hsg2]
          rw [getD_set_ne _ c i _ (fun hx => hic' hx.symm)]
          rw [getD_set_self _ i _ (by simp [hsg1]; omega)]
          rw [hgetD1 i hic']
        have hgetD2o : ∀ j, j ≠ c → j ≠ i → sg2.getD j sglZero = sg.getD j sglZero := by
          intro j hjc hji
          rw [hsg2]
          rw [getD_set_ne _ c j _ (fun hx => hjc hx.symm)]
          rw [getD_set_ne _ i j _ (fun hx => hji hx.symm)]
          exact hgetD1 j hjc
        have hZ' : ∀ j, c ≤ j → (sg2.getD j sglZero).length = 0 := by
          intro j hj
          by_cases hjc : j = c
          · subst hjc
            rw [hgetD2c]
            rfl
          · rw [hgetD2o j hjc (by omega)]
            exact hZ j hj
        have hM' : ∀ j, (sg2.getD j sglZero).length % PAGE_SIZE = 0 := by
          intro j
          by_cases hjc : j = c
          · subst hjc
            rw [hgetD2c]
            rfl
          · by_cases hji : j = i
            · subst hji
              rw [hgetD2i]
              show ((sg.getD j sglZero).length + PAGE_SIZE) % PAGE_SIZE = 0
              rw [Nat.add_mod_right]
              exact hM j
            · rw [hgetD2o j hjc hji]
              exact hM j
        have hP' : ∀ j, j < c → 0 < (sg2.getD j sglZero).length := by
          intro j hj
          by_cases hji : j = i
          · subst hji
            rw [hgetD2i]
            show 0 < (sg.getD j sglZero).length + PAGE_SIZE
            norm_num [PAGE_SIZE]
          · rw [hgetD2o j (by omega) hji]
            exact hP j hj
        obtain ⟨k, hk, c1, c2, c3, c4, c5, c6, c7, c8, c9, c10, c11, c12⟩ :=
          ih sg2 c (i : Int) rest (emit g (.allocPage pfn))
            (by rw [hlen2]; omega) (by omega) hZ' hM' hP'
        refine ⟨k + 1, ?_⟩
        have hloop : sgvAllocLoop ctype (n + 1) sg c m (some pfn :: rest) g =
            sgvAllocLoop ctype n sg2 c (i : Int) rest (emit g (.allocPage pfn)) := by
          simp only [sgvAllocLoop, hstep, hsg2, hsg1]
        rw [hloop]
        have hsum1 : lenSum sg1 sg.length = lenSum sg sg.length + PAGE_SIZE := by
          have hz : (⟨pfn, PAGE_SIZE⟩ : Sgl) =
              ⟨pfn, (sg.getD c sglZero).length + PAGE_SIZE⟩ := by
            rw [hZ c (le_refl c)]
            simp
          rw [hsg1, hz]
          exact lenSum_set_add sg c pfn PAGE_SIZE sg.length hlt hlt
        have hsum2 : lenSum sg2 sg.length = lenSum sg sg.length + PAGE_SIZE := by
          have hmid : lenSum (sg1.set i ⟨p, (sg1.getD i sglZero).length + PAGE_SIZE⟩)
              sg.length = lenSum sg1 sg.length + PAGE_SIZE := by
            exact lenSum_set_add sg1 i p PAGE_SIZE sg.length (by omega)
              (by rw [hlen1]; omega)
          have hcurlen : ((sg1.set i ⟨p, (sg1.getD i sglZero).length +
              PAGE_SIZE⟩).getD c sglZero).length = PAGE_SIZE := by
            rw [getD_set_ne _ i c _ hic']
            rw [hsg1, getD_set_self sg c _ hlt]
          have hzero := lenSum_set_zero
            (sg1.set i ⟨p, (sg1.getD i sglZero).length + PAGE_SIZE⟩) c sg.length
            hlt (by simp [hsg1]; omega)
          rw [hcurlen] at hzero
          rw [hsg2]
          omega
        rw [hlen2] at c7
        have he1 : pagesAlloced (emit g (Ev.allocPage pfn)).trace =
            pagesAlloced g.trace + 1 := by
          show pagesAlloced (g.trace ++ [Ev.allocPage pfn]) = _
          rw [pagesAlloced_append]
          rfl
        have he2 : pagesFreed (emit g (Ev.allocPage pfn)).trace =
            pagesFreed g.trace := by
          show pagesFreed (g.trace ++ [Ev.allocPage pfn]) = _
          rw [pagesFreed_append]
          rfl
        refine ⟨by omega, by rw [c1, hlen2], by omega, by omega, c4, c5,
          fun j hj => c6 j hj, ?_, ?_, ?_, ?_, ?_, ?_⟩
        · rw [c7, hsum2]
          ring
        · exact c8
        · rw [c9, he1]; ring
        · rw [c10, he2]
        · rcases c11 with h | ⟨h1, h2⟩
          · exact Or.inl h
          · exact Or.inr ⟨h1, by omega⟩
        · intro hno
          exact absurd hno hne

/-! ## Concrete states for witnesses and counterexamples -/

/-- A freshly initialised pool (`sgv_pool_init` state: zeroed counters,
empty lists). -/
def mkEmptyPool (ct : SgvClustering) : SgvPool :=
  { clustering_type := ct, arena := [], next_id := 0,
    recycling_lists := List.replicate SGV_POOL_ELEMENTS [],
    sorted_recycling_list := [], cached_entries := 0, cached_pages := 0,
    inactive_cached_pages := 0, purge_work_scheduled := false,
    hit_alloc := List.replicate SGV_POOL_ELEMENTS 0,
    total_alloc := List.replicate SGV_POOL_ELEMENTS 0,
    merged := List.replicate SGV_POOL_ELEMENTS 0,
    big_alloc := 0, big_pages := 0, big_merged := 0,
    other_alloc := 0, other_pages := 0, other_merged := 0 }

/-- A small global state: one pool, watermarks 100/50, nothing cached. -/
def mkGlobal (p : SgvPool) : SgvGlobal :=
  { pools := [(0, p)], active_pools_list := [], cur_purge_pool := none,
    pages_total := 0, hi_wmk := 100, lo_wmk := 50, releases_on_hiwmk := 0,
    releases_on_hiwmk_failed := 0, other_total_alloc := 0, trace := [] }

/-- A roomy consumer quota. -/
def mlBig : MemLim := { alloced_pages := 0, max_allowed_pages := 1000 }

/-- All `SCST_POOL_*` flag bits clear. -/
def noFlags : AllocFlags := ⟨false, false, false⟩

/-! ## C9: `sgv_pool_alloc` with `size == 0` -/

/-- **C9** (amended): `sgv_pool_alloc` with `size == 0` returns `NULL`
immediately, leaving the `count` and `sgv` out-parameters unwritten and
charging neither the consumer quota nor the watermark counter (the whole
state is untouched). -/
theorem claim_C9_size_zero (g : SgvGlobal) (pid : PoolId) (flags : AllocFlags)
    (countIn : Int) (sgvIn : Option SgvObj) (ml : MemLim) (priv : Nat)
    (supply : List (Option Nat)) (km : List Bool) (t : Nat) :
    sgv_pool_alloc g pid 0 flags countIn sgvIn ml priv supply km t =
      ⟨g, ml, supply, km, none, countIn, sgvIn⟩ := by
  unfold sgv_pool_alloc
  rw [if_pos rfl]

/-- **C9** counterexample to the claim as stated: with `size == 0` the
code does *not* return an empty SG vector with count 0 — it returns
`NULL` and leaves `*count` at its caller-supplied value (here 5). -/
theorem claim_C9_counterexample :
    (sgv_pool_alloc (mkGlobal (mkEmptyPool .sgv_no_clustering)) 0 0 noFlags 5
      none mlBig 0 [] [] 0).count = 5 ∧
    (sgv_pool_alloc (mkGlobal (mkEmptyPool .sgv_no_clustering)) 0 0 noFlags 5
      none mlBig 0 [] [] 0).count ≠ 0 ∧
    (sgv_pool_alloc (mkGlobal (mkEmptyPool .sgv_no_clustering)) 0 0 noFlags 5
      none mlBig 0 [] [] 0).res = none := by
  refine ⟨rfl, by decide, rfl⟩

/-! ## C7: `priv` is preserved across cache hits -/

lemma set_getD_self (l : List Sgl) : ∀ i, l.set i (l.getD i sglZero) = l := by
  induction l with
  | nil => intro i; rfl
  | cons a t ih =>
    intro i
    cases i with
    | zero => rfl
    | succ j =>
      show a :: t.set j (t.getD j sglZero) = a :: t
      rw [ih j]

lemma map_pfn_set_length (l : List Sgl) (i : Nat) (len : Nat) (p : Nat)
    (hp : p = (l.getD i sglZero).pfn) :
    (l.set i ⟨p, len⟩).map (·.pfn) = l.map (·.pfn) := by
  subst hp
  induction l generalizing i with
  | nil => rfl
  | cons a t ih =>
    cases i with
    | zero => rfl
    | succ j =>
      show _ :: (t.set j _).map _ = _ :: t.map _
      have hg : ((a :: t).getD (j + 1) sglZero) = t.getD j sglZero := rfl
      rw [hg, ih j]

lemma sgv_check_allowed_mem_success (ml : MemLim) (n : Int) (g : SgvGlobal)
    (h : ml.alloced_pages + n ≤ ml.max_allowed_pages) :
    sgv_check_allowed_mem ml n g =
      ({ ml with alloced_pages := ml.alloced_pages + n },
        emit g (.chargeQuota n), true) := by
  unfold sgv_check_allowed_mem
  rw [if_neg (by omega)]

lemma sgv_get_obj_hit (g : SgvGlobal) (pid : PoolId) (order : Nat)
    (km : List Bool) (pool : SgvPool) (oid : ObjId) (obj : SgvObj)
    (hpool : getPool g pid = some pool)
    (hhead : (pool.recycling_lists.getD order []).head? = some oid)
    (hobj : getObj pool oid = some obj) :
    ∃ g', sgv_get_obj g pid order km = (g', km, some obj) := by
  unfold sgv_get_obj
  simp only [hpool, hhead, hobj]
  exact ⟨_, rfl⟩

lemma sgvAllocFinish_shape (g : SgvGlobal) (ml : MemLim)
    (supply : List (Option Nat)) (km : List Bool) (obj : SgvObj)
    (cnt size : Nat) :
    ∃ obj', sgvAllocFinish g ml supply km obj cnt size =
        ⟨g, ml, supply, km, some obj'.sg_entries, (cnt : Int), some obj'⟩ ∧
      obj'.allocator_priv = obj.allocator_priv ∧
      obj'.sg_entries.map (·.pfn) = obj.sg_entries.map (·.pfn) := by
  unfold sgvAllocFinish
  by_cases h : size % PAGE_SIZE ≠ 0
  · rw [if_pos h]
    refine ⟨_, rfl, rfl, ?_⟩
    exact map_pfn_set_length _ _ _ _ rfl
  · rw [if_neg h]
    exact ⟨obj, rfl, rfl, rfl⟩

lemma sgvAllocSuccess_shape (g : SgvGlobal) (ml : MemLim)
    (supply : List (Option Nat)) (km : List Bool) (pid : PoolId)
    (ctype : SgvClustering) (obj : SgvObj) (cache no_cached : Bool)
    (order pages size : Nat) :
    ∃ obj',
      (sgvAllocSuccess g ml supply km pid ctype obj cache no_cached order
        pages size).sgv = some obj' ∧
      (sgvAllocSuccess g ml supply km pid ctype obj cache no_cached order
        pages size).res = some obj'.sg_entries ∧
      (sgvAllocSuccess g ml supply km pid ctype obj cache no_cached order
        pages size).ml = ml ∧
      (sgvAllocSuccess g ml supply km pid ctype obj cache no_cached order
        pages size).supply = supply ∧
      (sgvAllocSuccess g ml supply km pid ctype obj cache no_cached order
        pages size).km = km ∧
      obj'.allocator_priv = obj.allocator_priv ∧
      obj'.sg_entries.map (·.pfn) = obj.sg_entries.map (·.pfn) := by
  unfold sgvAllocSuccess sgvAllocFinish
  dsimp only
  split_ifs
  all_goals refine ⟨_, rfl, rfl, rfl, rfl, rfl, rfl, ?_⟩
  all_goals first
    | rfl
    | exact map_pfn_set_length _ _ _ _ rfl
    | exact (map_pfn_set_length _ _ _ _ rfl).trans (map_pfn_set_length _ _ _ _ rfl)

/-- **C7**: the `allocator_priv` field is written only at first fill; on
a cache hit the caller-supplied `priv` argument does not overwrite the
stored field, `sgv_get_priv` returns the priv stored at first fill, and
the page set (the page frame numbers of the SG entries) is preserved; no
page is drawn from the back-end. -/
theorem claim_C7_priv_preserved (g : SgvGlobal) (pid : PoolId) (size : Nat)
    (flags : AllocFlags) (countIn : Int) (ml : MemLim) (priv : Nat)
    (supply : List (Option Nat)) (km : List Bool) (t : Nat)
    (pool : SgvPool) (oid : ObjId) (obj : SgvObj)
    (hsize : size ≠ 0)
    (hpool : getPool g pid = some pool)
    (horder : get_order size < SGV_POOL_ELEMENTS)
    (hnc : flags.no_cached = false)
    (hq : ml.alloced_pages + (2 : Int) ^ get_order size ≤ ml.max_allowed_pages)
    (hhead : (pool.recycling_lists.getD (get_order size) []).head? = some oid)
    (hobj : getObj pool oid = some obj)
    (hcnt : obj.sg_count ≠ 0) :
    ∃ obj',
      (sgv_pool_alloc g pid size flags countIn none ml priv supply km t).sgv =
        some obj' ∧
      (sgv_pool_alloc g pid size flags countIn none ml priv supply km t).res =
        some obj'.sg_entries ∧
      sgv_get_priv obj' = sgv_get_priv obj ∧
      obj'.allocator_priv = obj.allocator_priv ∧
      obj'.sg_entries.map (·.pfn) = obj.sg_entries.map (·.pfn) ∧
      (sgv_pool_alloc g pid size flags countIn none ml priv supply km t).supply =
        supply := by
  obtain ⟨g1, hget⟩ := sgv_get_obj_hit (emit g (.chargeQuota ((2 : Int) ^ get_order size)))
    pid (get_order size) km pool oid obj hpool hhead hobj
  have hrun : sgv_pool_alloc g pid size flags countIn none ml priv supply km t =
      sgvAllocSuccess
        (updPool g1 pid fun p => { p with hit_alloc := listInc p.hit_alloc (get_order size) 1 })
        { ml with alloced_pages := ml.alloced_pages + (2 : Int) ^ get_order size }
        supply km pid pool.clustering_type obj true flags.no_cached
        (get_order size) ((size + PAGE_SIZE - 1) / PAGE_SIZE) size := by
    unfold sgv_pool_alloc
    rw [if_neg hsize]
    simp only [hpool]
    rw [if_pos (by
      constructor
      · exact horder
      · rw [hnc]
        exact Bool.false_ne_true)]
    rw [sgv_check_allowed_mem_success ml _ g hq]
    dsimp only
    rw [if_neg (by simp)]
    rw [hget]
    dsimp only
    rw [if_pos hcnt]
  rw [hrun]
  obtain ⟨obj', h1, h2, _h3, h4, _h5, h6, h7⟩ := sgvAllocSuccess_shape
    (updPool g1 pid fun p => { p with hit_alloc := listInc p.hit_alloc (get_order size) 1 })
    { ml with alloced_pages := ml.alloced_pages + (2 : Int) ^ get_order size }
    supply km pid pool.clustering_type obj true flags.no_cached
    (get_order size) ((size + PAGE_SIZE - 1) / PAGE_SIZE) size
  exact ⟨obj', h1, h2, by unfold sgv_get_priv; exact h6, h6, h7, h4⟩

/-- A cached one-page object with `priv = 42` for the C7 witness. -/
def objHit : SgvObj :=
  { order_or_pages := 0, owner_pool := 0, sg_count := 1,
    sg_entries := [⟨7, 4096⟩], trans_tbl := none, sg_external := false,
    tt_external := false, orig_sg := 0, orig_length := 4096,
    allocator_priv := 42, time_stamp := 0 }

/-- A pool whose order-0 bucket caches `objHit`. -/
def poolHit : SgvPool :=
  { mkEmptyPool .sgv_no_clustering with
    arena := [(0, objHit)],
    recycling_lists := (List.replicate SGV_POOL_ELEMENTS ([] : List ObjId)).set 0 [0],
    sorted_recycling_list := [0],
    cached_entries := 1, cached_pages := 1, inactive_cached_pages := 1 }

/-- Witness for C7: allocating 4096 bytes from the pool caching `objHit`
with caller priv 99 hits the cache and preserves the stored priv 42. -/
theorem claim_C7_priv_preserved_witness :
    (4096 ≠ 0) ∧
    getPool (mkGlobal poolHit) 0 = some poolHit ∧
    get_order 4096 < SGV_POOL_ELEMENTS ∧
    noFlags.no_cached = false ∧
    mlBig.alloced_pages + (2 : Int) ^ get_order 4096 ≤ mlBig.max_allowed_pages ∧
    (poolHit.recycling_lists.getD (get_order 4096) []).head? = some 0 ∧
    getObj poolHit 0 = some objHit ∧
    objHit.sg_count ≠ 0 ∧
    (∃ obj',
      (sgv_pool_alloc (mkGlobal poolHit) 0 4096 noFlags 7 none mlBig 99 [] [] 0).sgv =
        some obj' ∧
      (sgv_pool_alloc (mkGlobal poolHit) 0 4096 noFlags 7 none mlBig 99 [] [] 0).res =
        some obj'.sg_entries ∧
      sgv_get_priv obj' = sgv_get_priv objHit ∧
      obj'.allocator_priv = objHit.allocator_priv ∧
      obj'.sg_entries.map (·.pfn) = objHit.sg_entries.map (·.pfn) ∧
      (sgv_pool_alloc (mkGlobal poolHit) 0 4096 noFlags 7 none mlBig 99 [] [] 0).supply =
        []) :=
  ⟨by decide, by decide, by decide, by decide, by decide, by decide, by decide,
    by decide,
    claim_C7_priv_preserved (mkGlobal poolHit) 0 4096 noFlags 7 mlBig 99 [] [] 0
      poolHit 0 objHit (by decide) (by decide) (by decide) (by decide)
      (by decide) (by decide) (by decide) (by decide)⟩

/-! ## C10: `scst_alloc` with `__GFP_NOFAIL` -/

lemma getD_replicate : ∀ (n j : Nat),
    (List.replicate n sglZero).getD j sglZero = sglZero := by
  intro n
  induction n with
  | zero => intro j; cases j <;> rfl
  | succ m ih =>
    intro j
    cases j with
    | zero => rfl
    | succ i => exact ih i

lemma sgv_alloc_sg_entries_fill (pages : Nat) (ctype : SgvClustering)
    (tt : Option (List TransTblEnt)) (supply : List (Option Nat))
    (g : SgvGlobal) :
    ((sgv_alloc_sg_entries (List.replicate pages sglZero) pages ctype tt
        supply g).g =
      { g with trace := (sgv_alloc_sg_entries (List.replicate pages sglZero)
          pages ctype tt supply g).g.trace }) ∧
    ((sgv_alloc_sg_entries (List.replicate pages sglZero) pages ctype tt
        supply g).sg_count ≤ pages) ∧
    (ctype = .sgv_no_clustering →
      (sgv_alloc_sg_entries (List.replicate pages sglZero) pages ctype tt
          supply g).sg_count = 0 ∨
      (sgv_alloc_sg_entries (List.replicate pages sglZero) pages ctype tt
          supply g).sg_count = pages) := by
  obtain ⟨k, hk, c1, c2, c3, c4, c5, c6, c7, c8, c9, c10, c11, c12⟩ :=
    sgvAllocLoop_invariant ctype pages (List.replicate pages sglZero) 0 (-1)
      supply g (by simp) (by norm_num)
      (fun j _ => by rw [getD_replicate]; rfl)
      (fun j => by rw [getD_replicate]; rfl)
      (fun j hj => by omega)
  unfold sgv_alloc_sg_entries
  rcases c11 with hnone | ⟨hsome, hkrem⟩
  · simp only [hnone]
    refine ⟨?_, by omega, fun _ => Or.inl trivial⟩
    show emit ((sgvAllocLoop ctype pages (List.replicate pages sglZero) 0 (-1)
      supply g).2.2.2.2) _ = _
    rw [c8]
    rfl
  · simp only [hsome]
    refine ⟨c8, ?_, fun hno => Or.inr ?_⟩
    · show (sgvAllocLoop ctype pages (List.replicate pages sglZero) 0 (-1)
        supply g).2.2.1 ≤ pages
      omega
    · show (sgvAllocLoop ctype pages (List.replicate pages sglZero) 0 (-1)
        supply g).2.2.1 = pages
      rw [c12 hno]
      omega

lemma sgvAllocLoop_success_of_good_supply (ctype : SgvClustering) :
    ∀ (rem : Nat) (sg : List Sgl) (c : Nat) (m : Int) (pfns : List Nat)
      (g : SgvGlobal), rem ≤ pfns.length →
    (sgvAllocLoop ctype rem sg c m (pfns.map some) g).1.isSome := by
  intro rem
  induction rem with
  | zero => intro sg c m pfns g _; rfl
  | succ n ih =>
    intro sg c m pfns g hlen
    match pfns with
    | [] => simp at hlen
    | p :: ps =>
      show (sgvAllocLoop ctype (n + 1) sg c m (some p :: ps.map some) g).1.isSome
      rw [sgvAllocLoop]
      exact ih _ _ _ ps _ (by simpa using hlen)

lemma scst_fill_success (pages : Nat) (pfns : List Nat) (g : SgvGlobal)
    (hlen : pages ≤ pfns.length) (_hp : 0 < pages) :
    (sgv_alloc_sg_entries (List.replicate pages sglZero) pages
      .sgv_no_clustering none (pfns.map some) g).sg_count = pages := by
  have hs := sgvAllocLoop_success_of_good_supply .sgv_no_clustering pages
    (List.replicate pages sglZero) 0 (-1) pfns g hlen
  obtain ⟨k, hk, c1, c2, c3, c4, c5, c6, c7, c8, c9, c10, c11, c12⟩ :=
    sgvAllocLoop_invariant .sgv_no_clustering pages (List.replicate pages sglZero)
      0 (-1) (pfns.map some) g (by simp) (by norm_num)
      (fun j _ => by rw [getD_replicate]; rfl)
      (fun j => by rw [getD_replicate]; rfl)
      (fun j hj => by omega)
  rcases c11 with hnone | ⟨hsome, hkrem⟩
  · rw [hnone] at hs
    cases hs
  · unfold sgv_alloc_sg_entries
    simp only [hsome]
    show (sgvAllocLoop .sgv_no_clustering pages (List.replicate pages sglZero) 0
      (-1) (pfns.map some) g).2.2.1 = pages
    rw [c12 rfl]
    omega


/-- **C10**: with `__GFP_NOFAIL`, `scst_alloc` does not fail on the
high-watermark gate: even when `sgv_hiwmk_check` refuses, the page count
stays added to `sgv_pages_total` and the allocation proceeds (a good page
supply and a working kmalloc then always yield a vector); on success the
returned count equals the page count of the request (clustering is
disabled), and `scst_free` releases exactly `count` pages from
`sgv_pages_total`, keeping the counter balanced. -/
theorem claim_C10_nofail_alloc (g : SgvGlobal) (size : Nat) (countIn : Int)
    (supply : List (Option Nat)) (km : List Bool) (t : Nat) :
    ((scst_alloc g size true countIn supply km t).g.pages_total =
      (sgv_hiwmk_check { g with other_total_alloc := g.other_total_alloc + 1 }
          ((size / PAGE_SIZE + if size % PAGE_SIZE ≠ 0 then 1 else 0 : Nat) : Int)
          t).1.pages_total +
        (if (sgv_hiwmk_check { g with other_total_alloc := g.other_total_alloc + 1 }
              ((size / PAGE_SIZE + if size % PAGE_SIZE ≠ 0 then 1 else 0 : Nat) : Int)
              t).2 = 0 then 0
         else ((size / PAGE_SIZE + if size % PAGE_SIZE ≠ 0 then 1 else 0 : Nat) : Int))) ∧
    ((scst_alloc g size true countIn supply km t).res ≠ none →
      (scst_alloc g size true countIn supply km t).count =
        ((size / PAGE_SIZE + if size % PAGE_SIZE ≠ 0 then 1 else 0 : Nat) : Int)) ∧
    (∀ pfns : List Nat, supply = pfns.map some →
      (size / PAGE_SIZE + if size % PAGE_SIZE ≠ 0 then 1 else 0) ≤ pfns.length →
      0 < size → (kpop km).1 = true →
      (scst_alloc g size true countIn supply km t).res ≠ none) ∧
    (∀ (g' : SgvGlobal) (sgl : List Sgl) (cnt : Nat),
      (scst_free g' sgl cnt).pages_total = g'.pages_total - (cnt : Int)) := by
  refine ⟨?_, ?_, ?_, ?_⟩
  · unfold scst_alloc
    rw [if_neg (by simp)]
    dsimp only
    generalize size / PAGE_SIZE + (if size % PAGE_SIZE ≠ 0 then 1 else 0) = pages
    generalize sgv_hiwmk_check
      { g with other_total_alloc := g.other_total_alloc + 1 } (pages : Int) t = gate
    by_cases hrc : gate.2 = 0
    · rw [hrc, if_neg (show ¬ ((0 : Int) ≠ 0) by omega)]
      by_cases hkp : (kpop km).1 = true
      · rw [hkp, if_neg (show ¬ (¬ true = true) by simp)]
        obtain ⟨he, -, -⟩ :=
          sgv_alloc_sg_entries_fill pages .sgv_no_clustering none supply gate.1
        by_cases hsg : (sgv_alloc_sg_entries (List.replicate pages sglZero) pages
            .sgv_no_clustering none supply gate.1).sg_count = 0
        · rw [if_pos hsg, if_neg (show ¬ (¬ true = true) by simp), he]
          dsimp only
          omega
        · rw [if_neg hsg, he]
          dsimp only
          omega
      · rw [Bool.not_eq_true] at hkp
        rw [hkp, if_pos (show ¬ false = true by simp),
          if_neg (show ¬ (¬ true = true) by simp)]
        dsimp only
        omega
    · rw [if_pos hrc, if_neg hrc]
      by_cases hkp : (kpop km).1 = true
      · rw [hkp, if_neg (show ¬ (¬ true = true) by simp)]
        obtain ⟨he, -, -⟩ := sgv_alloc_sg_entries_fill pages .sgv_no_clustering
          none supply (sgv_hiwmk_uncheck gate.1 (-(pages : Int)))
        by_cases hsg : (sgv_alloc_sg_entries (List.replicate pages sglZero) pages
            .sgv_no_clustering none supply
            (sgv_hiwmk_uncheck gate.1 (-(pages : Int)))).sg_count = 0
        · rw [if_pos hsg, if_neg (show ¬ (¬ true = true) by simp), he]
          dsimp only
          simp only [sgv_hiwmk_uncheck, emit_pages_total]
          omega
        · rw [if_neg hsg, he]
          dsimp only
          simp only [sgv_hiwmk_uncheck, emit_pages_total]
          omega
      · rw [Bool.not_eq_true] at hkp
        rw [hkp, if_pos (show ¬ false = true by simp),
          if_neg (show ¬ (¬ true = true) by simp)]
        dsimp only
        simp only [sgv_hiwmk_uncheck, emit_pages_total]
        omega
  · unfold scst_alloc
    rw [if_neg (by simp)]
    dsimp only
    generalize size / PAGE_SIZE + (if size % PAGE_SIZE ≠ 0 then 1 else 0) = pages
    generalize sgv_hiwmk_check
      { g with other_total_alloc := g.other_total_alloc + 1 } (pages : Int) t = gate
    by_cases hrc : gate.2 = 0
    · rw [hrc, if_neg (show ¬ ((0 : Int) ≠ 0) by omega)]
      by_cases hkp : (kpop km).1 = true
      · rw [hkp, if_neg (show ¬ (¬ true = true) by simp)]
        obtain ⟨-, -, h3⟩ :=
          sgv_alloc_sg_entries_fill pages .sgv_no_clustering none supply gate.1
        by_cases hsg : (sgv_alloc_sg_entries (List.replicate pages sglZero) pages
            .sgv_no_clustering none supply gate.1).sg_count = 0
        · rw [if_pos hsg, if_neg (show ¬ (¬ true = true) by simp)]
          intro hres
          exact absurd rfl hres
        · rw [if_neg hsg]
          intro _
          rcases h3 rfl with h0 | hpg
          · exact absurd h0 hsg
          · dsimp only
            rw [hpg]
      · rw [Bool.not_eq_true] at hkp
        rw [hkp, if_pos (show ¬ false = true by simp)]
        intro hres
        exact absurd rfl hres
    · rw [if_pos hrc]
      by_cases hkp : (kpop km).1 = true
      · rw [hkp, if_neg (show ¬ (¬ true = true) by simp)]
        obtain ⟨-, -, h3⟩ := sgv_alloc_sg_entries_fill pages .sgv_no_clustering
          none supply (sgv_hiwmk_uncheck gate.1 (-(pages : Int)))
        by_cases hsg : (sgv_alloc_sg_entries (List.replicate pages sglZero) pages
            .sgv_no_clustering none supply
            (sgv_hiwmk_uncheck gate.1 (-(pages : Int)))).sg_count = 0
        · rw [if_pos hsg, if_neg (show ¬ (¬ true = true) by simp)]
          intro hres
          exact absurd rfl hres
        · rw [if_neg hsg]
          intro _
          rcases h3 rfl with h0 | hpg
          · exact absurd h0 hsg
          · dsimp only
            rw [hpg]
      · rw [Bool.not_eq_true] at hkp
        rw [hkp, if_pos (show ¬ false = true by simp)]
        intro hres
        exact absurd rfl hres
  · intro pfns hsup hlen hsz hkp
    have hp0 : 0 < size / PAGE_SIZE + (if size % PAGE_SIZE ≠ 0 then 1 else 0) := by
      rcases Nat.eq_zero_or_pos (size / PAGE_SIZE) with hd | hd
      · have hlt : size < PAGE_SIZE := by
          by_contra hge
          push_neg at hge
          have := Nat.div_pos hge (by decide)
          omega
        have hmod : size % PAGE_SIZE = size := Nat.mod_eq_of_lt hlt
        rw [if_pos (show size % PAGE_SIZE ≠ 0 by rw [hmod]; omega)]
        omega
      · omega
    subst hsup
    unfold scst_alloc
    rw [if_neg (by simp)]
    dsimp only
    generalize hpg : size / PAGE_SIZE + (if size % PAGE_SIZE ≠ 0 then 1 else 0) = pages
    rw [hpg] at hlen hp0
    generalize sgv_hiwmk_check
      { g with other_total_alloc := g.other_total_alloc + 1 } (pages : Int) t = gate
    by_cases hrc : gate.2 = 0
    · rw [hrc, if_neg (show ¬ ((0 : Int) ≠ 0) by omega)]
      rw [hkp, if_neg (show ¬ (¬ true = true) by simp)]
      have hfs := scst_fill_success pages pfns gate.1 hlen hp0
      rw [if_neg (show ¬ (sgv_alloc_sg_entries (List.replicate pages sglZero) pages
          .sgv_no_clustering none (pfns.map some) gate.1).sg_count = 0 by omega)]
      intro hc
      exact Option.some_ne_none _ hc
    · rw [if_pos hrc]
      rw [hkp, if_neg (show ¬ (¬ true = true) by simp)]
      have hfs := scst_fill_success pages pfns
        (sgv_hiwmk_uncheck gate.1 (-(pages : Int))) hlen hp0
      rw [if_neg (show ¬ (sgv_alloc_sg_entries (List.replicate pages sglZero) pages
          .sgv_no_clustering none (pfns.map some)
          (sgv_hiwmk_uncheck gate.1 (-(pages : Int)))).sg_count = 0 by omega)]
      intro hc
      exact Option.some_ne_none _ hc
  · intro g' sgl cnt
    rfl

/-- Closed instance of the C10 theorem: a one-page `__GFP_NOFAIL`
allocation on the empty global state, with one page of supply and a
working kmalloc, succeeds with count 1 and a subsequent free restores
the page counter. -/
theorem claim_C10_nofail_alloc_witness :
    (scst_alloc (mkGlobal (mkEmptyPool .sgv_no_clustering)) 4096 true 5 [some 7] [true] 0).res ≠ none ∧
    (scst_alloc (mkGlobal (mkEmptyPool .sgv_no_clustering)) 4096 true 5 [some 7] [true] 0).count =
      ((4096 / PAGE_SIZE + if 4096 % PAGE_SIZE ≠ 0 then 1 else 0 : Nat) : Int) ∧
    (scst_free (mkGlobal (mkEmptyPool .sgv_no_clustering)) [] 3).pages_total = (mkGlobal (mkEmptyPool .sgv_no_clustering)).pages_total - (3 : Int) := by
  obtain ⟨hA, hB, hD, hC⟩ := claim_C10_nofail_alloc (mkGlobal (mkEmptyPool .sgv_no_clustering)) 4096 5 [some 7] [true] 0
  have hres := hD [7] rfl (by decide) (by decide) (by decide)
  exact ⟨hres, hB hres, hC (mkGlobal (mkEmptyPool .sgv_no_clustering)) [] 3⟩

/-! ## C8: the purge worker -/

/-- Recognize a worker (re)scheduling event. -/
def isSchedEv : Ev → Bool
  | .schedulePurge _ _ => true
  | _ => false

/-- Number of worker-scheduling events in a trace. -/
def evSchedCount (tr : List Ev) : Nat := (tr.filter isSchedEv).length

/-- Release timestamp of a cached object (0 when absent). -/
def objTs (p : SgvPool) (oid : ObjId) : Nat :=
  match getObj p oid with
  | some o => o.time_stamp
  | none => 0

/-- The eviction condition of `sgv_purge_from_cache` at age floor
`PURGE_TIME_AFTER`, read off the pool's arena. -/
def oidOld (p : SgvPool) (cur_time : Nat) (oid : ObjId) : Bool :=
  match getObj p oid with
  | some o => decide (cur_time ≥ o.time_stamp + PURGE_TIME_AFTER)
  | none => false

lemma evSchedCount_append (a b : List Ev) :
    evSchedCount (a ++ b) = evSchedCount a + evSchedCount b := by
  simp [evSchedCount, List.filter_append]

lemma lookup_map_replace (l : List (PoolId × SgvPool)) (pid : PoolId)
    (p q : SgvPool) (h : List.lookup pid l = some q) :
    List.lookup pid (l.map fun e => if e.1 = pid then (pid, p) else e) =
      some p := by
  induction l with
  | nil => simp [List.lookup] at h
  | cons a t ih =>
    rcases a with ⟨k, v⟩
    by_cases ha : k = pid
    · subst ha
      rw [List.map_cons, if_pos rfl]
      simp [List.lookup]
    · rw [List.map_cons, if_neg (by simpa using ha)]
      have hb : (pid == k) = false := by
        rw [beq_eq_false_iff_ne]
        exact fun he => ha he.symm
      simp only [List.lookup, hb] at h ⊢
      exact ih h

lemma getPool_setPool (g : SgvGlobal) (pid : PoolId) (p q : SgvPool)
    (h : getPool g pid = some q) :
    getPool (setPool g pid p) pid = some p :=
  lookup_map_replace g.pools pid p q h

lemma del_from_active_pools (g : SgvGlobal) (pid : PoolId) :
    (sgv_del_from_active g pid).pools = g.pools := by
  unfold sgv_del_from_active
  dsimp only
  split
  · split <;> rfl
  · rfl

lemma del_from_active_trace (g : SgvGlobal) (pid : PoolId) :
    (sgv_del_from_active g pid).trace = g.trace := by
  unfold sgv_del_from_active
  dsimp only
  split
  · split <;> rfl
  · rfl

lemma getPool_del_from_active (g : SgvGlobal) (pid pid2 : PoolId) :
    getPool (sgv_del_from_active g pid2) pid = getPool g pid := by
  unfold getPool
  rw [del_from_active_pools]

lemma lookup_filter_ne (l : List (ObjId × SgvObj)) (k k2 : ObjId)
    (h : k2 ≠ k) :
    List.lookup k2 (l.filter fun e => e.1 ≠ k) = List.lookup k2 l := by
  induction l with
  | nil => rfl
  | cons a t ih =>
    rcases a with ⟨ka, v⟩
    by_cases hak : ka = k
    · subst hak
      have hf : ((ka, v) :: t).filter (fun e => decide (e.1 ≠ ka)) =
          t.filter (fun e => decide (e.1 ≠ ka)) := by
        simp [List.filter_cons]
      rw [hf, ih]
      have hb : (k2 == ka) = false := by
        rw [beq_eq_false_iff_ne]
        simpa using h
      simp [List.lookup, hb]
    · have hf : ((ka, v) :: t).filter (fun e => decide (e.1 ≠ k)) =
          (ka, v) :: t.filter (fun e => decide (e.1 ≠ k)) := by
        simp [List.filter_cons, hak]
      rw [hf]
      simp only [List.lookup]
      rcases hk2 : (k2 == ka) with _ | _
      · exact ih
      · rfl

lemma lookup_filter_self (l : List (ObjId × SgvObj)) (k : ObjId) :
    List.lookup k (l.filter fun e => e.1 ≠ k) = none := by
  induction l with
  | nil => rfl
  | cons a t ih =>
    rcases a with ⟨ka, v⟩
    by_cases hak : ka = k
    · subst hak
      have hf : ((ka, v) :: t).filter (fun e => decide (e.1 ≠ ka)) =
          t.filter (fun e => decide (e.1 ≠ ka)) := by
        simp [List.filter_cons]
      rw [hf]
      exact ih
    · have hf : ((ka, v) :: t).filter (fun e => decide (e.1 ≠ k)) =
          (ka, v) :: t.filter (fun e => decide (e.1 ≠ k)) := by
        simp [List.filter_cons, hak]
      rw [hf]
      have hb : (k == ka) = false := by
        rw [beq_eq_false_iff_ne]
        exact fun he => hak he.symm
      simp only [List.lookup, hb]
      exact ih

lemma dec_cached_entries_spec (g : SgvGlobal) (pid : PoolId) (pages : Int)
    (p : SgvPool) (hp : getPool g pid = some p) :
    getPool (sgv_dec_cached_entries g pid pages) pid =
      some { p with cached_entries := p.cached_entries - 1,
                    cached_pages := p.cached_pages - pages } ∧
    (sgv_dec_cached_entries g pid pages).trace =
      g.trace ++ [Ev.decBucket pid pages] := by
  unfold sgv_dec_cached_entries
  simp only [hp]
  split
  · constructor
    · rw [getPool_del_from_active]
      exact getPool_setPool g pid _ p hp
    · rw [del_from_active_trace]
      rfl
  · exact ⟨getPool_setPool g pid _ p hp, rfl⟩

lemma dtor_and_free_spec (g : SgvGlobal) (pid : PoolId) (oid : ObjId)
    (p : SgvPool) (obj : SgvObj) (hp : getPool g pid = some p)
    (hobj : getObj p oid = some obj) :
    getPool (sgv_dtor_and_free g pid oid) pid =
      some { p with arena := p.arena.filter fun e => e.1 ≠ oid } ∧
    evSchedCount (sgv_dtor_and_free g pid oid).trace = evSchedCount g.trace := by
  unfold sgv_dtor_and_free
  simp only [hp, hobj]
  split
  · constructor
    · exact getPool_setPool _ pid _ p hp
    · show evSchedCount (g.trace ++
          [Ev.freePages (spanSum obj.sg_entries obj.sg_count)]) =
        evSchedCount g.trace
      rw [evSchedCount_append]
      rfl
  · exact ⟨getPool_setPool _ pid _ p hp, rfl⟩

lemma purge_from_cache_pool (g : SgvGlobal) (pid : PoolId) (oid : ObjId)
    (p : SgvPool) (obj : SgvObj) (hp : getPool g pid = some p)
    (hobj : getObj p oid = some obj) :
    ∃ p2, getPool (__sgv_purge_from_cache g pid oid) pid = some p2 ∧
      p2.sorted_recycling_list = p.sorted_recycling_list.erase oid ∧
      p2.arena = p.arena ∧
      p2.purge_work_scheduled = p.purge_work_scheduled ∧
      evSchedCount (__sgv_purge_from_cache g pid oid).trace =
        evSchedCount g.trace := by
  unfold __sgv_purge_from_cache
  simp only [hp, hobj]
  obtain ⟨hq, htr⟩ := dec_cached_entries_spec
    (setPool g pid { p with
      sorted_recycling_list := p.sorted_recycling_list.erase oid,
      recycling_lists := p.recycling_lists.set obj.order_or_pages.toNat
        ((p.recycling_lists.getD obj.order_or_pages.toNat []).erase oid),
      inactive_cached_pages :=
        p.inactive_cached_pages - (2 : Int) ^ obj.order_or_pages.toNat })
    pid ((2 : Int) ^ obj.order_or_pages.toNat) _
    (getPool_setPool g pid _ p hp)
  refine ⟨_, hq, rfl, rfl, rfl, ?_⟩
  show evSchedCount ((sgv_dec_cached_entries
      (setPool g pid { p with
        sorted_recycling_list := p.sorted_recycling_list.erase oid,
        recycling_lists := p.recycling_lists.set obj.order_or_pages.toNat
          ((p.recycling_lists.getD obj.order_or_pages.toNat []).erase oid),
        inactive_cached_pages :=
          p.inactive_cached_pages - (2 : Int) ^ obj.order_or_pages.toNat })
      pid ((2 : Int) ^ obj.order_or_pages.toNat)).trace ++
      [Ev.purgeHiwmk ((2 : Int) ^ obj.order_or_pages.toNat)]) =
    evSchedCount g.trace
  rw [htr, evSchedCount_append, evSchedCount_append]
  show evSchedCount g.trace + 0 + 0 = evSchedCount g.trace
  omega

lemma purge_step_spec (g : SgvGlobal) (pid : PoolId) (oid : ObjId)
    (p : SgvPool) (obj : SgvObj) (hp : getPool g pid = some p)
    (hobj : getObj p oid = some obj) :
    ∃ p3, getPool (sgv_dtor_and_free (__sgv_purge_from_cache g pid oid)
        pid oid) pid = some p3 ∧
      p3.sorted_recycling_list = p.sorted_recycling_list.erase oid ∧
      p3.arena = p.arena.filter (fun e => e.1 ≠ oid) ∧
      p3.purge_work_scheduled = p.purge_work_scheduled ∧
      evSchedCount (sgv_dtor_and_free (__sgv_purge_from_cache g pid oid)
        pid oid).trace = evSchedCount g.trace := by
  obtain ⟨p2, hq, hs, ha, hw, hc⟩ := purge_from_cache_pool g pid oid p obj hp hobj
  have hobj2 : getObj p2 oid = some obj := by
    unfold getObj
    rw [ha]
    exact hobj
  obtain ⟨hq3, hc3⟩ := dtor_and_free_spec _ pid oid p2 obj hq hobj2
  refine ⟨_, hq3, ?_, ?_, ?_, ?_⟩
  · show p2.sorted_recycling_list = p.sorted_recycling_list.erase oid
    exact hs
  · show p2.arena.filter (fun e => e.1 ≠ oid) = p.arena.filter (fun e => e.1 ≠ oid)
    rw [ha]
  · show p2.purge_work_scheduled = p.purge_work_scheduled
    exact hw
  · rw [hc3, hc]

lemma purge_from_cache_old (g : SgvGlobal) (pid : PoolId) (oid : ObjId)
    (p : SgvPool) (obj : SgvObj) (cur_time : Nat)
    (hp : getPool g pid = some p) (hobj : getObj p oid = some obj)
    (hold : cur_time ≥ obj.time_stamp + PURGE_TIME_AFTER) :
    sgv_purge_from_cache g pid oid PURGE_TIME_AFTER cur_time =
      (__sgv_purge_from_cache g pid oid, true) := by
  unfold sgv_purge_from_cache lookupObj
  simp only [hp, hobj]
  rw [if_pos hold]

lemma purge_from_cache_young (g : SgvGlobal) (pid : PoolId) (oid : ObjId)
    (p : SgvPool) (obj : SgvObj) (cur_time : Nat)
    (hp : getPool g pid = some p) (hobj : getObj p oid = some obj)
    (hyoung : ¬ cur_time ≥ obj.time_stamp + PURGE_TIME_AFTER) :
    sgv_purge_from_cache g pid oid PURGE_TIME_AFTER cur_time = (g, false) := by
  unfold sgv_purge_from_cache lookupObj
  simp only [hp, hobj]
  rw [if_neg hyoung]

lemma takeWhileCongr (pf qf : ObjId → Bool) (l : List ObjId)
    (h : ∀ x ∈ l, pf x = qf x) : l.takeWhile pf = l.takeWhile qf := by
  induction l with
  | nil => rfl
  | cons a t ih =>
    have ha := h a (List.mem_cons_self a t)
    simp only [List.takeWhile, ha]
    cases hq : qf a with
    | false => rfl
    | true =>
      rw [ih (fun x hx => h x (List.mem_cons_of_mem a hx))]

lemma dropWhileCongr (pf qf : ObjId → Bool) (l : List ObjId)
    (h : ∀ x ∈ l, pf x = qf x) : l.dropWhile pf = l.dropWhile qf := by
  induction l with
  | nil => rfl
  | cons a t ih =>
    have ha := h a (List.mem_cons_self a t)
    simp only [List.dropWhile, ha]
    cases hq : qf a with
    | false => rfl
    | true =>
      rw [ih (fun x hx => h x (List.mem_cons_of_mem a hx))]

lemma mem_takeWhile_of_antitone (pf : ObjId → Bool) (R : ObjId → ObjId → Prop)
    (l : List ObjId) (hpw : l.Pairwise R)
    (hanti : ∀ a ∈ l, ∀ b ∈ l, R a b → pf b = true → pf a = true) :
    ∀ oid ∈ l, pf oid = true → oid ∈ l.takeWhile pf := by
  induction l with
  | nil =>
    intro oid h
    cases h
  | cons a t ih =>
    intro oid hmem hold
    rcases List.pairwise_cons.mp hpw with ⟨hra, hpt⟩
    cases hpa : pf a with
    | false =>
      rcases List.mem_cons.mp hmem with rfl | hmt
      · rw [hpa] at hold
        cases hold
      · have hcontra := hanti a (List.mem_cons_self a t) oid hmem (hra oid hmt) hold
        rw [hpa] at hcontra
        cases hcontra
    | true =>
      have htw : (a :: t).takeWhile pf = a :: t.takeWhile pf := by
        simp [List.takeWhile, hpa]
      rw [htw]
      rcases List.mem_cons.mp hmem with rfl | hmt
      · exact List.mem_cons_self _ _
      · exact List.mem_cons_of_mem a
          (ih hpt (fun x hx y hy => hanti x (List.mem_cons_of_mem a hx) y
            (List.mem_cons_of_mem a hy)) oid hmt hold)

lemma sgvPurgeWorkLoop_spec (pid : PoolId) (cur_time : Nat) :
    ∀ (fuel : Nat) (g : SgvGlobal) (p : SgvPool),
      getPool g pid = some p →
      (∀ oid ∈ p.sorted_recycling_list, (getObj p oid).isSome = true) →
      p.sorted_recycling_list.Nodup →
      p.sorted_recycling_list.length ≤ fuel →
      ∃ p2, getPool (sgvPurgeWorkLoop pid cur_time fuel g) pid = some p2 ∧
        p2.sorted_recycling_list =
          p.sorted_recycling_list.dropWhile (oidOld p cur_time) ∧
        (∀ oid ∈ p.sorted_recycling_list.takeWhile (oidOld p cur_time),
          getObj p2 oid = none) ∧
        (∀ oid, oid ∉ p.sorted_recycling_list.takeWhile (oidOld p cur_time) →
          getObj p2 oid = getObj p oid) ∧
        (p.sorted_recycling_list.dropWhile (oidOld p cur_time) = [] →
          p2.purge_work_scheduled = p.purge_work_scheduled ∧
          evSchedCount (sgvPurgeWorkLoop pid cur_time fuel g).trace =
            evSchedCount g.trace) ∧
        (p.sorted_recycling_list.dropWhile (oidOld p cur_time) ≠ [] →
          p2.purge_work_scheduled = true ∧
          evSchedCount (sgvPurgeWorkLoop pid cur_time fuel g).trace =
            evSchedCount g.trace + 1) := by
  intro fuel
  induction fuel with
  | zero =>
    intro g p hp hin hnd hlen
    have hnil : p.sorted_recycling_list = [] :=
      List.eq_nil_of_length_eq_zero (Nat.le_zero.mp hlen)
    refine ⟨p, hp, ?_, ?_, ?_, ?_, ?_⟩
    · rw [hnil]
      rfl
    · rw [hnil]
      intro oid hmem
      cases hmem
    · intro oid hmem
      rfl
    · intro hdz
      exact ⟨rfl, rfl⟩
    · rw [hnil]
      intro hne
      exact absurd rfl hne
  | succ fuel ih =>
    intro g p hp hin hnd hlen
    rcases hL : p.sorted_recycling_list with _ | ⟨h1, rest⟩
    · have hloop : sgvPurgeWorkLoop pid cur_time (fuel + 1) g = g := by
        simp only [sgvPurgeWorkLoop, hp, hL]
      refine ⟨p, ?_, ?_, ?_, ?_, ?_, ?_⟩
      · rw [hloop]
        exact hp
      · rw [hL]
        rfl
      · intro oid hmem
        cases hmem
      · intro oid hmem
        rfl
      · intro hdz
        rw [hloop]
        exact ⟨rfl, rfl⟩
      · intro hne
        exact absurd rfl hne
    · have hmem1 : h1 ∈ p.sorted_recycling_list := by
        rw [hL]
        exact List.mem_cons_self _ _
      obtain ⟨obj, hobj⟩ := Option.isSome_iff_exists.mp (hin h1 hmem1)
      have hndL : (h1 :: rest).Nodup := hL ▸ hnd
      have hh1rest : h1 ∉ rest := (List.nodup_cons.mp hndL).1
      by_cases htime : cur_time ≥ obj.time_stamp + PURGE_TIME_AFTER
      · have hpold : oidOld p cur_time h1 = true := by
          unfold oidOld
          rw [hobj]
          exact decide_eq_true htime
        have hred : sgvPurgeWorkLoop pid cur_time (fuel + 1) g =
            sgvPurgeWorkLoop pid cur_time fuel
              (sgv_dtor_and_free (__sgv_purge_from_cache g pid h1) pid h1) := by
          simp only [sgvPurgeWorkLoop, hp, hL,
            purge_from_cache_old g pid h1 p obj cur_time hp hobj htime, if_true]
        obtain ⟨p3, hq3, hs3, ha3, hw3, hc3⟩ := purge_step_spec g pid h1 p obj hp hobj
        have hs3r : p3.sorted_recycling_list = rest := by
          rw [hs3, hL, List.erase_cons_head]
        have hobj3 : ∀ oid, oid ≠ h1 → getObj p3 oid = getObj p oid := by
          intro oid hne
          unfold getObj
          rw [ha3]
          exact lookup_filter_ne p.arena h1 oid hne
        have hobj3h : getObj p3 h1 = none := by
          unfold getObj
          rw [ha3]
          exact lookup_filter_self p.arena h1
        have hin3 : ∀ oid ∈ p3.sorted_recycling_list,
            (getObj p3 oid).isSome = true := by
          intro oid hmem
          rw [hs3r] at hmem
          rw [hobj3 oid (fun he => hh1rest (he ▸ hmem))]
          exact hin oid (by rw [hL]; exact List.mem_cons_of_mem _ hmem)
        have hnd3 : p3.sorted_recycling_list.Nodup := by
          rw [hs3r]
          exact (List.nodup_cons.mp hndL).2
        have hlen3 : p3.sorted_recycling_list.length ≤ fuel := by
          rw [hs3r]
          have hx := hlen
          rw [hL] at hx
          simpa using hx
        obtain ⟨p2, hq2, hs2, hdes2, hkeep2, hemp2, hnon2⟩ :=
          ih _ p3 hq3 hin3 hnd3 hlen3
        have hcong : ∀ x ∈ rest, oidOld p3 cur_time x = oidOld p cur_time x := by
          intro x hx
          unfold oidOld
          rw [hobj3 x (fun he => hh1rest (he ▸ hx))]
        have htkc : rest.takeWhile (oidOld p3 cur_time) =
            rest.takeWhile (oidOld p cur_time) :=
          takeWhileCongr _ _ _ hcong
        have hdpc : rest.dropWhile (oidOld p3 cur_time) =
            rest.dropWhile (oidOld p cur_time) :=
          dropWhileCongr _ _ _ hcong
        have hdropL : (h1 :: rest).dropWhile (oidOld p cur_time) =
            rest.dropWhile (oidOld p cur_time) := by
          simp [List.dropWhile, hpold]
        have htakeL : (h1 :: rest).takeWhile (oidOld p cur_time) =
            h1 :: rest.takeWhile (oidOld p cur_time) := by
          simp [List.takeWhile, hpold]
        refine ⟨p2, ?_, ?_, ?_, ?_, ?_, ?_⟩
        · rw [hred]
          exact hq2
        · rw [hdropL, hs2, hs3r, hdpc]
        · intro oid hmem
          rw [htakeL] at hmem
          rcases List.mem_cons.mp hmem with rfl | hmt
          · have hnot : oid ∉ p3.sorted_recycling_list.takeWhile
                (oidOld p3 cur_time) := by
              rw [hs3r]
              intro hcontra
              exact hh1rest (List.takeWhile_subset _ hcontra)
            rw [hkeep2 oid hnot]
            exact hobj3h
          · apply hdes2
            rw [hs3r, htkc]
            exact hmt
        · intro oid hnmem
          rw [htakeL] at hnmem
          have hne1 : oid ≠ h1 := fun he => hnmem (he ▸ List.mem_cons_self _ _)
          have hnm2 : oid ∉ p3.sorted_recycling_list.takeWhile
              (oidOld p3 cur_time) := by
            rw [hs3r, htkc]
            exact fun hc => hnmem (List.mem_cons_of_mem _ hc)
          rw [hkeep2 oid hnm2]
          exact hobj3 oid hne1
        · intro hdz
          rw [hdropL] at hdz
          have hx := hemp2 (by rw [hs3r, hdpc]; exact hdz)
          refine ⟨hx.1.trans hw3, ?_⟩
          rw [hred]
          exact hx.2.trans hc3
        · intro hdnz
          rw [hdropL] at hdnz
          have hx := hnon2 (by rw [hs3r, hdpc]; exact hdnz)
          refine ⟨hx.1, ?_⟩
          rw [hred, hx.2, hc3]
      · have hpyoung : oidOld p cur_time h1 = false := by
          unfold oidOld
          rw [hobj]
          exact decide_eq_false htime
        have hred : sgvPurgeWorkLoop pid cur_time (fuel + 1) g =
            updPool (emit g (.schedulePurge pid PURGE_INTERVAL)) pid
              (fun q => { q with purge_work_scheduled := true }) := by
          simp only [sgvPurgeWorkLoop, hp, hL,
            purge_from_cache_young g pid h1 p obj cur_time hp hobj htime,
            Bool.false_eq_true, if_false]
        have hq : getPool (sgvPurgeWorkLoop pid cur_time (fuel + 1) g) pid =
            some { p with purge_work_scheduled := true } := by
          rw [hred]
          unfold updPool
          rw [show getPool (emit g (.schedulePurge pid PURGE_INTERVAL)) pid =
            some p from hp]
          exact getPool_setPool _ pid _ p hp
        have hdropL : (h1 :: rest).dropWhile (oidOld p cur_time) =
            h1 :: rest := by
          simp [List.dropWhile, hpyoung]
        have htakeL : (h1 :: rest).takeWhile (oidOld p cur_time) = [] := by
          simp [List.takeWhile, hpyoung]
        refine ⟨{ p with purge_work_scheduled := true }, hq, ?_, ?_, ?_, ?_, ?_⟩
        · show p.sorted_recycling_list = _
          rw [hdropL, hL]
        · rw [htakeL]
          intro oid hmem
          cases hmem
        · intro oid hmem
          rfl
        · intro hdz
          rw [hdropL] at hdz
          exact absurd hdz (List.cons_ne_nil h1 rest)
        · intro hne
          refine ⟨rfl, ?_⟩
          rw [hred]
          have htr : (updPool (emit g (.schedulePurge pid PURGE_INTERVAL)) pid
              (fun q => { q with purge_work_scheduled := true })).trace =
              g.trace ++ [Ev.schedulePurge pid PURGE_INTERVAL] := by
            unfold updPool
            rw [show getPool (emit g (.schedulePurge pid PURGE_INTERVAL)) pid =
              some p from hp]
            rfl
          rw [htr, evSchedCount_append]
          rfl

/-- A cached object released at time `ts`, for concrete purge runs. -/
def c8obj (ts : Nat) : SgvObj :=
  { order_or_pages := 0, owner_pool := 0, sg_count := 1,
    sg_entries := [⟨5, PAGE_SIZE⟩], trans_tbl := none, sg_external := false,
    tt_external := false, orig_sg := 0, orig_length := PAGE_SIZE,
    allocator_priv := 0, time_stamp := ts }

/-- A pool caching one old object (id 0) and one young object (id 1). -/
def c8pool : SgvPool :=
  { mkEmptyPool .sgv_no_clustering with
    arena := [(0, c8obj 0), (1, c8obj PURGE_TIME_AFTER)],
    next_id := 2,
    sorted_recycling_list := [0, 1],
    recycling_lists := (List.replicate SGV_POOL_ELEMENTS []).set 0 [0, 1],
    cached_entries := 2, cached_pages := 2, inactive_cached_pages := 2,
    purge_work_scheduled := true }

/-- Global state carrying `c8pool` and its two cached pages. -/
def c8g : SgvGlobal := { mkGlobal c8pool with pages_total := 2 }

/-- **C8**: when the purge worker fires, it walks the pool's time-sorted
LRU from the oldest entry: every object aged at least `PURGE_TIME_AFTER`
(all of them, by the ascending-timestamp order) is unlinked from the list
and destroyed (gone from the arena); the walk stops at the first object
too young, in which case the worker reschedules itself at
`PURGE_INTERVAL` (flag set, one scheduling event emitted); when the LRU
is emptied, the worker does not reschedule (flag stays cleared, no
scheduling event). -/
theorem claim_C8_purge_worker (g : SgvGlobal) (pid : PoolId) (cur_time : Nat)
    (p : SgvPool) (hp : getPool g pid = some p)
    (hin : ∀ oid ∈ p.sorted_recycling_list, (getObj p oid).isSome = true)
    (hnd : p.sorted_recycling_list.Nodup)
    (hmono : p.sorted_recycling_list.Pairwise
      (fun a b => objTs p a ≤ objTs p b)) :
    ∃ p2, getPool (sgv_purge_work_fn g pid cur_time) pid = some p2 ∧
      p2.sorted_recycling_list =
        p.sorted_recycling_list.dropWhile (oidOld p cur_time) ∧
      (∀ oid ∈ p.sorted_recycling_list, oidOld p cur_time oid = true →
        getObj p2 oid = none) ∧
      (∀ oid, oid ∉ p.sorted_recycling_list.takeWhile (oidOld p cur_time) →
        getObj p2 oid = getObj p oid) ∧
      (p.sorted_recycling_list.dropWhile (oidOld p cur_time) ≠ [] →
        p2.purge_work_scheduled = true ∧
        evSchedCount (sgv_purge_work_fn g pid cur_time).trace =
          evSchedCount g.trace + 1) ∧
      (p.sorted_recycling_list.dropWhile (oidOld p cur_time) = [] →
        p2.purge_work_scheduled = false ∧
        evSchedCount (sgv_purge_work_fn g pid cur_time).trace =
          evSchedCount g.trace) := by
  have hrun : sgv_purge_work_fn g pid cur_time =
      sgvPurgeWorkLoop pid cur_time p.sorted_recycling_list.length
        (updPool g pid fun q => { q with purge_work_scheduled := false }) := by
    unfold sgv_purge_work_fn
    simp only [hp]
  have hupd : updPool g pid (fun q => { q with purge_work_scheduled := false }) =
      setPool g pid { p with purge_work_scheduled := false } := by
    unfold updPool
    rw [hp]
  have hq1 : getPool (setPool g pid { p with purge_work_scheduled := false })
      pid = some { p with purge_work_scheduled := false } :=
    getPool_setPool g pid _ p hp
  obtain ⟨p2, hq2, hs2, hdes2, hkeep2, hemp2, hnon2⟩ :=
    sgvPurgeWorkLoop_spec pid cur_time p.sorted_recycling_list.length
      (setPool g pid { p with purge_work_scheduled := false })
      { p with purge_work_scheduled := false } hq1 hin hnd (le_refl _)
  refine ⟨p2, ?_, ?_, ?_, ?_, ?_, ?_⟩
  · rw [hrun, hupd]
    exact hq2
  · exact hs2
  · intro oid hmem hold
    have hmemtw : oid ∈ p.sorted_recycling_list.takeWhile (oidOld p cur_time) := by
      refine mem_takeWhile_of_antitone (oidOld p cur_time)
        (fun a b => objTs p a ≤ objTs p b) _ hmono ?_ oid hmem hold
      intro a ha b hb hr hpb
      obtain ⟨ob, hob⟩ := Option.isSome_iff_exists.mp (hin b hb)
      obtain ⟨oa, hoa⟩ := Option.isSome_iff_exists.mp (hin a ha)
      unfold oidOld at hpb ⊢
      rw [hob] at hpb
      rw [hoa]
      have hts : oa.time_stamp ≤ ob.time_stamp := by
        unfold objTs at hr
        rw [hoa, hob] at hr
        exact hr
      have hb2 := of_decide_eq_true hpb
      exact decide_eq_true (by omega)
    exact hdes2 oid hmemtw
  · intro oid hnm
    exact hkeep2 oid hnm
  · intro hne
    have hx := hnon2 hne
    refine ⟨hx.1, ?_⟩
    rw [hrun, hupd]
    exact hx.2
  · intro hdz
    have hx := hemp2 hdz
    refine ⟨hx.1, ?_⟩
    rw [hrun, hupd]
    exact hx.2

/-- Closed instance of the C8 theorem on `c8g`: a pool holding one old
and one young cached object at `cur_time = PURGE_TIME_AFTER`. -/
theorem claim_C8_purge_worker_witness :
    ∃ p2, getPool (sgv_purge_work_fn c8g 0 PURGE_TIME_AFTER) 0 = some p2 ∧
      p2.sorted_recycling_list =
        c8pool.sorted_recycling_list.dropWhile (oidOld c8pool PURGE_TIME_AFTER) ∧
      (∀ oid ∈ c8pool.sorted_recycling_list,
        oidOld c8pool PURGE_TIME_AFTER oid = true → getObj p2 oid = none) ∧
      (∀ oid, oid ∉ c8pool.sorted_recycling_list.takeWhile
          (oidOld c8pool PURGE_TIME_AFTER) →
        getObj p2 oid = getObj c8pool oid) ∧
      (c8pool.sorted_recycling_list.dropWhile
          (oidOld c8pool PURGE_TIME_AFTER) ≠ [] →
        p2.purge_work_scheduled = true ∧
        evSchedCount (sgv_purge_work_fn c8g 0 PURGE_TIME_AFTER).trace =
          evSchedCount c8g.trace + 1) ∧
      (c8pool.sorted_recycling_list.dropWhile
          (oidOld c8pool PURGE_TIME_AFTER) = [] →
        p2.purge_work_scheduled = false ∧
        evSchedCount (sgv_purge_work_fn c8g 0 PURGE_TIME_AFTER).trace =
          evSchedCount c8g.trace) :=
  claim_C8_purge_worker c8g 0 PURGE_TIME_AFTER c8pool (by decide) (by decide)
    (by decide) (by decide)

/-! ## C6: `sgv_pool_free` of a bucketed object -/

/-- `sg_count` of a cached object as the free-list walk of `sgv_put_obj`
reads it (0 when the id is not cached). -/
def cntIn (p : SgvPool) (oid : ObjId) : Nat :=
  match getObj p oid with
  | some o => o.sg_count
  | none => 0

lemma getD_set_self_gen {α : Type} (l : List α) (i : Nat) (v d : α)
    (h : i < l.length) : (l.set i v).getD i d = v := by
  simp [List.getD, List.getElem?_set, h]

lemma lookup_append_some (l1 l2 : List (ObjId × SgvObj)) (k : ObjId)
    (v : SgvObj) (h : List.lookup k l1 = some v) :
    List.lookup k (l1 ++ l2) = some v := by
  induction l1 with
  | nil => simp [List.lookup] at h
  | cons a t ih =>
    rcases hk : (k == a.1) with _ | _
    · simp only [List.cons_append, List.lookup, hk] at h ⊢
      exact ih h
    · simp only [List.cons_append, List.lookup, hk] at h ⊢
      exact h

lemma lookup_append_none (l1 l2 : List (ObjId × SgvObj)) (k : ObjId)
    (h : List.lookup k l1 = none) :
    List.lookup k (l1 ++ l2) = List.lookup k l2 := by
  induction l1 with
  | nil => rfl
  | cons a t ih =>
    rcases hk : (k == a.1) with _ | _
    · simp only [List.cons_append, List.lookup, hk] at h ⊢
      exact ih h
    · simp only [List.lookup, hk] at h
      cases h

lemma insertByCount_mem (arena : List (ObjId × SgvObj)) (cnt : Nat)
    (newId : ObjId) :
    ∀ (l : List ObjId) (x : ObjId),
      x ∈ insertByCount arena cnt newId l → x = newId ∨ x ∈ l := by
  intro l
  induction l with
  | nil =>
    intro x hx
    unfold insertByCount at hx
    rcases List.mem_cons.mp hx with rfl | h2
    · exact Or.inl rfl
    · cases h2
  | cons oid rest ih =>
    intro x hx
    unfold insertByCount at hx
    cases hl : List.lookup oid arena with
    | none =>
      simp only [hl] at hx
      rcases List.mem_cons.mp hx with rfl | h2
      · exact Or.inr (List.mem_cons_self _ _)
      · rcases ih x h2 with h | h
        · exact Or.inl h
        · exact Or.inr (List.mem_cons_of_mem _ h)
    | some tmp =>
      simp only [hl] at hx
      by_cases hc : cnt ≤ tmp.sg_count
      · rw [if_pos hc] at hx
        rcases List.mem_cons.mp hx with rfl | h2
        · exact Or.inl rfl
        · exact Or.inr h2
      · rw [if_neg hc] at hx
        rcases List.mem_cons.mp hx with rfl | h2
        · exact Or.inr (List.mem_cons_self _ _)
        · rcases ih x h2 with h | h
          · exact Or.inl h
          · exact Or.inr (List.mem_cons_of_mem _ h)

lemma insertByCount_pairwise (arena : List (ObjId × SgvObj)) (cnt : Nat)
    (newId : ObjId) (cf : ObjId → Nat) (l : List ObjId)
    (hnew : cf newId = cnt)
    (hold : ∀ oid ∈ l, ∀ o, List.lookup oid arena = some o →
      cf oid = o.sg_count)
    (hmem : ∀ oid ∈ l, (List.lookup oid arena).isSome = true)
    (hpw : l.Pairwise (fun a b => cf a ≤ cf b)) :
    (insertByCount arena cnt newId l).Pairwise (fun a b => cf a ≤ cf b) := by
  induction l with
  | nil =>
    unfold insertByCount
    exact List.pairwise_singleton _ _
  | cons oid rest ih =>
    obtain ⟨tmp, htmp⟩ :=
      Option.isSome_iff_exists.mp (hmem oid (List.mem_cons_self _ _))
    rcases List.pairwise_cons.mp hpw with ⟨hhead, hrest⟩
    unfold insertByCount
    simp only [htmp]
    by_cases hc : cnt ≤ tmp.sg_count
    · rw [if_pos hc]
      refine List.pairwise_cons.mpr ⟨?_, hpw⟩
      intro y hy
      have h1 := hold oid (List.mem_cons_self _ _) tmp htmp
      rcases List.mem_cons.mp hy with rfl | hyr
      · rw [hnew]
        omega
      · have h2 := hhead y hyr
        rw [hnew]
        omega
    · rw [if_neg hc]
      refine List.pairwise_cons.mpr
        ⟨?_, ih (fun o ho x hx => hold o (List.mem_cons_of_mem _ ho) x hx)
          (fun o ho => hmem o (List.mem_cons_of_mem _ ho)) hrest⟩
      intro y hy
      have h1 := hold oid (List.mem_cons_self _ _) tmp htmp
      rcases insertByCount_mem arena cnt newId rest y hy with rfl | hyr
      · rw [hnew]
        omega
      · exact hhead y hyr

lemma updPool_flag (g : SgvGlobal) (pid : PoolId) (P : SgvPool)
    (hq : getPool g pid = some P) :
    getPool (updPool g pid fun q => { q with purge_work_scheduled := true })
      pid = some { P with purge_work_scheduled := true } ∧
    (updPool g pid fun q =>
      { q with purge_work_scheduled := true }).trace = g.trace := by
  unfold updPool
  rw [hq]
  exact ⟨getPool_setPool g pid _ P hq, rfl⟩

lemma put_obj_spec (g : SgvGlobal) (obj : SgvObj) (cur_time : Nat)
    (p : SgvPool) (hp : getPool g obj.owner_pool = some p) :
    ∃ p2, getPool (sgv_put_obj g obj cur_time) obj.owner_pool = some p2 ∧
      p2.arena = p.arena ++ [(p.next_id, { obj with time_stamp := cur_time })] ∧
      p2.recycling_lists = p.recycling_lists.set obj.order_or_pages.toNat
        (if p.clustering_type ≠ .sgv_no_clustering then
          insertByCount p.arena obj.sg_count p.next_id
            (p.recycling_lists.getD obj.order_or_pages.toNat [])
        else p.next_id :: p.recycling_lists.getD obj.order_or_pages.toNat []) ∧
      p2.sorted_recycling_list = p.sorted_recycling_list ++ [p.next_id] ∧
      (p.purge_work_scheduled = false → p2.purge_work_scheduled = true ∧
        (sgv_put_obj g obj cur_time).trace =
          g.trace ++ [Ev.schedulePurge obj.owner_pool PURGE_INTERVAL]) ∧
      (p.purge_work_scheduled = true → p2.purge_work_scheduled = true ∧
        (sgv_put_obj g obj cur_time).trace = g.trace) := by
  have hqe : ∀ (Y : SgvGlobal) (e : Ev) (P2 : SgvPool),
      getPool Y obj.owner_pool = some P2 →
      getPool (emit Y e) obj.owner_pool = some P2 := fun Y e P2 h => h
  unfold sgv_put_obj
  simp only [hp]
  by_cases hsch : p.purge_work_scheduled
  · simp only [hsch]
    rw [if_neg (show ¬ ¬ True from fun h => h trivial)]
    refine ⟨_, getPool_setPool g obj.owner_pool _ p hp, ?_, ?_, ?_, ?_, ?_⟩
    · rfl
    · rfl
    · rfl
    · intro hcontra
      cases hcontra
    · intro _
      exact ⟨rfl, rfl⟩
  · rw [Bool.not_eq_true] at hsch
    simp only [hsch]
    rw [if_pos (show ¬ false = true by simp)]
    refine ⟨_, hqe _ _ _ ((updPool_flag _ obj.owner_pool _
        (getPool_setPool g obj.owner_pool _ p hp)).1), ?_, ?_, ?_, ?_, ?_⟩
    · rfl
    · rfl
    · rfl
    · intro _
      refine ⟨rfl, ?_⟩
      show (updPool (setPool g obj.owner_pool _) obj.owner_pool
          (fun q => { q with purge_work_scheduled := true })).trace ++
        [Ev.schedulePurge obj.owner_pool PURGE_INTERVAL] = g.trace ++ _
      rw [(updPool_flag _ obj.owner_pool _
        (getPool_setPool g obj.owner_pool _ p hp)).2]
      rfl
    · intro hcontra
      cases hcontra

/-- **C6** (amended): releasing a bucketed object (`order_or_pages ≥ 0`)
through `sgv_pool_free` restores the last used SG entry's length to the
stored `orig_length`, caches the object with the current timestamp,
appends it to the pool's time-sorted LRU, and schedules the purge worker
at `PURGE_INTERVAL` exactly when none is scheduled.  The bucket free-list
insertion is sorted by ascending `sg_count` only for clustered pools
(where it keeps the list sorted); non-clustered pools insert at the list
head. -/
theorem claim_C6_pool_free (g : SgvGlobal) (obj : SgvObj) (ml : MemLim)
    (cur_time : Nat) (p : SgvPool)
    (hp : getPool g obj.owner_pool = some p)
    (hord : obj.order_or_pages ≥ 0)
    (hklen : obj.order_or_pages.toNat < p.recycling_lists.length)
    (hfresh : List.lookup p.next_id p.arena = none)
    (hbmem : ∀ oid ∈ p.recycling_lists.getD obj.order_or_pages.toNat [],
      (List.lookup oid p.arena).isSome = true)
    (hsorted : (p.recycling_lists.getD obj.order_or_pages.toNat []).Pairwise
      (fun a b => cntIn p a ≤ cntIn p b)) :
    ∃ p2, getPool (sgv_pool_free g obj ml cur_time).1 obj.owner_pool =
        some p2 ∧
      getObj p2 p.next_id = some { obj with
        sg_entries := obj.sg_entries.set obj.orig_sg
          { obj.sg_entries.getD obj.orig_sg sglZero with
            length := obj.orig_length },
        time_stamp := cur_time } ∧
      (p.clustering_type = .sgv_no_clustering →
        p2.recycling_lists.getD obj.order_or_pages.toNat [] =
          p.next_id :: p.recycling_lists.getD obj.order_or_pages.toNat []) ∧
      (p.clustering_type ≠ .sgv_no_clustering →
        p2.recycling_lists.getD obj.order_or_pages.toNat [] =
          insertByCount p.arena obj.sg_count p.next_id
            (p.recycling_lists.getD obj.order_or_pages.toNat []) ∧
        (p2.recycling_lists.getD obj.order_or_pages.toNat []).Pairwise
          (fun a b => cntIn p2 a ≤ cntIn p2 b)) ∧
      p2.sorted_recycling_list = p.sorted_recycling_list ++ [p.next_id] ∧
      (p.purge_work_scheduled = false →
        p2.purge_work_scheduled = true ∧
        evSchedCount (sgv_pool_free g obj ml cur_time).1.trace =
          evSchedCount g.trace + 1) ∧
      (p.purge_work_scheduled = true →
        p2.purge_work_scheduled = true ∧
        evSchedCount (sgv_pool_free g obj ml cur_time).1.trace =
          evSchedCount g.trace) := by
  have hfree : (sgv_pool_free g obj ml cur_time).1 =
      emit (sgv_put_obj g { obj with
          sg_entries := obj.sg_entries.set obj.orig_sg
            { obj.sg_entries.getD obj.orig_sg sglZero with
              length := obj.orig_length } } cur_time)
        (.unchargeQuota (if obj.sg_count ≠ 0 then
          (2 : Int) ^ obj.order_or_pages.toNat else 0)) := by
    unfold sgv_pool_free
    rw [if_pos hord]
    rfl
  have hp2 : getPool g ({ obj with
      sg_entries := obj.sg_entries.set obj.orig_sg
        { obj.sg_entries.getD obj.orig_sg sglZero with
          length := obj.orig_length } } : SgvObj).owner_pool = some p := hp
  obtain ⟨p2, hq2, harena, hrecy, hsort2, hflag0, hflag1⟩ :=
    put_obj_spec g { obj with
      sg_entries := obj.sg_entries.set obj.orig_sg
        { obj.sg_entries.getD obj.orig_sg sglZero with
          length := obj.orig_length } } cur_time p hp2
  have hgoid : getObj p2 p.next_id = some { obj with
      sg_entries := obj.sg_entries.set obj.orig_sg
        { obj.sg_entries.getD obj.orig_sg sglZero with
          length := obj.orig_length },
      time_stamp := cur_time } := by
    unfold getObj
    rw [harena, lookup_append_none p.arena _ p.next_id hfresh]
    simp [List.lookup]
  have hbucket : p2.recycling_lists.getD obj.order_or_pages.toNat [] =
      (if p.clustering_type ≠ .sgv_no_clustering then
        insertByCount p.arena obj.sg_count p.next_id
          (p.recycling_lists.getD obj.order_or_pages.toNat [])
      else p.next_id :: p.recycling_lists.getD obj.order_or_pages.toNat []) := by
    rw [hrecy]
    exact getD_set_self_gen _ _ _ _ hklen
  have hcnt2 : ∀ oid ∈ p.recycling_lists.getD obj.order_or_pages.toNat [],
      cntIn p2 oid = cntIn p oid := by
    intro oid hoid
    obtain ⟨o, ho⟩ := Option.isSome_iff_exists.mp (hbmem oid hoid)
    unfold cntIn getObj
    rw [harena, lookup_append_some p.arena _ oid o ho, ho]
  refine ⟨p2, ?_, hgoid, ?_, ?_, hsort2, ?_, ?_⟩
  · rw [hfree]
    exact hq2
  · intro hct
    rw [hbucket, if_neg (by simp [hct])]
  · intro hct
    have hb := hbucket
    rw [if_pos hct] at hb
    refine ⟨hb, ?_⟩
    rw [hb]
    refine insertByCount_pairwise p.arena obj.sg_count p.next_id (cntIn p2) _
      ?_ ?_ hbmem ?_
    · unfold cntIn
      rw [hgoid]
    · intro oid hoid o ho
      rw [hcnt2 oid hoid]
      unfold cntIn getObj
      rw [ho]
    · refine List.Pairwise.imp_of_mem ?_ hsorted
      intro a b ha hb hab
      rw [hcnt2 a ha, hcnt2 b hb]
      exact hab
  · intro hs0
    obtain ⟨hf, htr⟩ := hflag0 hs0
    refine ⟨hf, ?_⟩
    rw [hfree]
    show evSchedCount ((sgv_put_obj g _ cur_time).trace ++ [Ev.unchargeQuota _]) =
      evSchedCount g.trace + 1
    rw [evSchedCount_append, htr, evSchedCount_append]
    rfl
  · intro hs1
    obtain ⟨hf, htr⟩ := hflag1 hs1
    refine ⟨hf, ?_⟩
    rw [hfree]
    show evSchedCount ((sgv_put_obj g _ cur_time).trace ++ [Ev.unchargeQuota _]) =
      evSchedCount g.trace
    rw [evSchedCount_append, htr]
    rfl

/-- A cached object with `sg_count = 0`, as `sgv_get_obj` caches one on
the `SCST_POOL_RETURN_OBJ_ON_ALLOC_FAIL` path. -/
def c6obj0 : SgvObj :=
  { order_or_pages := 1, owner_pool := 0, sg_count := 0, sg_entries := [],
    trans_tbl := none, sg_external := false, tt_external := false,
    orig_sg := 0, orig_length := 0, allocator_priv := 0, time_stamp := 0 }

/-- A fully filled two-page bucketed object being released. -/
def c6objA : SgvObj :=
  { order_or_pages := 1, owner_pool := 0, sg_count := 2,
    sg_entries := [⟨5, PAGE_SIZE⟩, ⟨9, PAGE_SIZE⟩], trans_tbl := none,
    sg_external := false, tt_external := false, orig_sg := 1,
    orig_length := PAGE_SIZE, allocator_priv := 0, time_stamp := 0 }

/-- A non-clustered pool whose order-1 bucket caches `c6obj0`. -/
def c6pool : SgvPool :=
  { mkEmptyPool .sgv_no_clustering with
    arena := [(0, c6obj0)], next_id := 1,
    recycling_lists := (List.replicate SGV_POOL_ELEMENTS []).set 1 [0],
    sorted_recycling_list := [0], cached_entries := 1, cached_pages := 2,
    inactive_cached_pages := 2, purge_work_scheduled := true }

/-- Global state carrying `c6pool`. -/
def c6g : SgvGlobal := { mkGlobal c6pool with pages_total := 2 }

/-- The pool after `sgv_pool_free c6g c6objA`. -/
def c6p2 : SgvPool :=
  (getPool (sgv_pool_free c6g c6objA mlBig 5).1 0).getD
    (mkEmptyPool .sgv_no_clustering)

/-- **C6, counterexample**: in a non-clustered pool, `sgv_put_obj` adds
the released object at the head of the bucket free-list (`list_add`),
not in ascending-`sg_count` position: freeing the two-entry object
`c6objA` into the bucket caching the `sg_count = 0` object `c6obj0`
yields the list `[1, 0]` with counts `2, 0` — not ascending. -/
theorem claim_C6_counterexample :
    getPool (sgv_pool_free c6g c6objA mlBig 5).1 0 = some c6p2 ∧
    c6p2.recycling_lists.getD 1 [] = [1, 0] ∧
    cntIn c6p2 1 = 2 ∧ cntIn c6p2 0 = 0 ∧
    ¬ (c6p2.recycling_lists.getD 1 []).Pairwise
      (fun a b => cntIn c6p2 a ≤ cntIn c6p2 b) := by
  decide

/-- A single-entry clustered cached object. -/
def c6obj1c : SgvObj :=
  { c6obj0 with sg_count := 1, sg_entries := [⟨5, 2 * PAGE_SIZE⟩] }

/-- A clustered pool whose order-1 bucket caches one single-entry
object. -/
def c6cpool : SgvPool :=
  { mkEmptyPool .sgv_full_clustering with
    arena := [(0, c6obj1c)], next_id := 1,
    recycling_lists := (List.replicate SGV_POOL_ELEMENTS []).set 1 [0],
    sorted_recycling_list := [0], cached_entries := 1, cached_pages := 2,
    inactive_cached_pages := 2, purge_work_scheduled := true }

/-- Global state carrying `c6cpool`. -/
def c6cg : SgvGlobal := { mkGlobal c6cpool with pages_total := 2 }

/-- Closed instance of the C6 theorem: freeing `c6objA` into the
clustered pool `c6cpool`. -/
theorem claim_C6_pool_free_witness :
    ∃ p2, getPool (sgv_pool_free c6cg c6objA mlBig 5).1 c6objA.owner_pool =
        some p2 ∧
      getObj p2 c6cpool.next_id = some { c6objA with
        sg_entries := c6objA.sg_entries.set c6objA.orig_sg
          { c6objA.sg_entries.getD c6objA.orig_sg sglZero with
            length := c6objA.orig_length },
        time_stamp := 5 } ∧
      (c6cpool.clustering_type = .sgv_no_clustering →
        p2.recycling_lists.getD c6objA.order_or_pages.toNat [] =
          c6cpool.next_id ::
            c6cpool.recycling_lists.getD c6objA.order_or_pages.toNat []) ∧
      (c6cpool.clustering_type ≠ .sgv_no_clustering →
        p2.recycling_lists.getD c6objA.order_or_pages.toNat [] =
          insertByCount c6cpool.arena c6objA.sg_count c6cpool.next_id
            (c6cpool.recycling_lists.getD c6objA.order_or_pages.toNat []) ∧
        (p2.recycling_lists.getD c6objA.order_or_pages.toNat []).Pairwise
          (fun a b => cntIn p2 a ≤ cntIn p2 b)) ∧
      p2.sorted_recycling_list =
        c6cpool.sorted_recycling_list ++ [c6cpool.next_id] ∧
      (c6cpool.purge_work_scheduled = false →
        p2.purge_work_scheduled = true ∧
        evSchedCount (sgv_pool_free c6cg c6objA mlBig 5).1.trace =
          evSchedCount c6cg.trace + 1) ∧
      (c6cpool.purge_work_scheduled = true →
        p2.purge_work_scheduled = true ∧
        evSchedCount (sgv_pool_free c6cg c6objA mlBig 5).1.trace =
          evSchedCount c6cg.trace) :=
  claim_C6_pool_free c6cg c6objA mlBig 5 c6cpool (by decide) (by decide)
    (by decide) (by decide) (by decide) (by decide)

/-! ## C5: the translation table of a clustered fill -/

lemma getD_set_ne_gen {α : Type} (l : List α) (i j : Nat) (v d : α)
    (h : i ≠ j) : (l.set i v).getD j d = l.getD j d := by
  simp [List.getD, List.getElem?_set, h]

lemma setSgNums_spec (i : Nat) : ∀ (n pg : Nat) (tbl : List TransTblEnt),
    (setSgNums tbl pg i n).length = tbl.length ∧
    (∀ k, k < pg → (setSgNums tbl pg i n).getD k ttZero = tbl.getD k ttZero) ∧
    (∀ k, pg + n ≤ k → (setSgNums tbl pg i n).getD k ttZero =
      tbl.getD k ttZero) ∧
    (∀ k, pg ≤ k → k < pg + n → k < tbl.length →
      (setSgNums tbl pg i n).getD k ttZero =
        { tbl.getD k ttZero with sg_num := i + 1 }) ∧
    (∀ k, ((setSgNums tbl pg i n).getD k ttZero).pg_count =
      (tbl.getD k ttZero).pg_count) := by
  intro n
  induction n with
  | zero =>
    intro pg tbl
    exact ⟨rfl, fun k _ => rfl, fun k _ => rfl,
      fun k h1 h2 _ => absurd h2 (by omega), fun k => rfl⟩
  | succ n ih =>
    intro pg tbl
    obtain ⟨c1, c2, c3, c4, c5⟩ :=
      ih (pg + 1) (tbl.set pg { tbl.getD pg ttZero with sg_num := i + 1 })
    have hlen : (tbl.set pg
        { tbl.getD pg ttZero with sg_num := i + 1 }).length = tbl.length :=
      List.length_set tbl pg _
    refine ⟨c1.trans hlen, ?_, ?_, ?_, ?_⟩
    · intro k hk
      show (setSgNums (tbl.set pg { tbl.getD pg ttZero with sg_num := i + 1 })
        (pg + 1) i n).getD k ttZero = tbl.getD k ttZero
      rw [c2 k (by omega)]
      exact getD_set_ne_gen tbl pg k _ ttZero (by omega)
    · intro k hk
      show (setSgNums (tbl.set pg { tbl.getD pg ttZero with sg_num := i + 1 })
        (pg + 1) i n).getD k ttZero = tbl.getD k ttZero
      rw [c3 k (by omega)]
      exact getD_set_ne_gen tbl pg k _ ttZero (by omega)
    · intro k hk1 hk2 hk3
      show (setSgNums (tbl.set pg { tbl.getD pg ttZero with sg_num := i + 1 })
        (pg + 1) i n).getD k ttZero = { tbl.getD k ttZero with sg_num := i + 1 }
      by_cases hk : k = pg
      · subst hk
        rw [c2 k (by omega)]
        exact getD_set_self_gen tbl k _ ttZero hk3
      · rw [c4 k (by omega) (by omega) (by rw [hlen]; exact hk3),
          getD_set_ne_gen tbl pg k _ ttZero (by omega)]
    · intro k
      show ((setSgNums (tbl.set pg { tbl.getD pg ttZero with sg_num := i + 1 })
        (pg + 1) i n).getD k ttZero).pg_count = (tbl.getD k ttZero).pg_count
      rw [c5 k]
      by_cases hk : k = pg
      · subst hk
        by_cases hlt : k < tbl.length
        · rw [getD_set_self_gen tbl k _ ttZero hlt]
        · rw [List.getD_eq_default _ _ (by omega),
            List.getD_eq_default _ _ (by rw [hlen] at *; omega)]
      · rw [getD_set_ne_gen tbl pg k _ ttZero (by omega)]

lemma getD_set_pgcount_sgnum (tbl : List TransTblEnt) (i pc k : Nat) :
    (((tbl.set i { tbl.getD i ttZero with pg_count := pc }).getD k
      ttZero)).sg_num = (tbl.getD k ttZero).sg_num := by
  by_cases hk : k = i
  · subst hk
    by_cases hlt : k < tbl.length
    · rw [getD_set_self_gen tbl k _ ttZero hlt]
    · have h1 : (tbl.set k { tbl.getD k ttZero with pg_count := pc }).length
          ≤ k := by
        rw [List.length_set]
        omega
      rw [List.getD_eq_default _ _ h1,
        List.getD_eq_default _ _ (show tbl.length ≤ k by omega)]
  · rw [getD_set_ne_gen tbl i k _ ttZero (by omega)]

lemma spanSum_mul_page (sg : List Sgl)
    (hal : ∀ j, (sg.getD j sglZero).length % PAGE_SIZE = 0) :
    ∀ m, spanSum sg m * PAGE_SIZE = lenSum sg m := by
  intro m
  induction m with
  | zero =>
    show 0 * PAGE_SIZE = 0
    exact Nat.zero_mul _
  | succ m ih =>
    show (spanSum sg m + sgPagesSpan (sg.getD m sglZero).length) * PAGE_SIZE =
      lenSum sg m + (sg.getD m sglZero).length
    unfold sgPagesSpan
    rw [if_neg (by simpa using hal m)]
    have hdvd : PAGE_SIZE ∣ (sg.getD m sglZero).length :=
      Nat.dvd_of_mod_eq_zero (hal m)
    rw [Nat.add_mul, ih, Nat.add_zero, Nat.div_mul_cancel hdvd]

lemma spanSum_stable (sg : List Sgl) (c : Nat)
    (hz : ∀ j, c ≤ j → (sg.getD j sglZero).length = 0) :
    ∀ m, c ≤ m → spanSum sg m = spanSum sg c := by
  intro m
  induction m with
  | zero =>
    intro h
    have : c = 0 := by omega
    rw [this]
  | succ m ih =>
    intro h
    by_cases hc : c = m + 1
    · rw [hc]
    · have hcm : c ≤ m := by omega
      show spanSum sg m + sgPagesSpan (sg.getD m sglZero).length = spanSum sg c
      rw [hz m hcm]
      have : sgPagesSpan 0 = 0 := rfl
      rw [this, Nat.add_zero]
      exact ih hcm

lemma lenSum_stable (sg : List Sgl) (c : Nat)
    (hz : ∀ j, c ≤ j → (sg.getD j sglZero).length = 0) :
    ∀ m, c ≤ m → lenSum sg m = lenSum sg c := by
  intro m
  induction m with
  | zero =>
    intro h
    have : c = 0 := by omega
    rw [this]
  | succ m ih =>
    intro h
    by_cases hc : c = m + 1
    · rw [hc]
    · have hcm : c ≤ m := by omega
      show lenSum sg m + (sg.getD m sglZero).length = lenSum sg c
      rw [hz m hcm, Nat.add_zero]
      exact ih hcm

lemma transTblLoop_invariant (sg : List Sgl) :
    ∀ (rem i : Nat) (tbl : List TransTblEnt),
      (transTblLoop sg rem i (spanSum sg i) tbl).length = tbl.length ∧
      (∀ k, k < i →
        ((transTblLoop sg rem i (spanSum sg i) tbl).getD k ttZero).pg_count =
          (tbl.getD k ttZero).pg_count) ∧
      (∀ k, k < spanSum sg i →
        ((transTblLoop sg rem i (spanSum sg i) tbl).getD k ttZero).sg_num =
          (tbl.getD k ttZero).sg_num) ∧
      (∀ d, d < rem → i + d < tbl.length →
        ((transTblLoop sg rem i (spanSum sg i) tbl).getD (i + d)
          ttZero).pg_count = spanSum sg (i + d)) ∧
      (∀ j, spanSum sg i ≤ j → j < spanSum sg (i + rem) → j < tbl.length →
        ∃ d, d < rem ∧ spanSum sg (i + d) ≤ j ∧ j < spanSum sg (i + d + 1) ∧
          ((transTblLoop sg rem i (spanSum sg i) tbl).getD j ttZero).sg_num =
            i + d + 1) := by
  intro rem
  induction rem with
  | zero =>
    intro i tbl
    refine ⟨rfl, fun k _ => rfl, fun k _ => rfl,
      fun d hd _ => absurd hd (by omega), fun j hj1 hj2 _ => ?_⟩
    rw [Nat.add_zero] at hj2
    omega
  | succ rem ih =>
    intro i tbl
    have hstep : spanSum sg i + sgPagesSpan (sg.getD i sglZero).length =
        spanSum sg (i + 1) := rfl
    obtain ⟨s1, s2, s3, s4, s5⟩ := setSgNums_spec i
      (sgPagesSpan (sg.getD i sglZero).length) (spanSum sg i)
      (tbl.set i { tbl.getD i ttZero with pg_count := spanSum sg i })
    obtain ⟨c1, c2, c3, c4, c5⟩ := ih (i + 1)
      (setSgNums (tbl.set i { tbl.getD i ttZero with pg_count := spanSum sg i })
        (spanSum sg i) i (sgPagesSpan (sg.getD i sglZero).length))
    have hred : transTblLoop sg (rem + 1) i (spanSum sg i) tbl =
        transTblLoop sg rem (i + 1) (spanSum sg (i + 1))
          (setSgNums (tbl.set i
            { tbl.getD i ttZero with pg_count := spanSum sg i })
            (spanSum sg i) i (sgPagesSpan (sg.getD i sglZero).length)) := rfl
    have hlen2 : (setSgNums (tbl.set i
        { tbl.getD i ttZero with pg_count := spanSum sg i })
        (spanSum sg i) i (sgPagesSpan (sg.getD i sglZero).length)).length =
        tbl.length := by
      rw [s1, List.length_set]
    refine ⟨?_, ?_, ?_, ?_, ?_⟩
    · rw [hred, c1, hlen2]
    · intro k hk
      rw [hred, c2 k (by omega), s5 k]
      by_cases hki : k = i
      · omega
      · rw [getD_set_ne_gen tbl i k _ ttZero (by omega)]
    · intro k hk
      have hk1 : k < spanSum sg (i + 1) := by
        rw [← hstep]
        omega
      rw [hred, c3 k hk1, s2 k hk, getD_set_pgcount_sgnum]
    · intro d hd hdlen
      rcases Nat.eq_zero_or_pos d with rfl | hdpos
      · simp only [Nat.add_zero] at hdlen ⊢
        rw [hred, c2 i (by omega), s5 i,
          getD_set_self_gen tbl i _ ttZero hdlen]
      · have hd' : d - 1 < rem := by omega
        have : i + d = (i + 1) + (d - 1) := by omega
        rw [hred, this, c4 (d - 1) hd' (by rw [hlen2]; omega)]
    · intro j hj1 hj2 hjlen
      by_cases hj3 : j < spanSum sg (i + 1)
      · refine ⟨0, by omega, by rw [Nat.add_zero]; exact hj1,
          by rw [Nat.add_zero]; exact hj3, ?_⟩
        rw [hred, c3 j hj3, s4 j hj1 (by rw [hstep]; exact hj3)
          (by rw [List.length_set]; exact hjlen)]
      · push_neg at hj3
        have hj2' : j < spanSum sg ((i + 1) + rem) := by
          have : (i + 1) + rem = i + (rem + 1) := by omega
          rw [this]
          exact hj2
        obtain ⟨d, hd1, hd2, hd3, hd4⟩ := c5 j hj3 hj2' (by rw [hlen2]; omega)
        refine ⟨d + 1, by omega, ?_, ?_, ?_⟩
        · have : i + (d + 1) = (i + 1) + d := by omega
          rw [this]
          exact hd2
        · have : i + (d + 1) + 1 = (i + 1) + d + 1 := by omega
          rw [this]
          exact hd3
        · have : i + (d + 1) + 1 = (i + 1) + d + 1 := by omega
          rw [hred, this]
          exact hd4

lemma lenSum_replicate_zero (pages : Nat) :
    ∀ m, lenSum (List.replicate pages sglZero) m = 0 := by
  intro m
  induction m with
  | zero => rfl
  | succ m ih =>
    show lenSum (List.replicate pages sglZero) m +
      ((List.replicate pages sglZero).getD m sglZero).length = 0
    rw [ih, getD_replicate]
    rfl

/-- **C5** (amended): after a successful clustered fill,
`sgv_alloc_sg_entries` leaves a translation table with one entry per
page; `trans_tbl[i].pg_count` is the page index at which SG entry `i`
begins; every page `j` is tagged with the one-based index of the SG
entry it belongs to: `trans_tbl[j].sg_num = i + 1` for the unique
`i < sg_count` whose page span covers `j`, so `1 ≤ sg_num ≤ sg_count`
(and not `sg_num < sg_count`, as the last page carries
`sg_num = sg_count`). -/
theorem claim_C5_trans_tbl (pages : Nat) (ctype : SgvClustering)
    (pfns : List Nat) (g : SgvGlobal)
    (hct : ctype ≠ .sgv_no_clustering) (hlen : pages ≤ pfns.length) :
    ∃ tbl, (sgv_alloc_sg_entries (List.replicate pages sglZero) pages ctype
        (some (List.replicate pages ttZero)) (pfns.map some) g).trans =
        some tbl ∧
      tbl.length = pages ∧
      (∀ i, i < pages → (tbl.getD i ttZero).pg_count =
        spanSum (sgv_alloc_sg_entries (List.replicate pages sglZero) pages
          ctype (some (List.replicate pages ttZero)) (pfns.map some) g).sg i) ∧
      (∀ j, j < pages → ∃ i,
        i < (sgv_alloc_sg_entries (List.replicate pages sglZero) pages ctype
          (some (List.replicate pages ttZero)) (pfns.map some) g).sg_count ∧
        spanSum (sgv_alloc_sg_entries (List.replicate pages sglZero) pages
          ctype (some (List.replicate pages ttZero)) (pfns.map some) g).sg i
          ≤ j ∧
        j < spanSum (sgv_alloc_sg_entries (List.replicate pages sglZero) pages
          ctype (some (List.replicate pages ttZero)) (pfns.map some) g).sg
          (i + 1) ∧
        (tbl.getD j ttZero).sg_num = i + 1) ∧
      (∀ j, j < pages → 1 ≤ (tbl.getD j ttZero).sg_num ∧
        (tbl.getD j ttZero).sg_num ≤
          (sgv_alloc_sg_entries (List.replicate pages sglZero) pages ctype
            (some (List.replicate pages ttZero)) (pfns.map some) g).sg_count) := by
  have hs := sgvAllocLoop_success_of_good_supply ctype pages
    (List.replicate pages sglZero) 0 (-1) pfns g hlen
  obtain ⟨k, hk, c1, c2, c3, c4, c5, c6, c7, c8, c9, c10, c11, c12⟩ :=
    sgvAllocLoop_invariant ctype pages (List.replicate pages sglZero)
      0 (-1) (pfns.map some) g (by simp) (by norm_num)
      (fun j _ => by rw [getD_replicate]; rfl)
      (fun j => by rw [getD_replicate]; rfl)
      (fun j hj => by omega)
  rcases c11 with hnone | ⟨hsome, hkrem⟩
  · rw [hnone] at hs
    cases hs
  have htrans : (sgv_alloc_sg_entries (List.replicate pages sglZero) pages
      ctype (some (List.replicate pages ttZero)) (pfns.map some) g).trans =
      some (transTblLoop (sgvAllocLoop ctype pages
        (List.replicate pages sglZero) 0 (-1) (pfns.map some) g).2.1
        pages 0 0 (List.replicate pages ttZero)) := by
    unfold sgv_alloc_sg_entries
    simp only [hsome]
    rw [if_pos hct]
  have hsg : (sgv_alloc_sg_entries (List.replicate pages sglZero) pages
      ctype (some (List.replicate pages ttZero)) (pfns.map some) g).sg =
      (sgvAllocLoop ctype pages (List.replicate pages sglZero) 0 (-1)
        (pfns.map some) g).2.1 := by
    unfold sgv_alloc_sg_entries
    simp only [hsome]
  have hcnt : (sgv_alloc_sg_entries (List.replicate pages sglZero) pages
      ctype (some (List.replicate pages ttZero)) (pfns.map some) g).sg_count =
      (sgvAllocLoop ctype pages (List.replicate pages sglZero) 0 (-1)
        (pfns.map some) g).2.2.1 := by
    unfold sgv_alloc_sg_entries
    simp only [hsome]
  rw [List.length_replicate] at c1 c7
  have hlenrep : lenSum (List.replicate pages sglZero) pages = 0 :=
    lenSum_replicate_zero pages pages
  rw [hlenrep, Nat.zero_add] at c7
  have hspanmul := spanSum_mul_page
    (sgvAllocLoop ctype pages (List.replicate pages sglZero) 0 (-1)
      (pfns.map some) g).2.1 c5
  have hlenstab := lenSum_stable
    (sgvAllocLoop ctype pages (List.replicate pages sglZero) 0 (-1)
      (pfns.map some) g).2.1
    (sgvAllocLoop ctype pages (List.replicate pages sglZero) 0 (-1)
      (pfns.map some) g).2.2.1 c4
  have hspanstab := spanSum_stable
    (sgvAllocLoop ctype pages (List.replicate pages sglZero) 0 (-1)
      (pfns.map some) g).2.1
    (sgvAllocLoop ctype pages (List.replicate pages sglZero) 0 (-1)
      (pfns.map some) g).2.2.1 c4
  have hcle : (sgvAllocLoop ctype pages (List.replicate pages sglZero) 0 (-1)
      (pfns.map some) g).2.2.1 ≤ pages := by omega
  have hspanc : spanSum (sgvAllocLoop ctype pages
      (List.replicate pages sglZero) 0 (-1) (pfns.map some) g).2.1
      (sgvAllocLoop ctype pages (List.replicate pages sglZero) 0 (-1)
        (pfns.map some) g).2.2.1 = pages := by
    have h1 := hspanmul (sgvAllocLoop ctype pages
      (List.replicate pages sglZero) 0 (-1) (pfns.map some) g).2.2.1
    rw [hlenstab pages hcle] at c7
    rw [c7, hkrem] at h1
    have hpos : 0 < PAGE_SIZE := by norm_num [PAGE_SIZE]
    exact Nat.eq_of_mul_eq_mul_right hpos h1
  have hspanpages : ∀ m, (sgvAllocLoop ctype pages
      (List.replicate pages sglZero) 0 (-1) (pfns.map some) g).2.2.1 ≤ m →
      spanSum (sgvAllocLoop ctype pages (List.replicate pages sglZero) 0 (-1)
        (pfns.map some) g).2.1 m = pages := by
    intro m hm
    rw [hspanstab m hm, hspanc]
  obtain ⟨t1, t2, t3, t4, t5⟩ := transTblLoop_invariant
    (sgvAllocLoop ctype pages (List.replicate pages sglZero) 0 (-1)
      (pfns.map some) g).2.1 pages 0 (List.replicate pages ttZero)
  refine ⟨_, htrans, ?_, ?_, ?_, ?_⟩
  · have t1x : (transTblLoop (sgvAllocLoop ctype pages
        (List.replicate pages sglZero) 0 (-1) (pfns.map some) g).2.1
        pages 0 0 (List.replicate pages ttZero)).length =
        (List.replicate pages ttZero).length := t1
    rw [t1x, List.length_replicate]
  · intro i hi
    rw [hsg]
    have h4 := t4 i hi (by rw [List.length_replicate]; omega)
    simp only [Nat.zero_add] at h4
    exact h4
  · intro j hj
    have hj2 : j < spanSum (sgvAllocLoop ctype pages
        (List.replicate pages sglZero) 0 (-1) (pfns.map some) g).2.1
        (0 + pages) := by
      rw [Nat.zero_add, hspanpages pages hcle]
      exact hj
    obtain ⟨d, hd1, hd2, hd3, hd4⟩ := t5 j (Nat.zero_le j) hj2
      (by rw [List.length_replicate]; exact hj)
    simp only [Nat.zero_add] at hd2 hd3
    have hdc : d < (sgvAllocLoop ctype pages (List.replicate pages sglZero)
        0 (-1) (pfns.map some) g).2.2.1 := by
      by_contra hge
      push_neg at hge
      rw [hspanpages d hge] at hd2
      omega
    refine ⟨d, by rw [hcnt]; exact hdc, ?_, ?_, ?_⟩
    · rw [hsg]
      exact hd2
    · rw [hsg]
      exact hd3
    · have hd4x : ((transTblLoop (sgvAllocLoop ctype pages
          (List.replicate pages sglZero) 0 (-1) (pfns.map some) g).2.1
          pages 0 0 (List.replicate pages ttZero)).getD j ttZero).sg_num =
          0 + d + 1 := hd4
      simp only [Nat.zero_add] at hd4x
      exact hd4x
  · intro j hj
    have hj2 : j < spanSum (sgvAllocLoop ctype pages
        (List.replicate pages sglZero) 0 (-1) (pfns.map some) g).2.1
        (0 + pages) := by
      rw [Nat.zero_add, hspanpages pages hcle]
      exact hj
    obtain ⟨d, hd1, hd2, hd3, hd4⟩ := t5 j (Nat.zero_le j) hj2
      (by rw [List.length_replicate]; exact hj)
    simp only [Nat.zero_add] at hd2 hd3
    have hdc : d < (sgvAllocLoop ctype pages (List.replicate pages sglZero)
        0 (-1) (pfns.map some) g).2.2.1 := by
      by_contra hge
      push_neg at hge
      rw [hspanpages d hge] at hd2
      omega
    have hsgnum : (((transTblLoop (sgvAllocLoop ctype pages
        (List.replicate pages sglZero) 0 (-1) (pfns.map some) g).2.1
        pages 0 0 (List.replicate pages ttZero))).getD j ttZero).sg_num =
        0 + d + 1 := hd4
    rw [hsgnum, hcnt]
    omega

/-- Global state for concrete clustered fills. -/
def c5g : SgvGlobal := mkGlobal (mkEmptyPool .sgv_full_clustering)

/-- **C5, counterexample**: a one-page full-clustering fill produces
`sg_count = 1` and `trans_tbl = [(pg_count 0, sg_num 1)]`: the stored
`sg_num` is the one-based entry index, so `trans_tbl[0].sg_num = 1` is
not `< sg_count = 1`. -/
theorem claim_C5_counterexample :
    (sgv_alloc_sg_entries (List.replicate 1 sglZero) 1 .sgv_full_clustering
      (some (List.replicate 1 ttZero)) [some 7] c5g).sg_count = 1 ∧
    (sgv_alloc_sg_entries (List.replicate 1 sglZero) 1 .sgv_full_clustering
      (some (List.replicate 1 ttZero)) [some 7] c5g).trans =
      some [{ pg_count := 0, sg_num := 1 }] ∧
    ¬ ((((sgv_alloc_sg_entries (List.replicate 1 sglZero) 1
        .sgv_full_clustering (some (List.replicate 1 ttZero)) [some 7]
        c5g).trans.getD []).getD 0 ttZero).sg_num <
      (sgv_alloc_sg_entries (List.replicate 1 sglZero) 1 .sgv_full_clustering
        (some (List.replicate 1 ttZero)) [some 7] c5g).sg_count) := by
  decide

/-- Closed instance of the C5 theorem: a two-page full-clustering fill
from the non-contiguous supply `[10, 20]`. -/
theorem claim_C5_trans_tbl_witness :
    2 ≤ ([10, 20] : List Nat).length ∧
    ∃ tbl, (sgv_alloc_sg_entries (List.replicate 2 sglZero) 2
        .sgv_full_clustering (some (List.replicate 2 ttZero))
        (([10, 20] : List Nat).map some) c5g).trans = some tbl ∧
      tbl.length = 2 ∧
      (∀ i, i < 2 → (tbl.getD i ttZero).pg_count =
        spanSum (sgv_alloc_sg_entries (List.replicate 2 sglZero) 2
          .sgv_full_clustering (some (List.replicate 2 ttZero))
          (([10, 20] : List Nat).map some) c5g).sg i) ∧
      (∀ j, j < 2 → ∃ i,
        i < (sgv_alloc_sg_entries (List.replicate 2 sglZero) 2
          .sgv_full_clustering (some (List.replicate 2 ttZero))
          (([10, 20] : List Nat).map some) c5g).sg_count ∧
        spanSum (sgv_alloc_sg_entries (List.replicate 2 sglZero) 2
          .sgv_full_clustering (some (List.replicate 2 ttZero))
          (([10, 20] : List Nat).map some) c5g).sg i ≤ j ∧
        j < spanSum (sgv_alloc_sg_entries (List.replicate 2 sglZero) 2
          .sgv_full_clustering (some (List.replicate 2 ttZero))
          (([10, 20] : List Nat).map some) c5g).sg (i + 1) ∧
        (tbl.getD j ttZero).sg_num = i + 1) ∧
      (∀ j, j < 2 → 1 ≤ (tbl.getD j ttZero).sg_num ∧
        (tbl.getD j ttZero).sg_num ≤
          (sgv_alloc_sg_entries (List.replicate 2 sglZero) 2
            .sgv_full_clustering (some (List.replicate 2 ttZero))
            (([10, 20] : List Nat).map some) c5g).sg_count) :=
  ⟨by decide, claim_C5_trans_tbl 2 .sgv_full_clustering [10, 20] c5g
    (by decide) (by decide)⟩

/-! ## C3: failure unwinding in `sgv_pool_alloc` -/

lemma shrinkLoop_inactive (after cur_time : Nat) :
    ∀ (fuel : Nat) (g : SgvGlobal) (nr prev : Int) (circ : Bool),
      g.active_pools_list = [] → g.cur_purge_pool = none →
      sgvShrinkLoop after cur_time fuel g nr prev circ = (g, nr) := by
  intro fuel
  cases fuel with
  | zero =>
    intro g nr prev circ hact hcur
    rfl
  | succ fuel =>
    intro g nr prev circ hact hcur
    show (if nr > 0 then _ else (g, nr)) = (g, nr)
    by_cases hnr : nr > 0
    · rw [if_pos hnr]
      simp only [hact, hcur]
      rfl
    · rw [if_neg hnr]

lemma hiwmk_check_inactive (g : SgvGlobal) (n : Int) (cur_time : Nat)
    (hact : g.active_pools_list = []) (hcur : g.cur_purge_pool = none) :
    (n + g.pages_total ≤ g.hi_wmk →
      sgv_hiwmk_check g n cur_time =
        (emit { g with pages_total := g.pages_total + n } (.reserveHiwmk n),
          0)) ∧
    (n + g.pages_total > g.hi_wmk →
      sgv_hiwmk_check g n cur_time =
        ({ g with releases_on_hiwmk := g.releases_on_hiwmk + 1,
                  releases_on_hiwmk_failed := g.releases_on_hiwmk_failed + 1 },
          -12)) := by
  constructor
  · intro h
    unfold sgv_hiwmk_check
    rw [if_neg (by omega)]
    rfl
  · intro h
    unfold sgv_hiwmk_check
    rw [if_pos (by omega)]
    dsimp only
    unfold __sgv_shrink
    rw [shrinkLoop_inactive 0 cur_time
      (shrinkFuel { g with releases_on_hiwmk := g.releases_on_hiwmk + 1 }
        (n + g.pages_total - g.hi_wmk))
      { g with releases_on_hiwmk := g.releases_on_hiwmk + 1 }
      (n + g.pages_total - g.hi_wmk) (n + g.pages_total - g.hi_wmk) false
      hact hcur]
    dsimp only
    rw [if_pos (by omega)]

lemma check_allowed_fail (ml : MemLim) (n : Int) (g : SgvGlobal)
    (h : ml.alloced_pages + n > ml.max_allowed_pages) :
    sgv_check_allowed_mem ml n g =
      (ml, emit (emit g (.chargeQuota n)) (.unchargeQuota n), false) := by
  unfold sgv_check_allowed_mem
  rw [if_pos (by omega)]
  have hml : ({ ml with alloced_pages := ml.alloced_pages + n - n } : MemLim)
      = ml := by
    have hx : ml.alloced_pages + n - n = ml.alloced_pages := by ring
    rw [hx]
  rw [hml]

lemma del_from_active_single (g : SgvGlobal) (pid : PoolId)
    (hact : g.active_pools_list = [pid]) (hcur : g.cur_purge_pool = none) :
    sgv_del_from_active g pid = { g with active_pools_list := [] } := by
  unfold sgv_del_from_active
  rw [hact]
  dsimp only
  rw [List.erase_cons_head]
  rw [if_neg (by rw [hcur]; simp)]

/-- `sgv_get_obj` on an empty bucket of an inactive pool: bucket counters
are charged and the pool is activated; a kmalloc failure rolls both
back. -/
lemma get_obj_empty (g : SgvGlobal) (pid : PoolId) (order : Nat)
    (km : List Bool) (p : SgvPool) (hp : getPool g pid = some p)
    (hbucket : p.recycling_lists.getD order [] = [])
    (hce : p.cached_entries = 0)
    (hact : g.active_pools_list = []) (hcur : g.cur_purge_pool = none) :
    ((kpop km).1 = true →
      (sgv_get_obj g pid order km).2.2 =
        some { order_or_pages := (order : Int), owner_pool := pid,
               sg_count := 0, sg_entries := [], trans_tbl := none,
               sg_external := false, tt_external := false, orig_sg := 0,
               orig_length := 0, allocator_priv := 0, time_stamp := 0 } ∧
      (sgv_get_obj g pid order km).2.1 = (kpop km).2 ∧
      (∃ p1, getPool (sgv_get_obj g pid order km).1 pid = some p1 ∧
        p1.cached_entries = 1 ∧
        p1.cached_pages = p.cached_pages + (2 : Int) ^ order ∧
        p1.arena = p.arena ∧ p1.recycling_lists = p.recycling_lists ∧
        p1.sorted_recycling_list = p.sorted_recycling_list ∧
        p1.clustering_type = p.clustering_type) ∧
      (sgv_get_obj g pid order km).1.active_pools_list = [pid] ∧
      (sgv_get_obj g pid order km).1.cur_purge_pool = none ∧
      (sgv_get_obj g pid order km).1.pages_total = g.pages_total ∧
      (sgv_get_obj g pid order km).1.hi_wmk = g.hi_wmk ∧
      (sgv_get_obj g pid order km).1.trace =
        g.trace ++ [Ev.incBucket pid ((2 : Int) ^ order)]) ∧
    ((kpop km).1 = false →
      (sgv_get_obj g pid order km).2.2 = none ∧
      (sgv_get_obj g pid order km).2.1 = (kpop km).2 ∧
      (∃ p2, getPool (sgv_get_obj g pid order km).1 pid = some p2 ∧
        p2.cached_entries = 0 ∧ p2.cached_pages = p.cached_pages ∧
        p2.arena = p.arena ∧ p2.recycling_lists = p.recycling_lists ∧
        p2.sorted_recycling_list = p.sorted_recycling_list ∧
        p2.clustering_type = p.clustering_type) ∧
      (sgv_get_obj g pid order km).1.active_pools_list = [] ∧
      (sgv_get_obj g pid order km).1.cur_purge_pool = none ∧
      (sgv_get_obj g pid order km).1.pages_total = g.pages_total ∧
      (sgv_get_obj g pid order km).1.hi_wmk = g.hi_wmk ∧
      (sgv_get_obj g pid order km).1.trace =
        g.trace ++ [Ev.incBucket pid ((2 : Int) ^ order),
          Ev.decBucket pid ((2 : Int) ^ order)]) := by
  have hpA : getPool { g with active_pools_list :=
      g.active_pools_list ++ [pid] } pid = some p := hp
  have hupd : updPool { g with active_pools_list :=
        g.active_pools_list ++ [pid] } pid (fun q =>
        { q with cached_entries := q.cached_entries + 1,
                 cached_pages := q.cached_pages + (2 : Int) ^ order }) =
      setPool { g with active_pools_list := g.active_pools_list ++ [pid] }
        pid { p with cached_entries := p.cached_entries + 1,
                     cached_pages := p.cached_pages + (2 : Int) ^ order } := by
    unfold updPool
    rw [hpA]
  have hq1 : getPool (setPool { g with active_pools_list :=
        g.active_pools_list ++ [pid] } pid
        { p with cached_entries := p.cached_entries + 1,
                 cached_pages := p.cached_pages + (2 : Int) ^ order }) pid =
      some { p with cached_entries := p.cached_entries + 1,
                    cached_pages := p.cached_pages + (2 : Int) ^ order } :=
    getPool_setPool _ pid _ p hpA
  have hred : sgv_get_obj g pid order km =
      (let gI := emit (setPool { g with active_pools_list :=
          g.active_pools_list ++ [pid] } pid
          { p with cached_entries := p.cached_entries + 1,
                   cached_pages := p.cached_pages + (2 : Int) ^ order })
          (.incBucket pid ((2 : Int) ^ order))
       let r := kpop km
       if r.1 then
        (gI, r.2,
          some { order_or_pages := (order : Int), owner_pool := pid,
                 sg_count := 0, sg_entries := [], trans_tbl := none,
                 sg_external := false, tt_external := false, orig_sg := 0,
                 orig_length := 0, allocator_priv := 0, time_stamp := 0 })
       else
        (sgv_dec_cached_entries gI pid ((2 : Int) ^ order), r.2, none)) := by
    unfold sgv_get_obj
    simp only [hp, hbucket, List.head?_nil]
    rw [if_pos hce, hupd]
  constructor
  · intro hk
    rw [hred]
    dsimp only
    rw [hk, if_pos rfl]
    refine ⟨rfl, rfl, ⟨_, hq1, by dsimp only; omega, rfl, rfl, rfl, rfl, rfl⟩,
      ?_, ?_, rfl, rfl, ?_⟩
    · show g.active_pools_list ++ [pid] = [pid]
      rw [hact]
      rfl
    · exact hcur
    · rfl
  · intro hk
    rw [hred]
    dsimp only
    rw [hk, if_neg (by simp)]
    have hdec : sgv_dec_cached_entries (emit (setPool { g with
          active_pools_list := g.active_pools_list ++ [pid] } pid
          { p with cached_entries := p.cached_entries + 1,
                   cached_pages := p.cached_pages + (2 : Int) ^ order })
          (.incBucket pid ((2 : Int) ^ order))) pid ((2 : Int) ^ order) =
        sgv_del_from_active (emit (setPool (emit (setPool { g with
            active_pools_list := g.active_pools_list ++ [pid] } pid
            { p with cached_entries := p.cached_entries + 1,
                     cached_pages := p.cached_pages + (2 : Int) ^ order })
            (.incBucket pid ((2 : Int) ^ order))) pid
            { p with
              cached_entries := p.cached_entries + 1 - 1,
              cached_pages := p.cached_pages + (2 : Int) ^ order -
                (2 : Int) ^ order })
          (.decBucket pid ((2 : Int) ^ order))) pid := by
      unfold sgv_dec_cached_entries
      rw [show getPool (emit (setPool { g with
          active_pools_list := g.active_pools_list ++ [pid] } pid
          { p with cached_entries := p.cached_entries + 1,
                   cached_pages := p.cached_pages + (2 : Int) ^ order })
          (.incBucket pid ((2 : Int) ^ order))) pid =
        some { p with cached_entries := p.cached_entries + 1,
                      cached_pages := p.cached_pages + (2 : Int) ^ order }
        from hq1]
      dsimp only
      rw [if_pos (show p.cached_entries + 1 - 1 = 0 by omega)]
    have hq2 : getPool (emit (setPool (emit (setPool { g with
          active_pools_list := g.active_pools_list ++ [pid] } pid
          { p with cached_entries := p.cached_entries + 1,
                   cached_pages := p.cached_pages + (2 : Int) ^ order })
          (.incBucket pid ((2 : Int) ^ order))) pid
          { p with
            cached_entries := p.cached_entries + 1 - 1,
            cached_pages := p.cached_pages + (2 : Int) ^ order -
              (2 : Int) ^ order })
        (.decBucket pid ((2 : Int) ^ order))) pid =
        some { p with
          cached_entries := p.cached_entries + 1 - 1,
          cached_pages := p.cached_pages + (2 : Int) ^ order -
            (2 : Int) ^ order } :=
      getPool_setPool _ pid _ _ hq1
    have hdel := del_from_active_single (emit (setPool (emit (setPool { g with
          active_pools_list := g.active_pools_list ++ [pid] } pid
          { p with cached_entries := p.cached_entries + 1,
                   cached_pages := p.cached_pages + (2 : Int) ^ order })
          (.incBucket pid ((2 : Int) ^ order))) pid
          { p with
            cached_entries := p.cached_entries + 1 - 1,
            cached_pages := p.cached_pages + (2 : Int) ^ order -
              (2 : Int) ^ order })
        (.decBucket pid ((2 : Int) ^ order))) pid
      (show g.active_pools_list ++ [pid] = [pid] by rw [hact]; rfl) hcur
    rw [hdec, hdel]
    refine ⟨rfl, rfl, ⟨_, hq2, by dsimp only; omega, by dsimp only; ring,
      rfl, rfl, rfl, rfl⟩, rfl, ?_, rfl, rfl, ?_⟩
    · exact hcur
    · show (g.trace ++ [Ev.incBucket pid ((2 : Int) ^ order)]) ++
        [Ev.decBucket pid ((2 : Int) ^ order)] = _
      rw [List.append_assoc]
      rfl

lemma pagesAlloced_snoc (tr : List Ev) (e : Ev) :
    pagesAlloced (tr ++ [e]) = pagesAlloced tr + evAllocCount e := by
  rw [pagesAlloced_append]
  simp [pagesAlloced]

lemma pagesFreed_snoc (tr : List Ev) (e : Ev) :
    pagesFreed (tr ++ [e]) = pagesFreed tr + evFreeCount e := by
  rw [pagesFreed_append]
  simp [pagesFreed]

lemma allocOutUncheck_spec (g : SgvGlobal) (ml : MemLim) (n : Int)
    (hi al : Bool) :
    (sgvAllocOutUncheck g ml n hi al).2 =
      (if al then { ml with alloced_pages := ml.alloced_pages - n }
       else ml) ∧
    (sgvAllocOutUncheck g ml n hi al).1.pages_total =
      g.pages_total - (if hi then n else 0) ∧
    (sgvAllocOutUncheck g ml n hi al).1.pools = g.pools ∧
    (sgvAllocOutUncheck g ml n hi al).1.active_pools_list =
      g.active_pools_list ∧
    (sgvAllocOutUncheck g ml n hi al).1.cur_purge_pool = g.cur_purge_pool ∧
    pagesAlloced (sgvAllocOutUncheck g ml n hi al).1.trace =
      pagesAlloced g.trace ∧
    pagesFreed (sgvAllocOutUncheck g ml n hi al).1.trace =
      pagesFreed g.trace := by
  unfold sgvAllocOutUncheck sgv_uncheck_allowed_mem sgv_hiwmk_uncheck
  cases hi <;> cases al <;>
    simp [emit, pagesAlloced, pagesFreed, evAllocCount, evFreeCount]

lemma dec_from_one (g : SgvGlobal) (pid : PoolId) (n : Int) (p1 : SgvPool)
    (hp1 : getPool g pid = some p1) (hce1 : p1.cached_entries = 1)
    (hact1 : g.active_pools_list = [pid])
    (hcur1 : g.cur_purge_pool = none) :
    ∃ p2, getPool (sgv_dec_cached_entries g pid n) pid = some p2 ∧
      p2.cached_entries = 0 ∧ p2.cached_pages = p1.cached_pages - n ∧
      p2.arena = p1.arena ∧ p2.recycling_lists = p1.recycling_lists ∧
      p2.sorted_recycling_list = p1.sorted_recycling_list ∧
      (sgv_dec_cached_entries g pid n).active_pools_list = [] ∧
      (sgv_dec_cached_entries g pid n).cur_purge_pool = none ∧
      (sgv_dec_cached_entries g pid n).pages_total = g.pages_total ∧
      (sgv_dec_cached_entries g pid n).trace =
        g.trace ++ [Ev.decBucket pid n] := by
  have hred : sgv_dec_cached_entries g pid n =
      sgv_del_from_active (emit (setPool g pid
        { p1 with cached_entries := p1.cached_entries - 1,
                  cached_pages := p1.cached_pages - n })
        (.decBucket pid n)) pid := by
    unfold sgv_dec_cached_entries
    rw [hp1]
    dsimp only
    rw [if_pos (by omega)]
  have hq2 : getPool (emit (setPool g pid
        { p1 with cached_entries := p1.cached_entries - 1,
                  cached_pages := p1.cached_pages - n })
        (.decBucket pid n)) pid =
      some { p1 with cached_entries := p1.cached_entries - 1,
                     cached_pages := p1.cached_pages - n } :=
    getPool_setPool g pid _ p1 hp1
  have hdel := del_from_active_single (emit (setPool g pid
      { p1 with cached_entries := p1.cached_entries - 1,
                cached_pages := p1.cached_pages - n })
      (.decBucket pid n)) pid (show g.active_pools_list = [pid] from hact1)
    hcur1
  rw [hred, hdel]
  exact ⟨_, hq2, by dsimp only; omega, rfl, rfl, rfl, rfl, rfl, hcur1, rfl,
    rfl⟩

lemma fill_balance0 (P : Nat) (ctype : SgvClustering)
    (tt : Option (List TransTblEnt)) (supply : List (Option Nat))
    (g : SgvGlobal) :
    ∃ k, pagesAlloced (sgv_alloc_sg_entries (List.replicate P sglZero) P
        ctype tt supply g).g.trace = pagesAlloced g.trace + k ∧
      ((sgv_alloc_sg_entries (List.replicate P sglZero) P ctype tt supply
          g).sg_count = 0 →
        pagesFreed (sgv_alloc_sg_entries (List.replicate P sglZero) P ctype
          tt supply g).g.trace = pagesFreed g.trace + k) := by
  obtain ⟨k, hk, c1, c2, c3, c4, c5, c6, c7, c8, c9, c10, c11, c12⟩ :=
    sgvAllocLoop_invariant ctype P (List.replicate P sglZero)
      0 (-1) supply g (by simp) (by norm_num)
      (fun j _ => by rw [getD_replicate]; rfl)
      (fun j => by rw [getD_replicate]; rfl)
      (fun j hj => by omega)
  rw [List.length_replicate] at c1 c7
  rw [lenSum_replicate_zero P P, Nat.zero_add] at c7
  rcases c11 with hnone | ⟨hsome, hkrem⟩
  · have hred : sgv_alloc_sg_entries (List.replicate P sglZero) P ctype tt
        supply g =
        ⟨0, (sgvAllocLoop ctype P (List.replicate P sglZero) 0 (-1)
            supply g).2.1, tt,
          (sgvAllocLoop ctype P (List.replicate P sglZero) 0 (-1)
            supply g).2.2.2.1,
          sgv_free_sys_sg_entries
            (sgvAllocLoop ctype P (List.replicate P sglZero) 0 (-1)
              supply g).2.1
            (sgvAllocLoop ctype P (List.replicate P sglZero) 0 (-1)
              supply g).2.2.1
            (sgvAllocLoop ctype P (List.replicate P sglZero) 0 (-1)
              supply g).2.2.2.2⟩ := by
      unfold sgv_alloc_sg_entries
      simp only [hnone]
    have hspan : spanSum (sgvAllocLoop ctype P (List.replicate P sglZero)
        0 (-1) supply g).2.1
        (sgvAllocLoop ctype P (List.replicate P sglZero) 0 (-1)
          supply g).2.2.1 = k := by
      have h1 := spanSum_mul_page _ c5 (sgvAllocLoop ctype P
        (List.replicate P sglZero) 0 (-1) supply g).2.2.1
      rw [lenSum_stable _ _ c4 P (by omega)] at c7
      rw [c7] at h1
      exact Nat.eq_of_mul_eq_mul_right (by norm_num [PAGE_SIZE]) h1
    refine ⟨k, ?_, fun _ => ?_⟩
    · rw [hred]
      show pagesAlloced ((sgvAllocLoop ctype P (List.replicate P sglZero)
        0 (-1) supply g).2.2.2.2.trace ++
          [Ev.freePages (spanSum (sgvAllocLoop ctype P
            (List.replicate P sglZero) 0 (-1) supply g).2.1
            (sgvAllocLoop ctype P (List.replicate P sglZero) 0 (-1)
              supply g).2.2.1)]) = pagesAlloced g.trace + k
      rw [pagesAlloced_snoc, c9]
      rfl
    · rw [hred]
      show pagesFreed ((sgvAllocLoop ctype P (List.replicate P sglZero)
        0 (-1) supply g).2.2.2.2.trace ++
          [Ev.freePages (spanSum (sgvAllocLoop ctype P
            (List.replicate P sglZero) 0 (-1) supply g).2.1
            (sgvAllocLoop ctype P (List.replicate P sglZero) 0 (-1)
              supply g).2.2.1)]) = pagesFreed g.trace + k
      rw [pagesFreed_snoc, c10]
      show pagesFreed g.trace + spanSum _ _ = pagesFreed g.trace + k
      rw [hspan]
  · have hred : sgv_alloc_sg_entries (List.replicate P sglZero) P ctype tt
        supply g = ⟨(sgvAllocLoop ctype P (List.replicate P sglZero) 0 (-1)
            supply g).2.2.1,
          (sgvAllocLoop ctype P (List.replicate P sglZero) 0 (-1)
            supply g).2.1,
          (if ctype ≠ .sgv_no_clustering then
            match tt with
            | some tbl => some (transTblLoop (sgvAllocLoop ctype P
                (List.replicate P sglZero) 0 (-1) supply g).2.1 P 0 0 tbl)
            | none => none
          else tt),
          (sgvAllocLoop ctype P (List.replicate P sglZero) 0 (-1)
            supply g).2.2.2.1,
          (sgvAllocLoop ctype P (List.replicate P sglZero) 0 (-1)
            supply g).2.2.2.2⟩ := by
      unfold sgv_alloc_sg_entries
      simp only [hsome]
    refine ⟨k, ?_, fun h0 => ?_⟩
    · rw [hred]
      exact c9
    · rw [hred] at h0 ⊢
      have hcnt0 : (sgvAllocLoop ctype P (List.replicate P sglZero) 0 (-1)
          supply g).2.2.1 = 0 := h0
      have hk0 : k = 0 := by
        rw [lenSum_stable (sgvAllocLoop ctype P (List.replicate P sglZero)
          0 (-1) supply g).2.1 (sgvAllocLoop ctype P
          (List.replicate P sglZero) 0 (-1) supply g).2.2.1 c4 P
          (by omega)] at c7
        have hz : lenSum (sgvAllocLoop ctype P (List.replicate P sglZero)
            0 (-1) supply g).2.1
            (sgvAllocLoop ctype P (List.replicate P sglZero) 0 (-1)
              supply g).2.2.1 = 0 := by
          rw [hcnt0]
          rfl
        rw [hz] at c7
        have hpos : 0 < PAGE_SIZE := by norm_num [PAGE_SIZE]
        by_contra hne
        have : 0 < k * PAGE_SIZE := by
          have : 0 < k := by omega
          exact Nat.mul_pos this hpos
        omega
      rw [c10, hk0, Nat.add_zero]

lemma shrinkLoop_onepool (after cur_time : Nat) (pid : PoolId)
    (fuel : Nat) (g : SgvGlobal) (nr prev : Int) (p1 : SgvPool)
    (hfuel : 2 ≤ fuel) (hnr : nr > 0)
    (hp1 : getPool g pid = some p1)
    (hsort : p1.sorted_recycling_list = [])
    (hact : g.active_pools_list = [pid])
    (hcur : g.cur_purge_pool = none) :
    sgvShrinkLoop after cur_time fuel g nr prev false =
      ({ g with cur_purge_pool := some pid }, nr) := by
  obtain ⟨f, rfl⟩ : ∃ f, fuel = f + 2 := ⟨fuel - 2, by omega⟩
  simp only [sgvShrinkLoop]
  rw [if_pos hnr]
  simp only [hcur, hact, List.head?]
  have hdw : List.drop 1 (List.dropWhile (fun x => decide (x ≠ pid)) [pid]) =
      ([] : List PoolId) := by
    simp [List.dropWhile]
  simp only [hdw]
  rw [if_neg (by simp)]
  have hgm : getPool ({ g with active_pools_list := [pid], cur_purge_pool := some pid } : SgvGlobal) pid = some p1 := hp1
  have hsp : sgv_shrink_pool ({ g with active_pools_list := [pid], cur_purge_pool := some pid } : SgvGlobal) pid nr after cur_time = (({ g with active_pools_list := [pid], cur_purge_pool := some pid } : SgvGlobal), nr) := by
    unfold sgv_shrink_pool
    simp only [hgm]
    rw [hsort]
    rfl
  simp only [if_true]
  rw [hsp]
  rw [if_pos hnr]
  dsimp only
  simp only [List.contains_cons, beq_self_eq_true, Bool.true_or, if_true]
  rw [if_pos ⟨hdw, by decide, trivial⟩]

lemma del_from_active_single2 (g : SgvGlobal) (pid : PoolId)
    (hact : g.active_pools_list = [pid])
    (hcur : g.cur_purge_pool = some pid) :
    sgv_del_from_active g pid =
      { g with active_pools_list := [], cur_purge_pool := none } := by
  unfold sgv_del_from_active
  rw [hact]
  dsimp only
  rw [List.erase_cons_head]
  rw [if_pos (by rw [hcur])]
  have hdw : (([pid] : List PoolId).dropWhile (· ≠ pid)).drop 1 = [] := by
    simp [List.dropWhile]
  rw [hdw]
  rfl

lemma dec_from_one2 (g : SgvGlobal) (pid : PoolId) (n : Int) (p1 : SgvPool)
    (hp1 : getPool g pid = some p1) (hce1 : p1.cached_entries = 1)
    (hact1 : g.active_pools_list = [pid])
    (hcur1 : g.cur_purge_pool = some pid) :
    ∃ p2, getPool (sgv_dec_cached_entries g pid n) pid = some p2 ∧
      p2.cached_entries = 0 ∧ p2.cached_pages = p1.cached_pages - n ∧
      p2.arena = p1.arena ∧ p2.recycling_lists = p1.recycling_lists ∧
      p2.sorted_recycling_list = p1.sorted_recycling_list ∧
      (sgv_dec_cached_entries g pid n).active_pools_list = [] ∧
      (sgv_dec_cached_entries g pid n).cur_purge_pool = none ∧
      (sgv_dec_cached_entries g pid n).pages_total = g.pages_total ∧
      (sgv_dec_cached_entries g pid n).trace =
        g.trace ++ [Ev.decBucket pid n] := by
  have hred : sgv_dec_cached_entries g pid n =
      sgv_del_from_active (emit (setPool g pid
        { p1 with cached_entries := p1.cached_entries - 1,
                  cached_pages := p1.cached_pages - n })
        (.decBucket pid n)) pid := by
    unfold sgv_dec_cached_entries
    rw [hp1]
    dsimp only
    rw [if_pos (by omega)]
  have hq2 : getPool (emit (setPool g pid
        { p1 with cached_entries := p1.cached_entries - 1,
                  cached_pages := p1.cached_pages - n })
        (.decBucket pid n)) pid =
      some { p1 with cached_entries := p1.cached_entries - 1,
                     cached_pages := p1.cached_pages - n } :=
    getPool_setPool g pid _ p1 hp1
  have hdel := del_from_active_single2 (emit (setPool g pid
      { p1 with cached_entries := p1.cached_entries - 1,
                cached_pages := p1.cached_pages - n })
      (.decBucket pid n)) pid (show g.active_pools_list = [pid] from hact1)
    hcur1
  rw [hred, hdel]
  exact ⟨_, hq2, by dsimp only; omega, rfl, rfl, rfl, rfl, rfl, rfl, rfl, rfl⟩

lemma hiwmk_check_onepool (g : SgvGlobal) (n : Int) (cur_time : Nat)
    (pid : PoolId) (p1 : SgvPool) (hp1 : getPool g pid = some p1)
    (hsort : p1.sorted_recycling_list = [])
    (hact1 : g.active_pools_list = [pid])
    (hcur1 : g.cur_purge_pool = none) :
    (n + g.pages_total ≤ g.hi_wmk →
      sgv_hiwmk_check g n cur_time =
        (emit { g with pages_total := g.pages_total + n } (.reserveHiwmk n),
          0)) ∧
    (n + g.pages_total > g.hi_wmk →
      sgv_hiwmk_check g n cur_time =
        ({ g with cur_purge_pool := some pid,
                  releases_on_hiwmk := g.releases_on_hiwmk + 1,
                  releases_on_hiwmk_failed :=
                    g.releases_on_hiwmk_failed + 1 },
          -12)) := by
  constructor
  · intro h
    unfold sgv_hiwmk_check
    rw [if_neg (by omega)]
    rfl
  · intro h
    unfold sgv_hiwmk_check
    rw [if_pos (by omega)]
    dsimp only
    unfold __sgv_shrink
    rw [shrinkLoop_onepool 0 cur_time pid
      (shrinkFuel { g with releases_on_hiwmk := g.releases_on_hiwmk + 1 }
        (n + g.pages_total - g.hi_wmk))
      { g with releases_on_hiwmk := g.releases_on_hiwmk + 1 }
      (n + g.pages_total - g.hi_wmk) (n + g.pages_total - g.hi_wmk) p1
      (by unfold shrinkFuel; omega) (by omega) hp1 hsort hact1 hcur1]
    dsimp only
    rw [if_pos (by omega)]

lemma arrays_some_entries (obj : SgvObj) (P order : Nat) (cl : Bool)
    (km : List Bool) (o : SgvObj)
    (h : (sgv_alloc_arrays obj P order cl km).1 = some o) :
    o.sg_entries = List.replicate P sglZero := by
  unfold sgv_alloc_arrays at h
  dsimp only at h
  split_ifs at h <;> (try cases h) <;> rfl

lemma getPool_congr (g1 g2 : SgvGlobal) (pid : PoolId)
    (h : g1.pools = g2.pools) : getPool g1 pid = getPool g2 pid := by
  unfold getPool
  rw [h]

lemma fail_out_spec (gF : SgvGlobal) (mlF : MemLim)
    (supply : List (Option Nat)) (km : List Bool) (n : Int) (hi al : Bool) :
    (sgvAllocOutFail gF mlF supply km n hi al).res = none ∧
    (sgvAllocOutFail gF mlF supply km n hi al).sgv = none ∧
    (sgvAllocOutFail gF mlF supply km n hi al).ml =
      (if al then { mlF with alloced_pages := mlF.alloced_pages - n }
       else mlF) ∧
    (sgvAllocOutFail gF mlF supply km n hi al).g.pages_total =
      gF.pages_total - (if hi then n else 0) ∧
    (sgvAllocOutFail gF mlF supply km n hi al).g.pools = gF.pools ∧
    (sgvAllocOutFail gF mlF supply km n hi al).g.active_pools_list =
      gF.active_pools_list ∧
    (sgvAllocOutFail gF mlF supply km n hi al).g.cur_purge_pool =
      gF.cur_purge_pool ∧
    pagesAlloced (sgvAllocOutFail gF mlF supply km n hi al).g.trace =
      pagesAlloced gF.trace ∧
    pagesFreed (sgvAllocOutFail gF mlF supply km n hi al).g.trace =
      pagesFreed gF.trace := by
  obtain ⟨u1, u2, u3, u4, u5, u6, u7⟩ := allocOutUncheck_spec gF mlF n hi al
  exact ⟨rfl, rfl, u1, u2, u3, u4, u5, u6, u7⟩

lemma failfree_cache_eq (g : SgvGlobal) (ml : MemLim)
    (supply : List (Option Nat)) (km : List Bool) (pid : PoolId) (n : Int)
    (hi al : Bool) :
    sgvAllocOutFailFree g ml supply km pid n true hi al =
      sgvAllocOutFail (sgv_dec_cached_entries g pid n) ml supply km n hi
        al := rfl

lemma failfree_nocache_eq (g : SgvGlobal) (ml : MemLim)
    (supply : List (Option Nat)) (km : List Bool) (pid : PoolId) (n : Int)
    (hi al : Bool) :
    sgvAllocOutFailFree g ml supply km pid n false hi al =
      sgvAllocOutFail g ml supply km n hi al := rfl

lemma gate_fill_unwind (gB : SgvGlobal) (mlQ : MemLim)
    (supplyB : List (Option Nat)) (kmB : List Bool) (pid : PoolId)
    (ctype : SgvClustering) (objB : SgvObj) (no_cached : Bool)
    (order pages : Nat) (n : Int) (size : Nat) (flags : AllocFlags)
    (cur_time : Nat) (p1 : SgvPool)
    (hgp1 : getPool gB pid = some p1) (hce1 : p1.cached_entries = 1)
    (hsl1 : p1.sorted_recycling_list = [])
    (hact1 : gB.active_pools_list = [pid])
    (hcur1 : gB.cur_purge_pool = none)
    (hent : objB.sg_entries = List.replicate n.toNat sglZero) :
    (if (sgv_hiwmk_check gB n cur_time).2 ≠ 0 then
      sgvAllocOutFailFree (sgv_hiwmk_check gB n cur_time).1 mlQ supplyB kmB
        pid n true false true
    else
      sgvAllocFillAndFinish (sgv_hiwmk_check gB n cur_time).1 mlQ supplyB
        kmB pid ctype objB true no_cached order pages n size flags).res =
      none →
    (if (sgv_hiwmk_check gB n cur_time).2 ≠ 0 then
      sgvAllocOutFailFree (sgv_hiwmk_check gB n cur_time).1 mlQ supplyB kmB
        pid n true false true
    else
      sgvAllocFillAndFinish (sgv_hiwmk_check gB n cur_time).1 mlQ supplyB
        kmB pid ctype objB true no_cached order pages n size flags).sgv =
      none →
    ((if (sgv_hiwmk_check gB n cur_time).2 ≠ 0 then
      sgvAllocOutFailFree (sgv_hiwmk_check gB n cur_time).1 mlQ supplyB kmB
        pid n true false true
    else
      sgvAllocFillAndFinish (sgv_hiwmk_check gB n cur_time).1 mlQ supplyB
        kmB pid ctype objB true no_cached order pages n size flags).ml =
      { mlQ with alloced_pages := mlQ.alloced_pages - n } ∧
    (if (sgv_hiwmk_check gB n cur_time).2 ≠ 0 then
      sgvAllocOutFailFree (sgv_hiwmk_check gB n cur_time).1 mlQ supplyB kmB
        pid n true false true
    else
      sgvAllocFillAndFinish (sgv_hiwmk_check gB n cur_time).1 mlQ supplyB
        kmB pid ctype objB true no_cached order pages n size
        flags).g.pages_total = gB.pages_total ∧
    (if (sgv_hiwmk_check gB n cur_time).2 ≠ 0 then
      sgvAllocOutFailFree (sgv_hiwmk_check gB n cur_time).1 mlQ supplyB kmB
        pid n true false true
    else
      sgvAllocFillAndFinish (sgv_hiwmk_check gB n cur_time).1 mlQ supplyB
        kmB pid ctype objB true no_cached order pages n size
        flags).g.active_pools_list = [] ∧
    (if (sgv_hiwmk_check gB n cur_time).2 ≠ 0 then
      sgvAllocOutFailFree (sgv_hiwmk_check gB n cur_time).1 mlQ supplyB kmB
        pid n true false true
    else
      sgvAllocFillAndFinish (sgv_hiwmk_check gB n cur_time).1 mlQ supplyB
        kmB pid ctype objB true no_cached order pages n size
        flags).g.cur_purge_pool = none ∧
    (∃ p2, getPool (if (sgv_hiwmk_check gB n cur_time).2 ≠ 0 then
        sgvAllocOutFailFree (sgv_hiwmk_check gB n cur_time).1 mlQ supplyB
          kmB pid n true false true
      else
        sgvAllocFillAndFinish (sgv_hiwmk_check gB n cur_time).1 mlQ supplyB
          kmB pid ctype objB true no_cached order pages n size flags).g pid =
        some p2 ∧
      p2.cached_entries = 0 ∧ p2.cached_pages = p1.cached_pages - n ∧
      p2.arena = p1.arena ∧ p2.recycling_lists = p1.recycling_lists ∧
      p2.sorted_recycling_list = p1.sorted_recycling_list) ∧
    ∃ k, pagesAlloced (if (sgv_hiwmk_check gB n cur_time).2 ≠ 0 then
        sgvAllocOutFailFree (sgv_hiwmk_check gB n cur_time).1 mlQ supplyB
          kmB pid n true false true
      else
        sgvAllocFillAndFinish (sgv_hiwmk_check gB n cur_time).1 mlQ supplyB
          kmB pid ctype objB true no_cached order pages n size
          flags).g.trace = pagesAlloced gB.trace + k ∧
      pagesFreed (if (sgv_hiwmk_check gB n cur_time).2 ≠ 0 then
        sgvAllocOutFailFree (sgv_hiwmk_check gB n cur_time).1 mlQ supplyB
          kmB pid n true false true
      else
        sgvAllocFillAndFinish (sgv_hiwmk_check gB n cur_time).1 mlQ supplyB
          kmB pid ctype objB true no_cached order pages n size
          flags).g.trace = pagesFreed gB.trace + k) := by
  by_cases hgate : n + gB.pages_total ≤ gB.hi_wmk
  · rw [(hiwmk_check_onepool gB n cur_time pid p1 hgp1 hsl1 hact1 hcur1).1
      hgate]
    dsimp only
    rw [if_neg (show ¬ ((0 : Int) ≠ 0) by omega)]
    unfold sgvAllocFillAndFinish
    dsimp only
    rw [hent]
    by_cases hsg0 : (sgv_alloc_sg_entries (List.replicate n.toNat sglZero)
        n.toNat ctype objB.trans_tbl supplyB
        (emit { gB with pages_total := gB.pages_total + n }
          (.reserveHiwmk n))).sg_count = 0
    · rw [if_pos (show ({ objB with
          sg_count := (sgv_alloc_sg_entries (List.replicate n.toNat sglZero)
            n.toNat ctype objB.trans_tbl supplyB
            (emit { gB with pages_total := gB.pages_total + n }
              (.reserveHiwmk n))).sg_count,
          sg_entries := (sgv_alloc_sg_entries
            (List.replicate n.toNat sglZero) n.toNat ctype objB.trans_tbl
            supplyB (emit { gB with pages_total := gB.pages_total + n }
              (.reserveHiwmk n))).sg,
          trans_tbl := (sgv_alloc_sg_entries
            (List.replicate n.toNat sglZero) n.toNat ctype objB.trans_tbl
            supplyB (emit { gB with pages_total := gB.pages_total + n }
              (.reserveHiwmk n))).trans } : SgvObj).sg_count = 0
        from hsg0)]
      by_cases hrf : flags.return_obj_on_alloc_fail = true
      · rw [if_pos ⟨hrf, rfl⟩]
        intro hres hsgv
        exact Option.noConfusion hsgv
      · rw [if_neg (fun hc => hrf hc.1)]
        intro _ _
        rw [failfree_cache_eq]
        obtain ⟨heg, _, _⟩ := sgv_alloc_sg_entries_fill n.toNat ctype
          objB.trans_tbl supplyB
          (emit { gB with pages_total := gB.pages_total + n }
            (.reserveHiwmk n))
        have hgp2 : getPool (sgv_alloc_sg_entries
            (List.replicate n.toNat sglZero) n.toNat ctype objB.trans_tbl
            supplyB (emit { gB with pages_total := gB.pages_total + n }
              (.reserveHiwmk n))).g pid = some p1 := by
          rw [heg]
          exact hgp1
        have hact2 : (sgv_alloc_sg_entries (List.replicate n.toNat sglZero)
            n.toNat ctype objB.trans_tbl supplyB
            (emit { gB with pages_total := gB.pages_total + n }
              (.reserveHiwmk n))).g.active_pools_list = [pid] := by
          rw [heg]
          exact hact1
        have hcur2 : (sgv_alloc_sg_entries (List.replicate n.toNat sglZero)
            n.toNat ctype objB.trans_tbl supplyB
            (emit { gB with pages_total := gB.pages_total + n }
              (.reserveHiwmk n))).g.cur_purge_pool = none := by
          rw [heg]
          exact hcur1
        have hpt2 : (sgv_alloc_sg_entries (List.replicate n.toNat sglZero)
            n.toNat ctype objB.trans_tbl supplyB
            (emit { gB with pages_total := gB.pages_total + n }
              (.reserveHiwmk n))).g.pages_total = gB.pages_total + n := by
          rw [heg]
          rfl
        obtain ⟨p2, hq2, hce2, hcp2, har2, hrl2, hsl2, hactD, hcurD, hptD,
          htrD⟩ := dec_from_one _ pid n p1 hgp2 hce1 hact2 hcur2
        obtain ⟨f1, f2, f3, f4, f5, f6, f7, f8, f9⟩ := fail_out_spec
          (sgv_dec_cached_entries (sgv_alloc_sg_entries
            (List.replicate n.toNat sglZero) n.toNat ctype objB.trans_tbl
            supplyB (emit { gB with pages_total := gB.pages_total + n }
              (.reserveHiwmk n))).g pid n) mlQ
          (sgv_alloc_sg_entries (List.replicate n.toNat sglZero) n.toNat
            ctype objB.trans_tbl supplyB
            (emit { gB with pages_total := gB.pages_total + n }
              (.reserveHiwmk n))).supply kmB n true true
        obtain ⟨k, hbA, hbF⟩ := fill_balance0 n.toNat ctype objB.trans_tbl
          supplyB (emit { gB with pages_total := gB.pages_total + n }
            (.reserveHiwmk n))
        have hgtr : (emit { gB with pages_total := gB.pages_total + n }
            (.reserveHiwmk n)).trace = gB.trace ++ [Ev.reserveHiwmk n] := rfl
        refine ⟨f3.trans (by rw [if_pos rfl]), ?_, f6.trans hactD,
          f7.trans hcurD, ⟨p2, ?_, hce2, hcp2, har2, hrl2, hsl2⟩,
          ⟨k, ?_, ?_⟩⟩
        · rw [f4, if_pos rfl, hptD, hpt2]
          ring
        · rw [getPool_congr _ _ pid f5]
          exact hq2
        · rw [f8, htrD, pagesAlloced_snoc, hbA, hgtr, pagesAlloced_snoc]
          rfl
        · rw [f9, htrD, pagesFreed_snoc, hbF hsg0, hgtr, pagesFreed_snoc]
          rfl
    · rw [if_neg (show ¬ (({ objB with
          sg_count := (sgv_alloc_sg_entries (List.replicate n.toNat sglZero)
            n.toNat ctype objB.trans_tbl supplyB
            (emit { gB with pages_total := gB.pages_total + n }
              (.reserveHiwmk n))).sg_count,
          sg_entries := (sgv_alloc_sg_entries
            (List.replicate n.toNat sglZero) n.toNat ctype objB.trans_tbl
            supplyB (emit { gB with pages_total := gB.pages_total + n }
              (.reserveHiwmk n))).sg,
          trans_tbl := (sgv_alloc_sg_entries
            (List.replicate n.toNat sglZero) n.toNat ctype objB.trans_tbl
            supplyB (emit { gB with pages_total := gB.pages_total + n }
              (.reserveHiwmk n))).trans } : SgvObj).sg_count = 0)
        from hsg0)]
      intro hres _
      obtain ⟨o2, ho1, ho2, hrest⟩ := sgvAllocSuccess_shape _ mlQ _ kmB pid
        ctype _ true no_cached order pages size
      rw [ho2] at hres
      exact Option.noConfusion hres
  · rw [(hiwmk_check_onepool gB n cur_time pid p1 hgp1 hsl1 hact1 hcur1).2
      (by omega)]
    dsimp only
    rw [if_pos (show ((-12 : Int) ≠ 0) by omega)]
    intro _ _
    rw [failfree_cache_eq]
    obtain ⟨p2, hq2, hce2, hcp2, har2, hrl2, hsl2, hactD, hcurD, hptD,
      htrD⟩ := dec_from_one2 ({ gB with cur_purge_pool := some pid, releases_on_hiwmk := gB.releases_on_hiwmk + 1, releases_on_hiwmk_failed := gB.releases_on_hiwmk_failed + 1 } : SgvGlobal) pid n p1 hgp1 hce1 hact1 rfl
    obtain ⟨f1, f2, f3, f4, f5, f6, f7, f8, f9⟩ := fail_out_spec
      (sgv_dec_cached_entries ({ gB with cur_purge_pool := some pid, releases_on_hiwmk := gB.releases_on_hiwmk + 1, releases_on_hiwmk_failed := gB.releases_on_hiwmk_failed + 1 } : SgvGlobal) pid n) mlQ supplyB kmB n false true
    refine ⟨f3.trans (by rw [if_pos rfl]), ?_, f6.trans hactD,
      f7.trans hcurD, ⟨p2, ?_, hce2, hcp2, har2, hrl2, hsl2⟩,
      ⟨0, ?_, ?_⟩⟩
    · rw [f4, if_neg (by simp), hptD]
      dsimp only
      ring
    · rw [getPool_congr _ _ pid f5]
      exact hq2
    · rw [f8, htrD, pagesAlloced_snoc]
      rfl
    · rw [f9, htrD, pagesFreed_snoc]
      rfl

lemma ml_add_sub (ml : MemLim) (n : Int) :
    ({ ml with alloced_pages := ml.alloced_pages + n - n } : MemLim) = ml := by
  have h : ml.alloced_pages + n - n = ml.alloced_pages := by ring
  rw [h]

lemma return2_out_spec (gF : SgvGlobal) (mlF : MemLim)
    (supply : List (Option Nat)) (km : List Bool) (n : Int)
    (sgvOut : Option SgvObj) (hi al : Bool) :
    (sgvAllocOutReturn2 gF mlF supply km n sgvOut hi al).res = none ∧
    (sgvAllocOutReturn2 gF mlF supply km n sgvOut hi al).sgv = sgvOut ∧
    (sgvAllocOutReturn2 gF mlF supply km n sgvOut hi al).ml =
      (if al then { mlF with alloced_pages := mlF.alloced_pages - n }
       else mlF) ∧
    (sgvAllocOutReturn2 gF mlF supply km n sgvOut hi al).g.pages_total =
      gF.pages_total - (if hi then n else 0) ∧
    (sgvAllocOutReturn2 gF mlF supply km n sgvOut hi al).g.pools =
      gF.pools ∧
    (sgvAllocOutReturn2 gF mlF supply km n sgvOut hi al).g.active_pools_list
      = gF.active_pools_list ∧
    (sgvAllocOutReturn2 gF mlF supply km n sgvOut hi al).g.cur_purge_pool =
      gF.cur_purge_pool ∧
    pagesAlloced (sgvAllocOutReturn2 gF mlF supply km n sgvOut
      hi al).g.trace = pagesAlloced gF.trace ∧
    pagesFreed (sgvAllocOutReturn2 gF mlF supply km n sgvOut hi al).g.trace
      = pagesFreed gF.trace := by
  obtain ⟨u1, u2, u3, u4, u5, u6, u7⟩ := allocOutUncheck_spec gF mlF n hi al
  exact ⟨rfl, rfl, u1, u2, u3, u4, u5, u6, u7⟩

/-- **C3** (amended): every failure of `sgv_pool_alloc` that returns
`NULL` without handing out an object (`*sgv` not set) is fully unwound:
the consumer quota charge, the `sgv_pages_total` watermark reservation
and the per-bucket cached entry/page counters are all released before
returning, every page drawn from the back-end during the attempt has
been freed again, and no partially initialised object is published to a
free-list (the arena and the recycling lists are unchanged).  The
releases run in the order pages, bucket counters, watermark, quota — not
in the exact reverse of the acquisition order (quota, bucket counters,
watermark, pages) — and the `SCST_POOL_RETURN_OBJ_ON_ALLOC_FAIL` flag
deliberately keeps the bucket counters charged for the object handed
back through `*sgv`. -/
theorem claim_C3_failure_unwind (g0 : SgvGlobal) (pid : PoolId) (size : Nat)
    (flags : AllocFlags) (countIn : Int) (ml : MemLim) (priv : Nat)
    (supply : List (Option Nat)) (km : List Bool) (cur_time : Nat)
    (pool : SgvPool)
    (hp : getPool g0 pid = some pool)
    (hce : pool.cached_entries = 0)
    (hcp : pool.cached_pages = 0)
    (hrl : ∀ k2, pool.recycling_lists.getD k2 [] = [])
    (hsl : pool.sorted_recycling_list = [])
    (hact : g0.active_pools_list = [])
    (hcur : g0.cur_purge_pool = none) :
    (sgv_pool_alloc g0 pid size flags countIn none ml priv supply km
      cur_time).res = none →
    (sgv_pool_alloc g0 pid size flags countIn none ml priv supply km
      cur_time).sgv = none →
    (sgv_pool_alloc g0 pid size flags countIn none ml priv supply km
      cur_time).ml = ml ∧
    (sgv_pool_alloc g0 pid size flags countIn none ml priv supply km
      cur_time).g.pages_total = g0.pages_total ∧
    (sgv_pool_alloc g0 pid size flags countIn none ml priv supply km
      cur_time).g.active_pools_list = [] ∧
    (sgv_pool_alloc g0 pid size flags countIn none ml priv supply km
      cur_time).g.cur_purge_pool = none ∧
    (∃ pool2, getPool (sgv_pool_alloc g0 pid size flags countIn none ml
        priv supply km cur_time).g pid = some pool2 ∧
      pool2.cached_entries = 0 ∧ pool2.cached_pages = 0 ∧
      pool2.arena = pool.arena ∧
      pool2.recycling_lists = pool.recycling_lists ∧
      pool2.sorted_recycling_list = pool.sorted_recycling_list) ∧
    pagesAlloced (sgv_pool_alloc g0 pid size flags countIn none ml priv
        supply km cur_time).g.trace + pagesFreed g0.trace =
      pagesFreed (sgv_pool_alloc g0 pid size flags countIn none ml priv
        supply km cur_time).g.trace + pagesAlloced g0.trace := by
  by_cases hsz : size = 0
  · unfold sgv_pool_alloc
    rw [if_pos hsz]
    intro _ _
    exact ⟨rfl, rfl, hact, hcur, ⟨pool, hp, hce, hcp, rfl, rfl, rfl⟩,
      Nat.add_comm (pagesAlloced g0.trace) (pagesFreed g0.trace)⟩
  unfold sgv_pool_alloc
  rw [if_neg hsz]
  simp only [hp]
  by_cases hpath : get_order size < SGV_POOL_ELEMENTS ∧
      ¬ flags.no_cached = true
  · rw [if_pos hpath]
    by_cases hq : ml.alloced_pages + (2 : Int) ^ get_order size >
        ml.max_allowed_pages
    · rw [check_allowed_fail ml ((2 : Int) ^ get_order size) g0 hq]
      dsimp only
      rw [if_pos (show ¬ (false = true) by simp)]
      intro _ _
      obtain ⟨f1, f2, f3, f4, f5, f6, f7, f8, f9⟩ := fail_out_spec
        (emit (emit g0 (.chargeQuota ((2 : Int) ^ get_order size)))
          (.unchargeQuota ((2 : Int) ^ get_order size))) ml supply km
        ((2 : Int) ^ get_order size) false false
      refine ⟨f3.trans (by rw [if_neg (by simp)]), ?_, f6.trans hact,
        f7.trans hcur, ⟨pool, ?_, hce, hcp, rfl, rfl, rfl⟩, ?_⟩
      · rw [f4, if_neg (by simp)]
        show g0.pages_total - 0 = g0.pages_total
        omega
      · rw [getPool_congr _ _ pid f5]
        exact hp
      · rw [f8, f9]
        show pagesAlloced ((g0.trace ++ [Ev.chargeQuota _]) ++
            [Ev.unchargeQuota _]) + pagesFreed g0.trace =
          pagesFreed ((g0.trace ++ [Ev.chargeQuota _]) ++
            [Ev.unchargeQuota _]) + pagesAlloced g0.trace
        rw [pagesAlloced_snoc, pagesAlloced_snoc, pagesFreed_snoc,
          pagesFreed_snoc]
        show pagesAlloced g0.trace + 0 + 0 + pagesFreed g0.trace =
          pagesFreed g0.trace + 0 + 0 + pagesAlloced g0.trace
        omega
    · rw [sgv_check_allowed_mem_success ml ((2 : Int) ^ get_order size) g0
        (by omega)]
      rw [if_neg (by simp)]
      obtain ⟨hsucc, hfail⟩ := get_obj_empty
        (emit g0 (.chargeQuota ((2 : Int) ^ get_order size))) pid
        (get_order size) km pool hp (hrl (get_order size)) hce hact hcur
      rcases hkp : (kpop km).1 with _ | _
      · obtain ⟨h1, h2, ⟨p2g, hgp2, hce2, hcp2, har2, hrl2, hsl2, hct2⟩,
          hact2, hcur2, hpt2, hhi2, htr2⟩ := hfail hkp
        simp only [h1]
        intro _ _
        obtain ⟨f1, f2, f3, f4, f5, f6, f7, f8, f9⟩ := fail_out_spec
          (sgv_get_obj (emit g0 (.chargeQuota ((2 : Int) ^ get_order size)))
            pid (get_order size) km).1
          { ml with alloced_pages :=
              ml.alloced_pages + (2 : Int) ^ get_order size } supply
          (sgv_get_obj (emit g0 (.chargeQuota ((2 : Int) ^ get_order size)))
            pid (get_order size) km).2.1
          ((2 : Int) ^ get_order size) false true
        refine ⟨f3.trans (by rw [if_pos rfl]; exact ml_add_sub ml _), ?_,
          f6.trans hact2, f7.trans hcur2,
          ⟨p2g, ?_, hce2, hcp2.trans hcp, har2, hrl2, hsl2⟩, ?_⟩
        · rw [f4, if_neg (by simp), hpt2]
          show g0.pages_total - 0 = g0.pages_total
          omega
        · rw [getPool_congr _ _ pid f5]
          exact hgp2
        · rw [f8, f9, htr2]
          rw [pagesAlloced_append, pagesFreed_append]
          show pagesAlloced (g0.trace ++ [Ev.chargeQuota _]) + 0 +
              pagesFreed g0.trace =
            pagesFreed (g0.trace ++ [Ev.chargeQuota _]) + 0 +
              pagesAlloced g0.trace
          rw [pagesAlloced_append, pagesFreed_append]
          show pagesAlloced g0.trace + 0 + 0 + pagesFreed g0.trace =
            pagesFreed g0.trace + 0 + 0 + pagesAlloced g0.trace
          omega
      · obtain ⟨h1, h2, ⟨p1, hgp1, hce1, hcp1, har1, hrl1, hsl1, hct1⟩,
          hact1, hcur1, hpt1, hhi1, htr1⟩ := hsucc hkp
        simp only [h1]
        rw [if_neg (show ¬ ((0 : Nat) ≠ 0) from fun hh => hh rfl)]
        by_cases hnm : flags.no_alloc_on_cache_miss = true ∧
            ¬ flags.return_obj_on_alloc_fail = true
        · rw [if_pos hnm]
          intro _ _
          rw [failfree_cache_eq]
          obtain ⟨p2, hq2, hce2, hcp2, har2, hrl2, hsl2, hactD, hcurD, hptD,
            htrD⟩ := dec_from_one
            (sgv_get_obj (emit g0 (.chargeQuota ((2 : Int) ^ get_order size)))
              pid (get_order size) km).1 pid ((2 : Int) ^ get_order size) p1
            hgp1 hce1 hact1 hcur1
          obtain ⟨f1, f2, f3, f4, f5, f6, f7, f8, f9⟩ := fail_out_spec
            (sgv_dec_cached_entries
              (sgv_get_obj (emit g0
                (.chargeQuota ((2 : Int) ^ get_order size))) pid
                (get_order size) km).1 pid ((2 : Int) ^ get_order size))
            { ml with alloced_pages :=
                ml.alloced_pages + (2 : Int) ^ get_order size } supply
            (sgv_get_obj (emit g0
              (.chargeQuota ((2 : Int) ^ get_order size))) pid
              (get_order size) km).2.1
            ((2 : Int) ^ get_order size) false true
          refine ⟨f3.trans (by rw [if_pos rfl]; exact ml_add_sub ml _), ?_,
            f6.trans hactD, f7.trans hcurD,
            ⟨p2, ?_, hce2, ?_, har2.trans har1, hrl2.trans hrl1,
              hsl2.trans hsl1⟩, ?_⟩
          · rw [f4, if_neg (by simp), hptD, hpt1]
            show g0.pages_total - 0 = g0.pages_total
            omega
          · rw [getPool_congr _ _ pid f5]
            exact hq2
          · rw [hcp2, hcp1, hcp]
            ring
          · rw [f8, f9, htrD, htr1]
            rw [pagesAlloced_append, pagesAlloced_append, pagesFreed_append,
              pagesFreed_append]
            show pagesAlloced (g0.trace ++ [Ev.chargeQuota _]) + 0 + 0 +
                pagesFreed g0.trace =
              pagesFreed (g0.trace ++ [Ev.chargeQuota _]) + 0 + 0 +
                pagesAlloced g0.trace
            rw [pagesAlloced_append, pagesFreed_append]
            show pagesAlloced g0.trace + 0 + 0 + 0 + pagesFreed g0.trace =
              pagesFreed g0.trace + 0 + 0 + 0 + pagesAlloced g0.trace
            omega
        · rw [if_neg hnm]
          by_cases hord : get_order size ≤ sgv_max_local_order
          · rw [if_pos hord]
            dsimp only
            by_cases hret : flags.no_alloc_on_cache_miss = true ∧
                flags.return_obj_on_alloc_fail = true
            · rw [if_pos hret]
              intro _ hsgv
              exact Option.noConfusion hsgv
            · rw [if_neg hret]
              intro hres hsgv
              obtain ⟨Cml, Cpt, Cact, Ccur, ⟨p2, hq2, hce2, hcp2, har2, hrl2,
                hsl2⟩, k, hbA, hbF⟩ := gate_fill_unwind _ _ _ _ pid _ _ _ _ _
                _ _ _ _ p1 hgp1 hce1 (hsl1.trans hsl) hact1 hcur1
                (by exact rfl) hres hsgv
              refine ⟨Cml.trans (ml_add_sub ml _), ?_, Cact, Ccur,
                ⟨p2, hq2, hce2, ?_, har2.trans har1, hrl2.trans hrl1,
                  hsl2.trans hsl1⟩, ?_⟩
              · rw [Cpt, hpt1]
                rfl
              · rw [hcp2, hcp1, hcp]
                ring
              · have hA0 : pagesAlloced (sgv_get_obj (emit g0
                    (.chargeQuota ((2 : Int) ^ get_order size))) pid
                    (get_order size) km).1.trace = pagesAlloced g0.trace := by
                  rw [htr1, pagesAlloced_append]
                  show pagesAlloced (g0.trace ++ [Ev.chargeQuota _]) + 0 = _
                  rw [pagesAlloced_append]
                  show pagesAlloced g0.trace + 0 + 0 = _
                  omega
                have hF0 : pagesFreed (sgv_get_obj (emit g0
                    (.chargeQuota ((2 : Int) ^ get_order size))) pid
                    (get_order size) km).1.trace = pagesFreed g0.trace := by
                  rw [htr1, pagesFreed_append]
                  show pagesFreed (g0.trace ++ [Ev.chargeQuota _]) + 0 = _
                  rw [pagesFreed_append]
                  show pagesFreed g0.trace + 0 + 0 = _
                  omega
                rw [hbA, hbF, hA0, hF0]
                omega
          · rw [if_neg hord]
            rcases hlay : (sgv_alloc_arrays { order_or_pages := (get_order size : Int), owner_pool := pid, sg_count := 0, sg_entries := [], trans_tbl := none, sg_external := false, tt_external := false, orig_sg := 0, orig_length := 0, allocator_priv := 0, time_stamp := 0 } ((2 : Int) ^ get_order size).toNat (get_order size) (decide (pool.clustering_type ≠ .sgv_no_clustering)) (sgv_get_obj (emit g0 (.chargeQuota ((2 : Int) ^ get_order size))) pid (get_order size) km).2.1).1 with _ | objA
            · dsimp only
              intro _ _
              rw [failfree_cache_eq]
              obtain ⟨p2, hq2, hce2, hcp2, har2, hrl2, hsl2, hactD, hcurD,
                hptD, htrD⟩ := dec_from_one
                (sgv_get_obj (emit g0
                  (.chargeQuota ((2 : Int) ^ get_order size))) pid
                  (get_order size) km).1 pid ((2 : Int) ^ get_order size) p1
                hgp1 hce1 hact1 hcur1
              obtain ⟨f1, f2, f3, f4, f5, f6, f7, f8, f9⟩ := fail_out_spec
                (sgv_dec_cached_entries
                  (sgv_get_obj (emit g0
                    (.chargeQuota ((2 : Int) ^ get_order size))) pid
                    (get_order size) km).1 pid ((2 : Int) ^ get_order size))
                { ml with alloced_pages :=
                    ml.alloced_pages + (2 : Int) ^ get_order size } supply
                (sgv_alloc_arrays { order_or_pages := (get_order size : Int), owner_pool := pid, sg_count := 0, sg_entries := [], trans_tbl := none, sg_external := false, tt_external := false, orig_sg := 0, orig_length := 0, allocator_priv := 0, time_stamp := 0 } ((2 : Int) ^ get_order size).toNat (get_order size) (decide (pool.clustering_type ≠ .sgv_no_clustering)) (sgv_get_obj (emit g0 (.chargeQuota ((2 : Int) ^ get_order size))) pid (get_order size) km).2.1).2
                ((2 : Int) ^ get_order size) false true
              refine ⟨f3.trans (by rw [if_pos rfl]; exact ml_add_sub ml _), ?_,
                f6.trans hactD, f7.trans hcurD,
                ⟨p2, ?_, hce2, ?_, har2.trans har1, hrl2.trans hrl1,
                  hsl2.trans hsl1⟩, ?_⟩
              · rw [f4, if_neg (by simp), hptD, hpt1]
                show g0.pages_total - 0 = g0.pages_total
                omega
              · rw [getPool_congr _ _ pid f5]
                exact hq2
              · rw [hcp2, hcp1, hcp]
                ring
              · rw [f8, f9, htrD, htr1]
                rw [pagesAlloced_append, pagesAlloced_append,
                  pagesFreed_append, pagesFreed_append]
                show pagesAlloced (g0.trace ++ [Ev.chargeQuota _]) + 0 + 0 +
                    pagesFreed g0.trace =
                  pagesFreed (g0.trace ++ [Ev.chargeQuota _]) + 0 + 0 +
                    pagesAlloced g0.trace
                rw [pagesAlloced_append, pagesFreed_append]
                show pagesAlloced g0.trace + 0 + 0 + 0 + pagesFreed g0.trace =
                  pagesFreed g0.trace + 0 + 0 + 0 + pagesAlloced g0.trace
                omega
            · dsimp only
              by_cases hret : flags.no_alloc_on_cache_miss = true ∧
                  flags.return_obj_on_alloc_fail = true
              · rw [if_pos hret]
                intro _ hsgv
                exact Option.noConfusion hsgv
              · rw [if_neg hret]
                intro hres hsgv
                obtain ⟨Cml, Cpt, Cact, Ccur, ⟨p2, hq2, hce2, hcp2, har2,
                  hrl2, hsl2⟩, k, hbA, hbF⟩ := gate_fill_unwind _ _ _ _ pid
                  _ _ _ _ _ _ _ _ _ p1 hgp1 hce1 (hsl1.trans hsl) hact1 hcur1
                  (by exact arrays_some_entries _ _ _ _ _ objA hlay) hres hsgv
                refine ⟨Cml.trans (ml_add_sub ml _), ?_, Cact, Ccur,
                  ⟨p2, hq2, hce2, ?_, har2.trans har1, hrl2.trans hrl1,
                    hsl2.trans hsl1⟩, ?_⟩
                · rw [Cpt, hpt1]
                  rfl
                · rw [hcp2, hcp1, hcp]
                  ring
                · have hA0 : pagesAlloced (sgv_get_obj (emit g0
                      (.chargeQuota ((2 : Int) ^ get_order size))) pid
                      (get_order size) km).1.trace = pagesAlloced g0.trace := by
                    rw [htr1, pagesAlloced_append]
                    show pagesAlloced (g0.trace ++ [Ev.chargeQuota _]) + 0 = _
                    rw [pagesAlloced_append]
                    show pagesAlloced g0.trace + 0 + 0 = _
                    omega
                  have hF0 : pagesFreed (sgv_get_obj (emit g0
                      (.chargeQuota ((2 : Int) ^ get_order size))) pid
                      (get_order size) km).1.trace = pagesFreed g0.trace := by
                    rw [htr1, pagesFreed_append]
                    show pagesFreed (g0.trace ++ [Ev.chargeQuota _]) + 0 = _
                    rw [pagesFreed_append]
                    show pagesFreed g0.trace + 0 + 0 = _
                    omega
                  rw [hbA, hbF, hA0, hF0]
                  omega
  · rw [if_neg hpath]
    by_cases hq : ml.alloced_pages +
        (((size + PAGE_SIZE - 1) / PAGE_SIZE : Nat) : Int) >
        ml.max_allowed_pages
    · rw [check_allowed_fail ml
        (((size + PAGE_SIZE - 1) / PAGE_SIZE : Nat) : Int) g0 hq]
      dsimp only
      rw [if_pos (show ¬ (false = true) by simp)]
      intro _ _
      obtain ⟨f1, f2, f3, f4, f5, f6, f7, f8, f9⟩ := fail_out_spec
        (emit (emit g0 (.chargeQuota
            (((size + PAGE_SIZE - 1) / PAGE_SIZE : Nat) : Int)))
          (.unchargeQuota (((size + PAGE_SIZE - 1) / PAGE_SIZE : Nat) : Int)))
        ml supply km (((size + PAGE_SIZE - 1) / PAGE_SIZE : Nat) : Int)
        false false
      refine ⟨f3.trans (by rw [if_neg (by simp)]), ?_, f6.trans hact,
        f7.trans hcur, ⟨pool, ?_, hce, hcp, rfl, rfl, rfl⟩, ?_⟩
      · rw [f4, if_neg (by simp)]
        show g0.pages_total - 0 = g0.pages_total
        omega
      · rw [getPool_congr _ _ pid f5]
        exact hp
      · rw [f8, f9]
        show pagesAlloced ((g0.trace ++ [Ev.chargeQuota _]) ++
            [Ev.unchargeQuota _]) + pagesFreed g0.trace =
          pagesFreed ((g0.trace ++ [Ev.chargeQuota _]) ++
            [Ev.unchargeQuota _]) + pagesAlloced g0.trace
        rw [pagesAlloced_snoc, pagesAlloced_snoc, pagesFreed_snoc,
          pagesFreed_snoc]
        show pagesAlloced g0.trace + 0 + 0 + pagesFreed g0.trace =
          pagesFreed g0.trace + 0 + 0 + pagesAlloced g0.trace
        omega
    · rw [sgv_check_allowed_mem_success ml
        (((size + PAGE_SIZE - 1) / PAGE_SIZE : Nat) : Int) g0 (by omega)]
      rw [if_neg (by simp)]
      by_cases hnm : flags.no_alloc_on_cache_miss = true
      · rw [if_pos hnm]
        intro _ _
        obtain ⟨r1, r2, r3, r4, r5, r6, r7, r8, r9⟩ := return2_out_spec
          (emit g0 (.chargeQuota
            (((size + PAGE_SIZE - 1) / PAGE_SIZE : Nat) : Int)))
          { ml with alloced_pages := ml.alloced_pages +
              (((size + PAGE_SIZE - 1) / PAGE_SIZE : Nat) : Int) } supply km
          (((size + PAGE_SIZE - 1) / PAGE_SIZE : Nat) : Int) none false true
        refine ⟨r3.trans (by rw [if_pos rfl]; exact ml_add_sub ml _), ?_,
          r6.trans hact, r7.trans hcur, ⟨pool, ?_, hce, hcp, rfl, rfl, rfl⟩,
          ?_⟩
        · rw [r4, if_neg (by simp)]
          show g0.pages_total - 0 = g0.pages_total
          omega
        · rw [getPool_congr _ _ pid r5]
          exact hp
        · rw [r8, r9]
          show pagesAlloced (g0.trace ++ [Ev.chargeQuota _]) +
              pagesFreed g0.trace =
            pagesFreed (g0.trace ++ [Ev.chargeQuota _]) +
              pagesAlloced g0.trace
          rw [pagesAlloced_snoc, pagesFreed_snoc]
          show pagesAlloced g0.trace + 0 + pagesFreed g0.trace =
            pagesFreed g0.trace + 0 + pagesAlloced g0.trace
          omega
      · rw [if_neg hnm]
        rcases hkb : (kpop km).1 with _ | _
        · rw [if_pos (show ¬ (false = true) by simp)]
          intro _ _
          obtain ⟨f1, f2, f3, f4, f5, f6, f7, f8, f9⟩ := fail_out_spec
            (emit g0 (.chargeQuota
              (((size + PAGE_SIZE - 1) / PAGE_SIZE : Nat) : Int)))
            { ml with alloced_pages := ml.alloced_pages +
                (((size + PAGE_SIZE - 1) / PAGE_SIZE : Nat) : Int) } supply
            (kpop km).2
            (((size + PAGE_SIZE - 1) / PAGE_SIZE : Nat) : Int) false true
          refine ⟨f3.trans (by rw [if_pos rfl]; exact ml_add_sub ml _), ?_,
            f6.trans hact, f7.trans hcur,
            ⟨pool, ?_, hce, hcp, rfl, rfl, rfl⟩, ?_⟩
          · rw [f4, if_neg (by simp)]
            show g0.pages_total - 0 = g0.pages_total
            omega
          · rw [getPool_congr _ _ pid f5]
            exact hp
          · rw [f8, f9]
            show pagesAlloced (g0.trace ++ [Ev.chargeQuota _]) +
                pagesFreed g0.trace =
              pagesFreed (g0.trace ++ [Ev.chargeQuota _]) +
                pagesAlloced g0.trace
            rw [pagesAlloced_snoc, pagesFreed_snoc]
            show pagesAlloced g0.trace + 0 + pagesFreed g0.trace =
              pagesFreed g0.trace + 0 + pagesAlloced g0.trace
            omega
        · rw [if_neg (show ¬ ¬ (true = true) by simp)]
          by_cases hgate : (((size + PAGE_SIZE - 1) / PAGE_SIZE : Nat) : Int) +
              (emit g0 (.chargeQuota
                (((size + PAGE_SIZE - 1) / PAGE_SIZE : Nat) : Int))).pages_total ≤
              (emit g0 (.chargeQuota
                (((size + PAGE_SIZE - 1) / PAGE_SIZE : Nat) : Int))).hi_wmk
          · rw [(hiwmk_check_inactive (emit g0 (.chargeQuota
                (((size + PAGE_SIZE - 1) / PAGE_SIZE : Nat) : Int)))
              (((size + PAGE_SIZE - 1) / PAGE_SIZE : Nat) : Int) cur_time
              hact hcur).1 hgate]
            dsimp only
            rw [if_neg (show ¬ ((0 : Int) ≠ 0) by omega)]
            unfold sgvAllocFillAndFinish
            dsimp only
            rw [Int.toNat_natCast ((size + PAGE_SIZE - 1) / PAGE_SIZE)]
            by_cases hsg0 : (sgv_alloc_sg_entries
                (List.replicate ((size + PAGE_SIZE - 1) / PAGE_SIZE) sglZero)
                ((size + PAGE_SIZE - 1) / PAGE_SIZE) pool.clustering_type none
                supply (emit { emit g0 (.chargeQuota (((size + PAGE_SIZE - 1) / PAGE_SIZE : Nat) : Int)) with pages_total := (emit g0 (.chargeQuota (((size + PAGE_SIZE - 1) / PAGE_SIZE : Nat) : Int))).pages_total + (((size + PAGE_SIZE - 1) / PAGE_SIZE : Nat) : Int) } (.reserveHiwmk (((size + PAGE_SIZE - 1) / PAGE_SIZE : Nat) : Int)))).sg_count = 0
            · rw [if_pos hsg0]
              rw [if_neg (show ¬ (flags.return_obj_on_alloc_fail = true ∧
                  false = true) from fun hc => Bool.false_ne_true hc.2)]
              intro _ _
              rw [failfree_nocache_eq]
              obtain ⟨heg, _, _⟩ := sgv_alloc_sg_entries_fill
                ((size + PAGE_SIZE - 1) / PAGE_SIZE) pool.clustering_type none
                supply (emit { emit g0 (.chargeQuota (((size + PAGE_SIZE - 1) / PAGE_SIZE : Nat) : Int)) with pages_total := (emit g0 (.chargeQuota (((size + PAGE_SIZE - 1) / PAGE_SIZE : Nat) : Int))).pages_total + (((size + PAGE_SIZE - 1) / PAGE_SIZE : Nat) : Int) } (.reserveHiwmk (((size + PAGE_SIZE - 1) / PAGE_SIZE : Nat) : Int)))
              obtain ⟨f1, f2, f3, f4, f5, f6, f7, f8, f9⟩ := fail_out_spec
                (sgv_alloc_sg_entries
                  (List.replicate ((size + PAGE_SIZE - 1) / PAGE_SIZE) sglZero)
                  ((size + PAGE_SIZE - 1) / PAGE_SIZE) pool.clustering_type
                  none supply (emit { emit g0 (.chargeQuota (((size + PAGE_SIZE - 1) / PAGE_SIZE : Nat) : Int)) with pages_total := (emit g0 (.chargeQuota (((size + PAGE_SIZE - 1) / PAGE_SIZE : Nat) : Int))).pages_total + (((size + PAGE_SIZE - 1) / PAGE_SIZE : Nat) : Int) } (.reserveHiwmk (((size + PAGE_SIZE - 1) / PAGE_SIZE : Nat) : Int)))).g
                { ml with alloced_pages := ml.alloced_pages +
                    (((size + PAGE_SIZE - 1) / PAGE_SIZE : Nat) : Int) }
                (sgv_alloc_sg_entries
                  (List.replicate ((size + PAGE_SIZE - 1) / PAGE_SIZE) sglZero)
                  ((size + PAGE_SIZE - 1) / PAGE_SIZE) pool.clustering_type
                  none supply (emit { emit g0 (.chargeQuota (((size + PAGE_SIZE - 1) / PAGE_SIZE : Nat) : Int)) with pages_total := (emit g0 (.chargeQuota (((size + PAGE_SIZE - 1) / PAGE_SIZE : Nat) : Int))).pages_total + (((size + PAGE_SIZE - 1) / PAGE_SIZE : Nat) : Int) } (.reserveHiwmk (((size + PAGE_SIZE - 1) / PAGE_SIZE : Nat) : Int)))).supply
                (kpop km).2
                (((size + PAGE_SIZE - 1) / PAGE_SIZE : Nat) : Int) true true
              refine ⟨f3.trans (by rw [if_pos rfl]; exact ml_add_sub ml _),
                ?_, ?_, ?_, ⟨pool, ?_, hce, hcp, rfl, rfl, rfl⟩, ?_⟩
              · rw [f4, if_pos rfl, heg]
                show g0.pages_total +
                    (((size + PAGE_SIZE - 1) / PAGE_SIZE : Nat) : Int) -
                    (((size + PAGE_SIZE - 1) / PAGE_SIZE : Nat) : Int) =
                  g0.pages_total
                ring
              · rw [f6, heg]
                exact hact
              · rw [f7, heg]
                exact hcur
              · rw [getPool_congr _ _ pid f5, heg]
                exact hp
              · obtain ⟨k, hbA, hbF⟩ := fill_balance0
                  ((size + PAGE_SIZE - 1) / PAGE_SIZE) pool.clustering_type
                  none supply (emit { emit g0 (.chargeQuota (((size + PAGE_SIZE - 1) / PAGE_SIZE : Nat) : Int)) with pages_total := (emit g0 (.chargeQuota (((size + PAGE_SIZE - 1) / PAGE_SIZE : Nat) : Int))).pages_total + (((size + PAGE_SIZE - 1) / PAGE_SIZE : Nat) : Int) } (.reserveHiwmk (((size + PAGE_SIZE - 1) / PAGE_SIZE : Nat) : Int)))
                rw [f8, f9, hbA, hbF hsg0]
                show pagesAlloced ((g0.trace ++ [Ev.chargeQuota _]) ++
                    [Ev.reserveHiwmk _]) + k + pagesFreed g0.trace =
                  pagesFreed ((g0.trace ++ [Ev.chargeQuota _]) ++
                    [Ev.reserveHiwmk _]) + k + pagesAlloced g0.trace
                rw [pagesAlloced_snoc, pagesAlloced_snoc, pagesFreed_snoc,
                  pagesFreed_snoc]
                show pagesAlloced g0.trace + 0 + 0 + k +
                    pagesFreed g0.trace =
                  pagesFreed g0.trace + 0 + 0 + k + pagesAlloced g0.trace
                omega
            · rw [if_neg hsg0]
              intro hres _
              obtain ⟨o2, ho1, ho2, _⟩ := sgvAllocSuccess_shape _
                { ml with alloced_pages := ml.alloced_pages +
                    (((size + PAGE_SIZE - 1) / PAGE_SIZE : Nat) : Int) }
                _ (kpop km).2 pid pool.clustering_type _ false
                flags.no_cached (get_order size)
                ((size + PAGE_SIZE - 1) / PAGE_SIZE) size
              rw [ho2] at hres
              exact Option.noConfusion hres
          · rw [(hiwmk_check_inactive (emit g0 (.chargeQuota
                (((size + PAGE_SIZE - 1) / PAGE_SIZE : Nat) : Int)))
              (((size + PAGE_SIZE - 1) / PAGE_SIZE : Nat) : Int) cur_time
              hact hcur).2 (by omega)]
            dsimp only
            rw [if_pos (show ((-12 : Int) ≠ 0) by omega)]
            intro _ _
            rw [failfree_nocache_eq]
            obtain ⟨f1, f2, f3, f4, f5, f6, f7, f8, f9⟩ := fail_out_spec
              ({ emit g0 (.chargeQuota (((size + PAGE_SIZE - 1) / PAGE_SIZE : Nat) : Int)) with releases_on_hiwmk := (emit g0 (.chargeQuota (((size + PAGE_SIZE - 1) / PAGE_SIZE : Nat) : Int))).releases_on_hiwmk + 1, releases_on_hiwmk_failed := (emit g0 (.chargeQuota (((size + PAGE_SIZE - 1) / PAGE_SIZE : Nat) : Int))).releases_on_hiwmk_failed + 1 })
              { ml with alloced_pages := ml.alloced_pages +
                  (((size + PAGE_SIZE - 1) / PAGE_SIZE : Nat) : Int) } supply
              (kpop km).2
              (((size + PAGE_SIZE - 1) / PAGE_SIZE : Nat) : Int) false true
            refine ⟨f3.trans (by rw [if_pos rfl]; exact ml_add_sub ml _), ?_,
              f6.trans hact, f7.trans hcur,
              ⟨pool, ?_, hce, hcp, rfl, rfl, rfl⟩, ?_⟩
            · rw [f4, if_neg (by simp)]
              show g0.pages_total - 0 = g0.pages_total
              omega
            · rw [getPool_congr _ _ pid f5]
              exact hp
            · rw [f8, f9]
              show pagesAlloced (g0.trace ++ [Ev.chargeQuota _]) +
                  pagesFreed g0.trace =
                pagesFreed (g0.trace ++ [Ev.chargeQuota _]) +
                  pagesAlloced g0.trace
              rw [pagesAlloced_snoc, pagesFreed_snoc]
              show pagesAlloced g0.trace + 0 + pagesFreed g0.trace =
                pagesFreed g0.trace + 0 + pagesAlloced g0.trace
              omega

/-- **C3** counterexample to the claim as stated.  First run: with
`SCST_POOL_NO_ALLOC_ON_CACHE_MISS | SCST_POOL_RETURN_OBJ_ON_ALLOC_FAIL`
the allocation fails (`res = NULL`) yet the empty object is handed back
through `*sgv` and the per-bucket cached entry/page counters stay
charged (1 entry / 1 page), so on this failure the bucket counters are
*not* unwound.  Second run: a page-allocation failure unwinds
everything, but the releases run pages → bucket counters → watermark →
quota, while the resources were acquired quota → bucket counters →
watermark → pages; the exact-reverse order (which would release the
watermark before the bucket counters) is not what the code does. -/
theorem claim_C3_counterexample :
    ((sgv_pool_alloc (mkGlobal (mkEmptyPool .sgv_no_clustering)) 0 4096
        ⟨false, true, true⟩ 7 none mlBig 5 [some 7] [true] 0).res = none ∧
      (sgv_pool_alloc (mkGlobal (mkEmptyPool .sgv_no_clustering)) 0 4096
        ⟨false, true, true⟩ 7 none mlBig 5 [some 7] [true] 0).sgv ≠ none ∧
      ((getPool (sgv_pool_alloc (mkGlobal (mkEmptyPool .sgv_no_clustering))
          0 4096 ⟨false, true, true⟩ 7 none mlBig 5 [some 7] [true] 0).g
          0).getD (mkEmptyPool .sgv_no_clustering)).cached_entries = 1 ∧
      ((getPool (sgv_pool_alloc (mkGlobal (mkEmptyPool .sgv_no_clustering))
          0 4096 ⟨false, true, true⟩ 7 none mlBig 5 [some 7] [true] 0).g
          0).getD (mkEmptyPool .sgv_no_clustering)).cached_pages = 1) ∧
    ((sgv_pool_alloc (mkGlobal (mkEmptyPool .sgv_no_clustering)) 0 4096
        noFlags 7 none mlBig 5 [none] [true] 0).res = none ∧
      (sgv_pool_alloc (mkGlobal (mkEmptyPool .sgv_no_clustering)) 0 4096
        noFlags 7 none mlBig 5 [none] [true] 0).sgv = none ∧
      (sgv_pool_alloc (mkGlobal (mkEmptyPool .sgv_no_clustering)) 0 4096
          noFlags 7 none mlBig 5 [none] [true] 0).g.trace =
        [Ev.chargeQuota 1, Ev.incBucket 0 1, Ev.reserveHiwmk 1,
         Ev.freePages 0, Ev.decBucket 0 1, Ev.releaseHiwmk 1,
         Ev.unchargeQuota 1] ∧
      (sgv_pool_alloc (mkGlobal (mkEmptyPool .sgv_no_clustering)) 0 4096
          noFlags 7 none mlBig 5 [none] [true] 0).g.trace ≠
        [Ev.chargeQuota 1, Ev.incBucket 0 1, Ev.reserveHiwmk 1,
         Ev.freePages 0, Ev.releaseHiwmk 1, Ev.decBucket 0 1,
         Ev.unchargeQuota 1]) := by
  decide

lemma getD_replicate_nil : ∀ (n j : Nat),
    (List.replicate n ([] : List ObjId)).getD j [] = [] := by
  intro n
  induction n with
  | zero => intro j; cases j <;> rfl
  | succ m ih =>
    intro j
    cases j with
    | zero => rfl
    | succ i => exact ih i

/-- Witness for C3: a page-allocation failure on a fresh pool (supply
`[none]`) is fully unwound — quota, watermark, bucket counters and the
page balance are all restored. -/
theorem claim_C3_failure_unwind_witness :
    getPool (mkGlobal (mkEmptyPool .sgv_no_clustering)) 0 =
      some (mkEmptyPool .sgv_no_clustering) ∧
    (mkEmptyPool .sgv_no_clustering).cached_entries = 0 ∧
    ((sgv_pool_alloc (mkGlobal (mkEmptyPool .sgv_no_clustering)) 0 4096
        noFlags 7 none mlBig 5 [none] [true] 0).ml = mlBig ∧
      (sgv_pool_alloc (mkGlobal (mkEmptyPool .sgv_no_clustering)) 0 4096
          noFlags 7 none mlBig 5 [none] [true] 0).g.pages_total =
        (mkGlobal (mkEmptyPool .sgv_no_clustering)).pages_total ∧
      (sgv_pool_alloc (mkGlobal (mkEmptyPool .sgv_no_clustering)) 0 4096
          noFlags 7 none mlBig 5 [none] [true] 0).g.active_pools_list = [] ∧
      (sgv_pool_alloc (mkGlobal (mkEmptyPool .sgv_no_clustering)) 0 4096
          noFlags 7 none mlBig 5 [none] [true] 0).g.cur_purge_pool = none ∧
      (∃ pool2, getPool (sgv_pool_alloc
            (mkGlobal (mkEmptyPool .sgv_no_clustering)) 0 4096 noFlags 7
            none mlBig 5 [none] [true] 0).g 0 = some pool2 ∧
        pool2.cached_entries = 0 ∧ pool2.cached_pages = 0 ∧
        pool2.arena = (mkEmptyPool .sgv_no_clustering).arena ∧
        pool2.recycling_lists =
          (mkEmptyPool .sgv_no_clustering).recycling_lists ∧
        pool2.sorted_recycling_list =
          (mkEmptyPool .sgv_no_clustering).sorted_recycling_list) ∧
      pagesAlloced (sgv_pool_alloc (mkGlobal (mkEmptyPool
          .sgv_no_clustering)) 0 4096 noFlags 7 none mlBig 5 [none] [true]
          0).g.trace +
        pagesFreed (mkGlobal (mkEmptyPool .sgv_no_clustering)).trace =
      pagesFreed (sgv_pool_alloc (mkGlobal (mkEmptyPool
          .sgv_no_clustering)) 0 4096 noFlags 7 none mlBig 5 [none] [true]
          0).g.trace +
        pagesAlloced (mkGlobal (mkEmptyPool .sgv_no_clustering)).trace) :=
  ⟨by decide, by decide,
    claim_C3_failure_unwind (mkGlobal (mkEmptyPool .sgv_no_clustering)) 0
      4096 noFlags 7 mlBig 5 [none] [true] 0
      (mkEmptyPool .sgv_no_clustering) (by decide) (by decide) (by decide)
      (fun k2 => getD_replicate_nil SGV_POOL_ELEMENTS k2) (by decide)
      (by decide) (by decide) (by decide) (by decide)⟩
